import Mathlib

/-!
# Cirrus Logic HD-audio codec patch (patch_cirrus.c)

A shallow embedding of the device-specific control layer of
`src/patch_cirrus.c`: the per-device state `cs_spec`, the automute engine
`cs_automute`, the S/PDIF jack tracker `cs4210_spdif_automute`, the fixup
and pin tables, the errata verb sequences and the probe functions.

Conventions of the embedding

* A C function `f(codec)` becomes `f : hda_codec → hda_codec × List hda_event`:
  the device state after the call and the calls it made into the HD-audio
  core, in program order.
* `unsigned int` fields are natural numbers; the only arithmetic the modelled
  code performs on them is bitwise or/and, which cannot overflow.
* One-bit bitfields and C `bool` are `Bool`.
* Verb identifiers (`AC_VERB_*`) are kept symbolic.
-/

namespace PatchCirrus

/-! ## Basic types -/

/-- Widget node identifier (`hda_nid_t`). -/
abbrev hda_nid_t := Nat

/-- The verbs (`AC_VERB_*`) used by the modelled part of the file. -/
inductive hda_verb_id
  | AC_VERB_SET_POWER_STATE
  | AC_VERB_SET_PROC_STATE
  | AC_VERB_SET_COEF_INDEX
  | AC_VERB_SET_PROC_COEF
  | AC_VERB_GET_PROC_COEF
  | AC_VERB_SET_GPIO_MASK
  | AC_VERB_SET_GPIO_DIRECTION
  | AC_VERB_SET_GPIO_DATA
  deriving DecidableEq, Repr

open hda_verb_id

/-- Lifecycle points at which fixups are applied (`HDA_FIXUP_ACT_*`). -/
inductive hda_fixup_action
  | HDA_FIXUP_ACT_PRE_PROBE
  | HDA_FIXUP_ACT_PROBE
  | HDA_FIXUP_ACT_INIT
  | HDA_FIXUP_ACT_BUILD
  | HDA_FIXUP_ACT_FREE
  deriving DecidableEq, Repr

open hda_fixup_action

/-- The codec operation tables defined in the file. -/
inductive hda_codec_ops
  | cs_patch_ops
  | cs421x_patch_ops
  | cs_8409_patch_ops
  deriving DecidableEq, Repr

/-- The quirk tables handed to `snd_hda_pick_fixup`. -/
inductive fixup_family
  | cs420x
  | cs4208
  | cs4208_mac
  | cs421x
  | cs8409
  deriving DecidableEq, Repr

/-- Calls a function of this file makes onto the bus and into the generic
layer, as seen by a recorder that keeps them in order. Accesses whose effect
is held in `hda_codec` itself (pin configurations, capability overrides) are
not events. -/
inductive hda_event
  /-- Call of `snd_hda_codec_write(codec, nid, 0, verb, param)`. -/
  | codec_write (nid : hda_nid_t) (verb : hda_verb_id) (param : Nat)
  /-- Call of `snd_hda_codec_read(codec, nid, 0, verb, param)`. -/
  | codec_read (nid : hda_nid_t) (verb : hda_verb_id) (param : Nat)
  /-- Call of `snd_hda_gen_update_outputs(codec)`. -/
  | gen_update_outputs
  /-- Call of `snd_hda_jack_detect(codec, nid)`. -/
  | jack_detect (nid : hda_nid_t)
  /-- Call of `snd_hda_set_pin_ctl(codec, nid, val)`. -/
  | set_pin_ctl (nid : hda_nid_t) (val : Nat)
  /-- Call of `snd_hda_pick_fixup` with the tables of one chip family. -/
  | pick_fixup (family : fixup_family)
  /-- Call of `snd_hda_apply_fixup(codec, action)`. -/
  | apply_fixup (action : hda_fixup_action)
  /-- Call of `snd_hda_parse_pin_defcfg`. -/
  | parse_pin_defcfg
  /-- Call of `snd_hda_gen_parse_auto_config`. -/
  | gen_parse_auto_config
  /-- Call of `snd_hda_gen_fix_pin_power(codec, nid)`. -/
  | gen_fix_pin_power (nid : hda_nid_t)
  /-- Call of `snd_hda_jack_detect_enable_callback(codec, nid, cs4210_spdif_automute)`. -/
  | jack_detect_enable_callback (nid : hda_nid_t)
  /-- Call of `snd_hda_gen_add_kctl(&spec->gen, NULL, &cs421x_speaker_boost_ctl)`. -/
  | gen_add_kctl
  /-- Call of `cs_free`, that is `snd_hda_gen_free(codec)`. -/
  | gen_free
  /-- Call of `snd_hda_gen_init(codec)`. -/
  | gen_init
  /-- Call of `snd_hda_shutup_pins(codec)`. -/
  | shutup_pins
  deriving DecidableEq, Repr

/-- Entry of a pin-override table (`struct hda_pintbl`). -/
structure hda_pintbl where
  nid : hda_nid_t
  val : Nat
  deriving DecidableEq, Repr

/-- Entry of a verb table (`struct hda_verb`). -/
structure hda_verb where
  nid : hda_nid_t
  verb : hda_verb_id
  param : Nat
  deriving DecidableEq, Repr

/-- The fixup callbacks defined in the file. -/
inductive hda_fixup_func
  | cs420x_fixup_gpio_13
  | cs420x_fixup_gpio_23
  | cs4208_fixup_gpio0
  | cs4208_fixup_mac
  | cs4208_fixup_macmini
  | cs4208_fixup_spdif_switch
  | cs421x_fixup_sense_b
  | cs_8409_fixup_gpio
  deriving DecidableEq, Repr

/-- Payload of a fixup entry: the member `type` together with the member of
the union `v` it selects. `invalid` is the zero-initialised entry. -/
inductive hda_fixup_v
  | invalid
  | HDA_FIXUP_PINS (pins : List hda_pintbl)
  | HDA_FIXUP_VERBS (verbs : List hda_verb)
  | HDA_FIXUP_FUNC (func : hda_fixup_func)
  deriving DecidableEq, Repr

/-- Fixup entry (`struct hda_fixup`). -/
structure hda_fixup where
  v : hda_fixup_v
  chained : Bool
  chain_id : Nat
  deriving DecidableEq, Repr

/-- The `put` callbacks a mixer control can hold: the one the generic layer
installs for the IEC958 playback switch, and the one defined in this file. -/
inductive kctl_put
  | generic_put
  | cs4208_spdif_sw_put
  deriving DecidableEq, Repr

/-! ## Device state -/

/-- The part of `struct auto_pin_cfg` read by this file. -/
structure auto_pin_cfg where
  speaker_outs : Nat
  dig_outs : Nat
  dig_out_pins : List hda_nid_t
  deriving DecidableEq, Repr

/-- The part of `struct hda_gen_spec` read or written by this file. -/
structure hda_gen_spec where
  autocfg : auto_pin_cfg
  master_mute : Bool
  automute_speaker : Bool
  hp_jack_present : Bool
  /-- Is `automute_hook` set to `cs_automute`. -/
  automute_hook : Bool
  out_vol_mask : Nat
  dyn_adc_switch : Bool
  /-- Field `input_mux.num_items`. -/
  num_items : Nat
  dyn_adc_idx : List Nat
  adc_nids : List hda_nid_t
  deriving DecidableEq, Repr

/-- Per-device state `struct cs_spec` (the CS8409 play-time bookkeeping is
left out). -/
structure cs_spec where
  gen : hda_gen_spec
  gpio_mask : Nat
  gpio_dir : Nat
  gpio_data : Nat
  /-- EAPD GPIO bit for headphones. -/
  gpio_eapd_hp : Nat
  /-- EAPD GPIO bit for speakers. -/
  gpio_eapd_speaker : Nat
  spdif_detect : Bool
  spdif_present : Bool
  sense_b : Bool
  vendor_nid : hda_nid_t
  /-- The saved setter of the S/PDIF switch (for MBP SPDIF control); `none` is
  NULL. -/
  spdif_sw_put : Option kctl_put
  deriving DecidableEq, Repr

/-- The codec: the driver state `codec->spec`, the codec-level flags this file
sets, and the registers of the device as a recording bus sees them. -/
structure hda_codec where
  spec : cs_spec
  patch_ops : Option hda_codec_ops
  single_adc_amp : Bool
  power_save_node : Bool
  inv_jack_detect : Bool
  /-- Field `codec->fixup_id`; `HDA_FIXUP_ID_NOT_SET` is `-1`. -/
  fixup_id : Int
  /-- Field `codec->fixup_list`, the fixup table picked; the empty list is NULL. -/
  fixup_list : List hda_fixup
  /-- Field `codec->modelname`, the model the operator selected; `none` is NULL. -/
  modelname : Option String
  /-- Subsystem vendor of the hardware identity. -/
  subsystem_vendor : Nat
  /-- Subsystem device of the hardware identity. -/
  subsystem_device : Nat
  /-- The `put` callback installed in the mixer control "IEC958 Playback
  Switch", as `snd_hda_find_mixer_ctl` finds it; `none` when the control does
  not exist. -/
  iec958_playback_switch : Option kctl_put
  /-- Pin default configuration, as `snd_hda_codec_get_pincfg` reads it. -/
  pincfg : hda_nid_t → Nat
  /-- Coefficient index register of each processing widget. -/
  coef_index : hda_nid_t → Nat
  /-- Coefficient registers of each processing widget, by index. -/
  proc_coef : hda_nid_t → Nat → Nat
  /-- Widget capabilities, as `get_wcaps` reads them. -/
  wcaps : hda_nid_t → Nat
  /-- Amplifier capabilities, as `query_amp_caps` reads them; the flag tells
  the output direction. -/
  amp_caps : hda_nid_t → Bool → Nat

/-- All-zero `auto_pin_cfg`, as `kzalloc` leaves it. -/
def auto_pin_cfg_zero : auto_pin_cfg :=
  { speaker_outs := 0, dig_outs := 0, dig_out_pins := [] }

/-- All-zero `hda_gen_spec`. -/
def hda_gen_spec_zero : hda_gen_spec :=
  { autocfg := auto_pin_cfg_zero, master_mute := false, automute_speaker := false,
    hp_jack_present := false, automute_hook := false, out_vol_mask := 0,
    dyn_adc_switch := false, num_items := 0, dyn_adc_idx := [], adc_nids := [] }

/-- All-zero `cs_spec`, as `kzalloc` returns it. -/
def cs_spec_zero : cs_spec :=
  { gen := hda_gen_spec_zero, gpio_mask := 0, gpio_dir := 0, gpio_data := 0,
    gpio_eapd_hp := 0, gpio_eapd_speaker := 0, spdif_detect := false,
    spdif_present := false, sense_b := false, vendor_nid := 0,
    spdif_sw_put := none }

/-- A codec before any patch function ran: no state, no fixup picked, all
registers zero. -/
def hda_codec_zero : hda_codec :=
  { spec := cs_spec_zero, patch_ops := none, single_adc_amp := false,
    power_save_node := false, inv_jack_detect := false, fixup_id := -1,
    fixup_list := [], modelname := none, subsystem_vendor := 0, subsystem_device := 0,
    iec958_playback_switch := none,
    pincfg := fun _ => 0, coef_index := fun _ => 0, proc_coef := fun _ _ => 0,
    wcaps := fun _ => 0, amp_caps := fun _ _ => 0 }

/-- Element `i` of a zero-initialised C array held as a list. -/
def array_get (a : List Nat) (i : Nat) : Nat := a.getD i 0

/-! ## Chip constants -/

def CS420X_VENDOR_NID : hda_nid_t := 0x11
def CS_DIG_OUT1_PIN_NID : hda_nid_t := 0x10
def CS_DIG_OUT2_PIN_NID : hda_nid_t := 0x15
def CS_DMIC1_PIN_NID : hda_nid_t := 0x0e
def CS_DMIC2_PIN_NID : hda_nid_t := 0x12
def IDX_SPDIF_STAT : Nat := 0x0000
def IDX_SPDIF_CTL : Nat := 0x0001
def IDX_ADC_CFG : Nat := 0x0002
def IDX_DAC_CFG : Nat := 0x0003
def IDX_BEEP_CFG : Nat := 0x0004
def CS4208_VENDOR_NID : hda_nid_t := 0x24
def CS4210_DAC_NID : hda_nid_t := 0x02
def CS4210_ADC_NID : hda_nid_t := 0x03
def CS4210_VENDOR_NID : hda_nid_t := 0x0B
def CS421X_DMIC_PIN_NID : hda_nid_t := 0x09
def CS421X_SPDIF_PIN_NID : hda_nid_t := 0x0A
def CS421X_IDX_DEV_CFG : Nat := 0x01
def CS421X_IDX_ADC_CFG : Nat := 0x02
def CS421X_IDX_DAC_CFG : Nat := 0x03
def CS421X_IDX_SPK_CTL : Nat := 0x04
def CS4213_VENDOR_NID : hda_nid_t := 0x09
def CS8409_VENDOR_NID : hda_nid_t := 0x47

/-- Constants of the HD-audio and errno headers that the file uses but does
not define; the functions below take them as a parameter. -/
structure hda_consts where
  ENOMEM : Int
  PIN_OUT : Nat
  AC_WCAP_STEREO : Nat
  AC_WCAP_UNSOL_CAP : Nat
  AC_AMPCAP_OFFSET : Nat
  AC_AMPCAP_OFFSET_SHIFT : Nat
  AC_AMPCAP_NUM_STEPS_SHIFT : Nat
  AC_DEFCFG_PORT_CONN : Nat
  AC_DEFCFG_PORT_CONN_SHIFT : Nat
  AC_JACK_PORT_NONE : Nat
  AC_PWRST_D3 : Nat
  deriving DecidableEq, Repr

/-- Modelled from the spec: the constants of the HD-audio headers
(`hda_verbs.h`, `hda_local.h`) and of `errno-base.h`, which are not part of
this file, with the values those headers give them: the port-connectivity
field is bits 31:30 of a pin configuration, the offset field bits 6..0 and the
number-of-steps field bits 14..8 of an amplifier capability word. -/
def hda_consts_std : hda_consts :=
  { ENOMEM := 12, PIN_OUT := 0x40, AC_WCAP_STEREO := 0x1, AC_WCAP_UNSOL_CAP := 0x80,
    AC_AMPCAP_OFFSET := 0x7f, AC_AMPCAP_OFFSET_SHIFT := 0, AC_AMPCAP_NUM_STEPS_SHIFT := 8,
    AC_DEFCFG_PORT_CONN := 0xC0000000, AC_DEFCFG_PORT_CONN_SHIFT := 30,
    AC_JACK_PORT_NONE := 0x1, AC_PWRST_D3 := 0x03 }

/-! ## Register access -/

/-- Modelled from the spec: the bus write
`snd_hda_codec_write(codec, nid, 0, verb, param)` of the HD-audio core, against
a bus that records every write in order. A coefficient register is reached by
the two-step protocol: a coefficient-index write selects the register of the
widget and a coefficient write stores into the selected register. -/
def snd_hda_codec_write (codec : hda_codec) (nid : hda_nid_t) (verb : hda_verb_id)
    (param : Nat) : hda_codec × List hda_event :=
  let ev := [hda_event.codec_write nid verb param]
  match verb with
  | AC_VERB_SET_COEF_INDEX =>
    ({ codec with coef_index := fun n => if n = nid then param else codec.coef_index n }, ev)
  | AC_VERB_SET_PROC_COEF =>
    ({ codec with
        proc_coef := fun n i =>
          if n = nid ∧ i = codec.coef_index nid then param else codec.proc_coef n i }, ev)
  | _ => (codec, ev)

/-- Modelled from the spec: the bus read
`snd_hda_codec_read(codec, nid, 0, verb, param)` of the HD-audio core; a
coefficient read returns the value last written to the selected coefficient
register of the widget. -/
def snd_hda_codec_read (codec : hda_codec) (nid : hda_nid_t) (verb : hda_verb_id)
    (param : Nat) : Nat × List hda_event :=
  let ev := [hda_event.codec_read nid verb param]
  match verb with
  | AC_VERB_GET_PROC_COEF => (codec.proc_coef nid (codec.coef_index nid), ev)
  | _ => (0, ev)

/-- Source function `cs_vendor_coef_get`. -/
def cs_vendor_coef_get (codec : hda_codec) (idx : Nat) : Nat × hda_codec × List hda_event :=
  let w := snd_hda_codec_write codec codec.spec.vendor_nid AC_VERB_SET_COEF_INDEX idx
  let r := snd_hda_codec_read w.1 codec.spec.vendor_nid AC_VERB_GET_PROC_COEF 0
  (r.1, w.1, w.2 ++ r.2)

/-- Source function `cs_vendor_coef_set`. -/
def cs_vendor_coef_set (codec : hda_codec) (idx : Nat) (coef : Nat) :
    hda_codec × List hda_event :=
  let w1 := snd_hda_codec_write codec codec.spec.vendor_nid AC_VERB_SET_COEF_INDEX idx
  let w2 := snd_hda_codec_write w1.1 codec.spec.vendor_nid AC_VERB_SET_PROC_COEF coef
  (w2.1, w1.2 ++ w2.2)

/-! ## Automute engine -/

/-- Source function `cs_automute`: master mute follows S/PDIF presence on
SENSE_B boards, the generic layer updates the outputs, and the EAPD GPIO bits
are derived and written when the board has any. The call
`snd_hda_gen_update_outputs` is recorded; it programs the output pins from
`master_mute`, `automute_speaker` and the jack flags and writes none of the
fields modelled here. -/
def cs_automute (codec : hda_codec) : hda_codec × List hda_event :=
  let spec := codec.spec
  let spec := { spec with
    gen := { spec.gen with master_mute := spec.spdif_present && spec.sense_b } }
  let codec := { codec with spec := spec }
  let ev := [hda_event.gen_update_outputs]
  if spec.gpio_eapd_hp ≠ 0 ∨ spec.gpio_eapd_speaker ≠ 0 then
    let spec := { spec with
      gpio_data :=
        if spec.gen.automute_speaker then
          (if spec.gen.hp_jack_present then spec.gpio_eapd_hp else spec.gpio_eapd_speaker)
        else
          spec.gpio_eapd_hp ||| spec.gpio_eapd_speaker }
    let codec := { codec with spec := spec }
    let w := snd_hda_codec_write codec 0x01 AC_VERB_SET_GPIO_DATA spec.gpio_data
    (w.1, ev ++ w.2)
  else
    (codec, ev)

/-- Source function `cs4210_spdif_automute`; `jack_sense` is what
`snd_hda_jack_detect` reports for a pin. -/
def cs4210_spdif_automute (k : hda_consts) (jack_sense : hda_nid_t → Bool)
    (codec : hda_codec) : hda_codec × List hda_event :=
  let spec := codec.spec
  let spdif_pin := array_get spec.gen.autocfg.dig_out_pins 0
  if !spec.spdif_detect || spec.vendor_nid != CS4210_VENDOR_NID then
    (codec, [])
  else
    let spdif_present := jack_sense spdif_pin
    let ev := [hda_event.jack_detect spdif_pin]
    if spdif_present == spec.spdif_present then
      (codec, ev)
    else
      let codec := { codec with spec := { spec with spdif_present := spdif_present } }
      let ev := ev ++ [hda_event.set_pin_ctl spdif_pin (if spdif_present then k.PIN_OUT else 0)]
      let a := cs_automute codec
      (a.1, ev ++ a.2)

/-! ## Pin tables -/

def mbp53_pincfgs : List hda_pintbl :=
  [⟨0x09, 0x012b4050⟩, ⟨0x0a, 0x90100141⟩, ⟨0x0b, 0x90100140⟩, ⟨0x0c, 0x018b3020⟩,
   ⟨0x0d, 0x90a00110⟩, ⟨0x0e, 0x400000f0⟩, ⟨0x0f, 0x01cbe030⟩, ⟨0x10, 0x014be060⟩,
   ⟨0x12, 0x400000f0⟩, ⟨0x15, 0x400000f0⟩, ⟨0, 0⟩]

def mbp55_pincfgs : List hda_pintbl :=
  [⟨0x09, 0x012b4030⟩, ⟨0x0a, 0x90100121⟩, ⟨0x0b, 0x90100120⟩, ⟨0x0c, 0x400000f0⟩,
   ⟨0x0d, 0x90a00110⟩, ⟨0x0e, 0x400000f0⟩, ⟨0x0f, 0x400000f0⟩, ⟨0x10, 0x014be040⟩,
   ⟨0x12, 0x400000f0⟩, ⟨0x15, 0x400000f0⟩, ⟨0, 0⟩]

def imac27_pincfgs : List hda_pintbl :=
  [⟨0x09, 0x012b4050⟩, ⟨0x0a, 0x90100140⟩, ⟨0x0b, 0x90100142⟩, ⟨0x0c, 0x018b3020⟩,
   ⟨0x0d, 0x90a00110⟩, ⟨0x0e, 0x400000f0⟩, ⟨0x0f, 0x01cbe030⟩, ⟨0x10, 0x014be060⟩,
   ⟨0x12, 0x01ab9070⟩, ⟨0x15, 0x400000f0⟩, ⟨0, 0⟩]

def mbp101_pincfgs : List hda_pintbl :=
  [⟨0x0d, 0x40ab90f0⟩, ⟨0x0e, 0x90a600f0⟩, ⟨0x12, 0x50a600f0⟩, ⟨0, 0⟩]

def mba42_pincfgs : List hda_pintbl :=
  [⟨0x09, 0x012b4030⟩, ⟨0x0a, 0x400000f0⟩, ⟨0x0b, 0x90100120⟩, ⟨0x0c, 0x400000f0⟩,
   ⟨0x0d, 0x90a00110⟩, ⟨0x0e, 0x400000f0⟩, ⟨0x0f, 0x400000f0⟩, ⟨0x10, 0x400000f0⟩,
   ⟨0x12, 0x400000f0⟩, ⟨0x15, 0x400000f0⟩, ⟨0, 0⟩]

def mba6_pincfgs : List hda_pintbl :=
  [⟨0x10, 0x032120f0⟩, ⟨0x11, 0x500000f0⟩, ⟨0x12, 0x90100010⟩, ⟨0x13, 0x500000f0⟩,
   ⟨0x14, 0x500000f0⟩, ⟨0x15, 0x770000f0⟩, ⟨0x16, 0x770000f0⟩, ⟨0x17, 0x430000f0⟩,
   ⟨0x18, 0x43ab9030⟩, ⟨0x19, 0x770000f0⟩, ⟨0x1a, 0x770000f0⟩, ⟨0x1b, 0x770000f0⟩,
   ⟨0x1c, 0x90a00090⟩, ⟨0x1d, 0x500000f0⟩, ⟨0x1e, 0x500000f0⟩, ⟨0x1f, 0x500000f0⟩,
   ⟨0x20, 0x500000f0⟩, ⟨0x21, 0x430000f0⟩, ⟨0x22, 0x430000f0⟩, ⟨0, 0⟩]

/-- The table `pincfgs` local to `cs4208_fixup_macmini`. -/
def cs4208_fixup_macmini_pincfgs : List hda_pintbl :=
  [⟨0x18, 0x00ab9150⟩, ⟨0x21, 0x004be140⟩, ⟨0, 0⟩]

def cdb4210_pincfgs : List hda_pintbl :=
  [⟨0x05, 0x0321401f⟩, ⟨0x06, 0x90170010⟩, ⟨0x07, 0x03813031⟩, ⟨0x08, 0xb7a70037⟩,
   ⟨0x09, 0xb7a6003e⟩, ⟨0x0a, 0x034510f0⟩, ⟨0, 0⟩]

def stumpy_pincfgs : List hda_pintbl :=
  [⟨0x05, 0x022120f0⟩, ⟨0x06, 0x901700f0⟩, ⟨0x07, 0x02a120f0⟩, ⟨0x08, 0x77a70037⟩,
   ⟨0x09, 0x77a6003e⟩, ⟨0x0a, 0x434510f0⟩, ⟨0, 0⟩]

def mbp131_pincfgs : List hda_pintbl :=
  [⟨0, 0⟩]

def mbp143_pincfgs : List hda_pintbl :=
  [⟨0, 0⟩]

/-- Entries of a pin table in front of its terminator (the first entry whose
`nid` is zero). -/
def pintbl_entries (cfg : List hda_pintbl) : List hda_pintbl :=
  cfg.takeWhile (fun e => e.nid != 0)

/-- Modelled from the spec: the read of a pin default configuration,
`snd_hda_codec_get_pincfg` of the HD-audio core. -/
def snd_hda_codec_get_pincfg (codec : hda_codec) (nid : hda_nid_t) : Nat :=
  codec.pincfg nid

/-- Modelled from the spec: the override of one pin default configuration,
`snd_hda_codec_set_pincfg` of the HD-audio core; later reads of that pin return
the new value and every other pin is untouched. -/
def snd_hda_codec_set_pincfg (codec : hda_codec) (nid : hda_nid_t) (cfg : Nat) : hda_codec :=
  { codec with pincfg := fun n => if n = nid then cfg else codec.pincfg n }

/-- Modelled from the spec: the pin-override step of the fixup applier
(`snd_hda_apply_pincfgs`, which lives in the HD-audio core and not in this
file). It walks the table up to its terminator and overwrites the pin
configuration of every listed pin; pins not listed are untouched. -/
def snd_hda_apply_pincfgs (codec : hda_codec) : List hda_pintbl → hda_codec
  | [] => codec
  | e :: rest =>
    if e.nid = 0 then codec
    else snd_hda_apply_pincfgs (snd_hda_codec_set_pincfg codec e.nid e.val) rest

/-- Every pin table defined in the file. -/
def all_pincfgs : List (List hda_pintbl) :=
  [mbp53_pincfgs, mbp55_pincfgs, imac27_pincfgs, mbp101_pincfgs, mba42_pincfgs,
   mba6_pincfgs, cdb4210_pincfgs, stumpy_pincfgs, cs4208_fixup_macmini_pincfgs]

/-! ## Verb tables -/

/-- Terminator `{}` of a verb table; only its zero `nid` is looked at. -/
def hda_verb_end : hda_verb := ⟨0, AC_VERB_SET_POWER_STATE, 0⟩

/-- Entries of a verb table in front of its terminator (the first entry whose
`nid` is zero). -/
def verb_entries (seq : List hda_verb) : List hda_verb :=
  seq.takeWhile (fun v => v.nid != 0)

def cs_coef_init_verbs : List hda_verb :=
  [⟨0x11, AC_VERB_SET_PROC_STATE, 1⟩,
   ⟨0x11, AC_VERB_SET_COEF_INDEX, IDX_DAC_CFG⟩,
   ⟨0x11, AC_VERB_SET_PROC_COEF, 0x002a ||| 0x0040 ||| 0x1000 ||| 0x0400⟩,
   ⟨0x11, AC_VERB_SET_COEF_INDEX, IDX_ADC_CFG⟩,
   ⟨0x11, AC_VERB_SET_PROC_COEF, 0x000a⟩,
   ⟨0x11, AC_VERB_SET_COEF_INDEX, IDX_BEEP_CFG⟩,
   ⟨0x11, AC_VERB_SET_PROC_COEF, 0x0007⟩,
   hda_verb_end]

def cs4208_coef_init_verbs : List hda_verb :=
  [⟨0x01, AC_VERB_SET_POWER_STATE, 0x00⟩,
   ⟨0x24, AC_VERB_SET_PROC_STATE, 0x01⟩,
   ⟨0x24, AC_VERB_SET_COEF_INDEX, 0x0033⟩,
   ⟨0x24, AC_VERB_SET_PROC_COEF, 0x0001⟩,
   ⟨0x24, AC_VERB_SET_COEF_INDEX, 0x0034⟩,
   ⟨0x24, AC_VERB_SET_PROC_COEF, 0x1C01⟩,
   hda_verb_end]

/-- Errata workaround for CS4207 rev C0/C1/C2: briefly turn on the S/PDIF SRC
blocks. The two D3 entries under `#if 0` are not part of the table. -/
def cs_errata_init_verbs : List hda_verb :=
  [⟨0x01, AC_VERB_SET_POWER_STATE, 0x00⟩,
   ⟨0x11, AC_VERB_SET_PROC_STATE, 0x01⟩,
   ⟨0x11, AC_VERB_SET_COEF_INDEX, 0x0008⟩,
   ⟨0x11, AC_VERB_SET_PROC_COEF, 0x9999⟩,
   ⟨0x11, AC_VERB_SET_COEF_INDEX, 0x0017⟩,
   ⟨0x11, AC_VERB_SET_PROC_COEF, 0xa412⟩,
   ⟨0x11, AC_VERB_SET_COEF_INDEX, 0x0001⟩,
   ⟨0x11, AC_VERB_SET_PROC_COEF, 0x0009⟩,
   ⟨0x07, AC_VERB_SET_POWER_STATE, 0x00⟩,
   ⟨0x08, AC_VERB_SET_POWER_STATE, 0x00⟩,
   ⟨0x11, AC_VERB_SET_COEF_INDEX, 0x0017⟩,
   ⟨0x11, AC_VERB_SET_PROC_COEF, 0x2412⟩,
   ⟨0x11, AC_VERB_SET_COEF_INDEX, 0x0008⟩,
   ⟨0x11, AC_VERB_SET_PROC_COEF, 0x0000⟩,
   ⟨0x11, AC_VERB_SET_COEF_INDEX, 0x0001⟩,
   ⟨0x11, AC_VERB_SET_PROC_COEF, 0x0008⟩,
   ⟨0x11, AC_VERB_SET_PROC_STATE, 0x00⟩,
   hda_verb_end]

/-- The verb table inside the `CS420X_MBP81` fixup. -/
def cs420x_mbp81_verbs : List hda_verb :=
  [⟨0x11, AC_VERB_SET_COEF_INDEX, IDX_ADC_CFG⟩,
   ⟨0x11, AC_VERB_SET_PROC_COEF, 0x102a⟩,
   hda_verb_end]

def cs421x_coef_init_verbs : List hda_verb :=
  [⟨0x0B, AC_VERB_SET_PROC_STATE, 1⟩,
   ⟨0x0B, AC_VERB_SET_COEF_INDEX, CS421X_IDX_DEV_CFG⟩,
   ⟨0x0B, AC_VERB_SET_PROC_COEF, 0x0001⟩,
   ⟨0x0B, AC_VERB_SET_COEF_INDEX, CS421X_IDX_ADC_CFG⟩,
   ⟨0x0B, AC_VERB_SET_PROC_COEF, 0x0002⟩,
   ⟨0x0B, AC_VERB_SET_COEF_INDEX, CS421X_IDX_DAC_CFG⟩,
   ⟨0x0B, AC_VERB_SET_PROC_COEF, 0x0002 ||| 0x0004 ||| 0x0008⟩,
   hda_verb_end]

/-- Errata workaround for CS4210 rev A1 silicon. -/
def cs421x_coef_init_verbs_A1_silicon_fixes : List hda_verb :=
  [⟨0x0B, AC_VERB_SET_PROC_STATE, 0x01⟩,
   ⟨0x0B, AC_VERB_SET_COEF_INDEX, 0x0006⟩,
   ⟨0x0B, AC_VERB_SET_PROC_COEF, 0x9999⟩,
   ⟨0x0B, AC_VERB_SET_COEF_INDEX, 0x000A⟩,
   ⟨0x0B, AC_VERB_SET_PROC_COEF, 0x14CB⟩,
   ⟨0x0B, AC_VERB_SET_COEF_INDEX, 0x0011⟩,
   ⟨0x0B, AC_VERB_SET_PROC_COEF, 0xA2D0⟩,
   ⟨0x0B, AC_VERB_SET_COEF_INDEX, 0x001A⟩,
   ⟨0x0B, AC_VERB_SET_PROC_COEF, 0x02A9⟩,
   ⟨0x0B, AC_VERB_SET_COEF_INDEX, 0x001B⟩,
   ⟨0x0B, AC_VERB_SET_PROC_COEF, 0x1006⟩,
   hda_verb_end]

/-- Modelled from the spec: the sequence executor (`snd_hda_sequence_write`,
which lives in the HD-audio core and not in this file). It issues the writes
of a verb table in table order, up to the terminator, with no reordering. -/
def snd_hda_sequence_write (codec : hda_codec) : List hda_verb → hda_codec × List hda_event
  | [] => (codec, [])
  | v :: rest =>
    if v.nid = 0 then (codec, [])
    else
      let w := snd_hda_codec_write codec v.nid v.verb v.param
      let r := snd_hda_sequence_write w.1 rest
      (r.1, w.2 ++ r.2)

/-- Coefficient writes found in a recording: replaying the recording from the
index registers `idx`, the list of (widget, coefficient index, value) of every
coefficient write, in order. -/
def coef_writes (idx : hda_nid_t → Nat) : List hda_event → List (hda_nid_t × Nat × Nat)
  | [] => []
  | hda_event.codec_write nid AC_VERB_SET_COEF_INDEX param :: rest =>
    coef_writes (fun n => if n = nid then param else idx n) rest
  | hda_event.codec_write nid AC_VERB_SET_PROC_COEF param :: rest =>
    (nid, idx nid, param) :: coef_writes idx rest
  | _ :: rest => coef_writes idx rest

/-- Values written to coefficient `i` of widget `nid` in a recording, in order. -/
def coef_values (idx : hda_nid_t → Nat) (nid : hda_nid_t) (i : Nat)
    (l : List hda_event) : List Nat :=
  ((coef_writes idx l).filter (fun w => w.1 == nid && w.2.1 == i)).map (fun w => w.2.2)

/-! ## Fixup tables -/

/-- Fixup identifiers of the CS420x family (`enum`, with its two aliases). -/
def CS420X_MBP53 : Nat := 0
def CS420X_MBP55 : Nat := 1
def CS420X_IMAC27 : Nat := 2
def CS420X_GPIO_13 : Nat := 3
def CS420X_GPIO_23 : Nat := 4
def CS420X_MBP101 : Nat := 5
def CS420X_MBP81 : Nat := 6
def CS420X_MBA42 : Nat := 7
def CS420X_AUTO : Nat := 8
def CS420X_IMAC27_122 : Nat := CS420X_GPIO_23
def CS420X_APPLE : Nat := CS420X_GPIO_13

/-- Fixup identifiers of the CS421x boards. -/
def CS421X_CDB4210 : Nat := 0
def CS421X_SENSE_B : Nat := 1
def CS421X_STUMPY : Nat := 2

/-- Fixup identifiers of the CS4208 family. -/
def CS4208_MAC_AUTO : Nat := 0
def CS4208_MBA6 : Nat := 1
def CS4208_MBP11 : Nat := 2
def CS4208_MACMINI : Nat := 3
def CS4208_GPIO0 : Nat := 4

/-- Fixup identifiers of the CS8409 family. -/
def CS8409_MBP131 : Nat := 0
def CS8409_GPIO_0 : Nat := 1
def CS8409_MBP143 : Nat := 2
def CS8409_GPIO : Nat := 3

/-- Zero-initialised fixup entry. -/
def hda_fixup_zero : hda_fixup := { v := hda_fixup_v.invalid, chained := false, chain_id := 0 }

/-- Array built from designated initialisers `[id] = entry`: as long as the
largest designated index requires, the entry designated last for an index
wins, and an index never designated holds the zero entry. -/
def designated (inits : List (Nat × hda_fixup)) : List hda_fixup :=
  (List.range (inits.foldl (fun n e => max n (e.1 + 1)) 0)).map fun i =>
    match inits.reverse.find? (fun e => e.1 == i) with
    | some e => e.2
    | none => hda_fixup_zero

def cs420x_fixups : List hda_fixup :=
  designated
    [(CS420X_MBP53,
        { v := .HDA_FIXUP_PINS mbp53_pincfgs, chained := true, chain_id := CS420X_APPLE }),
     (CS420X_MBP55,
        { v := .HDA_FIXUP_PINS mbp55_pincfgs, chained := true, chain_id := CS420X_GPIO_13 }),
     (CS420X_IMAC27,
        { v := .HDA_FIXUP_PINS imac27_pincfgs, chained := true, chain_id := CS420X_GPIO_13 }),
     (CS420X_GPIO_13,
        { v := .HDA_FIXUP_FUNC .cs420x_fixup_gpio_13, chained := false, chain_id := 0 }),
     (CS420X_GPIO_23,
        { v := .HDA_FIXUP_FUNC .cs420x_fixup_gpio_23, chained := false, chain_id := 0 }),
     (CS420X_MBP101,
        { v := .HDA_FIXUP_PINS mbp101_pincfgs, chained := true, chain_id := CS420X_GPIO_13 }),
     (CS420X_MBP81,
        { v := .HDA_FIXUP_VERBS cs420x_mbp81_verbs, chained := true,
          chain_id := CS420X_GPIO_13 }),
     (CS420X_MBA42,
        { v := .HDA_FIXUP_PINS mba42_pincfgs, chained := true, chain_id := CS420X_GPIO_13 })]

def cs4208_fixups : List hda_fixup :=
  designated
    [(CS4208_MBA6,
        { v := .HDA_FIXUP_PINS mba6_pincfgs, chained := true, chain_id := CS4208_GPIO0 }),
     (CS4208_MBP11,
        { v := .HDA_FIXUP_FUNC .cs4208_fixup_spdif_switch, chained := true,
          chain_id := CS4208_GPIO0 }),
     (CS4208_MACMINI,
        { v := .HDA_FIXUP_FUNC .cs4208_fixup_macmini, chained := true,
          chain_id := CS4208_GPIO0 }),
     (CS4208_GPIO0,
        { v := .HDA_FIXUP_FUNC .cs4208_fixup_gpio0, chained := false, chain_id := 0 }),
     (CS4208_MAC_AUTO,
        { v := .HDA_FIXUP_FUNC .cs4208_fixup_mac, chained := false, chain_id := 0 })]

def cs421x_fixups : List hda_fixup :=
  designated
    [(CS421X_CDB4210,
        { v := .HDA_FIXUP_PINS cdb4210_pincfgs, chained := true, chain_id := CS421X_SENSE_B }),
     (CS421X_SENSE_B,
        { v := .HDA_FIXUP_FUNC .cs421x_fixup_sense_b, chained := false, chain_id := 0 }),
     (CS421X_STUMPY,
        { v := .HDA_FIXUP_PINS stumpy_pincfgs, chained := false, chain_id := 0 })]

def cs8409_fixups : List hda_fixup :=
  designated
    [(CS8409_MBP131,
        { v := .HDA_FIXUP_PINS mbp131_pincfgs, chained := true, chain_id := CS8409_GPIO_0 }),
     (CS8409_GPIO_0,
        { v := .HDA_FIXUP_FUNC .cs_8409_fixup_gpio, chained := false, chain_id := 0 }),
     (CS8409_MBP143,
        { v := .HDA_FIXUP_PINS mbp143_pincfgs, chained := true, chain_id := CS8409_GPIO }),
     ( CS8409_GPIO,
        { v := .HDA_FIXUP_FUNC .cs_8409_fixup_gpio, chained := false, chain_id := 0 })]

/-- Every fixup table defined in the file. -/
def all_fixups : List (List hda_fixup) :=
  [cs420x_fixups, cs4208_fixups, cs421x_fixups, cs8409_fixups]

/-- Index `id` holds an entry written in the table (not a hole left by the
designated initialisers, and not past the end). -/
def defined_entry (table : List hda_fixup) (id : Nat) : Prop :=
  ∃ fix, table[id]? = some fix ∧ fix.v ≠ hda_fixup_v.invalid

instance (table : List hda_fixup) (id : Nat) : Decidable (defined_entry table id) :=
  match h : table[id]? with
  | none => isFalse (by intro ⟨fix, h1, _⟩; rw [h] at h1; cases h1)
  | some fix =>
    if hv : fix.v = hda_fixup_v.invalid then
      isFalse (by intro ⟨fix2, h1, h2⟩; rw [h] at h1; cases h1; exact h2 hv)
    else isTrue ⟨fix, h, hv⟩

/-- Failure of chain resolution. -/
inductive ResolutionError
  | dangling (id : Nat)
  | cycle (id : Nat)
  deriving DecidableEq, Repr

/-- Chain walk with a visited-entry guard; `fuel` bounds the number of entries
appended. -/
def resolve_from (table : List hda_fixup) :
    Nat → List Nat → Nat → Except ResolutionError (List Nat)
  | 0, _, id => .error (.cycle id)
  | fuel + 1, visited, id =>
    if id ∈ visited then .error (.cycle id)
    else
      match table[id]? with
      | none => .error (.dangling id)
      | some fix =>
        if fix.chained then
          match resolve_from table fuel (id :: visited) fix.chain_id with
          | .ok l => .ok (id :: l)
          | .error e => .error e
        else .ok [id]

/-- Modelled from the spec: the fixup resolver (the chain walk of
`snd_hda_apply_fixup`, which lives in the HD-audio core and not in this file).
From the starting entry it follows `chain_id` while `chained` is true,
appending each entry, and stops at the first entry that is not chained; a
reference outside the table or to an entry already visited is a resolution
error. A walk over a table of `n` entries appends at most `n` entries, so the
fuel `n + 1` is never used up. -/
def resolve (table : List hda_fixup) (id : Nat) : Except ResolutionError (List Nat) :=
  resolve_from table (table.length + 1) [] id

/-- Does the list follow the chain links of the table: each entry but the last
is chained to its successor in the list, and the last entry is not chained. -/
def follows_chain (table : List hda_fixup) : List Nat → Bool
  | [] => false
  | [id] =>
    match table[id]? with
    | some fix => !fix.chained
    | none => false
  | id :: next :: rest =>
    (match table[id]? with
     | some fix => fix.chained && fix.chain_id == next
     | none => false) && follows_chain table (next :: rest)

/-! ## Fixup callbacks -/

/-- Source function `cs420x_fixup_gpio_13`. -/
def cs420x_fixup_gpio_13 (codec : hda_codec) (action : hda_fixup_action) : hda_codec :=
  if action = HDA_FIXUP_ACT_PRE_PROBE then
    let spec := codec.spec
    let spec := { spec with gpio_eapd_hp := 2 }
    let spec := { spec with gpio_eapd_speaker := 8 }
    let spec := { spec with gpio_dir := spec.gpio_eapd_hp ||| spec.gpio_eapd_speaker }
    let spec := { spec with gpio_mask := spec.gpio_dir }
    { codec with spec := spec }
  else codec

/-- Source function `cs420x_fixup_gpio_23`. -/
def cs420x_fixup_gpio_23 (codec : hda_codec) (action : hda_fixup_action) : hda_codec :=
  if action = HDA_FIXUP_ACT_PRE_PROBE then
    let spec := codec.spec
    let spec := { spec with gpio_eapd_hp := 4 }
    let spec := { spec with gpio_eapd_speaker := 8 }
    let spec := { spec with gpio_dir := spec.gpio_eapd_hp ||| spec.gpio_eapd_speaker }
    let spec := { spec with gpio_mask := spec.gpio_dir }
    { codec with spec := spec }
  else codec

/-- Source function `cs4208_fixup_gpio0`. -/
def cs4208_fixup_gpio0 (codec : hda_codec) (action : hda_fixup_action) : hda_codec :=
  if action = HDA_FIXUP_ACT_PRE_PROBE then
    let spec := codec.spec
    let spec := { spec with gpio_eapd_hp := 0 }
    let spec := { spec with gpio_eapd_speaker := 1 }
    let spec := { spec with gpio_dir := spec.gpio_eapd_hp ||| spec.gpio_eapd_speaker }
    let spec := { spec with gpio_mask := spec.gpio_dir }
    { codec with spec := spec }
  else codec

/-- Source function `cs421x_fixup_sense_b`. -/
def cs421x_fixup_sense_b (codec : hda_codec) (action : hda_fixup_action) : hda_codec :=
  if action = HDA_FIXUP_ACT_PRE_PROBE then
    { codec with spec := { codec.spec with sense_b := true } }
  else codec

/-- Source function `cs4208_fixup_macmini`: MacMini 7,1 has the inverted jack
detection, and its mic and S/PDIF jack detections are disabled. -/
def cs4208_fixup_macmini (codec : hda_codec) (action : hda_fixup_action) : hda_codec :=
  if action = HDA_FIXUP_ACT_PRE_PROBE then
    let codec := { codec with inv_jack_detect := true }
    snd_hda_apply_pincfgs codec cs4208_fixup_macmini_pincfgs
  else codec

/-- Source function `cs4208_fixup_spdif_switch`: hook the S/PDIF switch. The
lookup `snd_hda_find_mixer_ctl(codec, "IEC958 Playback Switch")` reads the
control held in `iec958_playback_switch`. -/
def cs4208_fixup_spdif_switch (codec : hda_codec) (action : hda_fixup_action) : hda_codec :=
  if action = HDA_FIXUP_ACT_BUILD then
    if array_get codec.spec.gen.autocfg.dig_out_pins 0 = 0 then codec
    else
      match codec.iec958_playback_switch with
      | none => codec
      | some put =>
        let codec := { codec with spec := { codec.spec with spdif_sw_put := some put } }
        { codec with iec958_playback_switch := some kctl_put.cs4208_spdif_sw_put }
  else codec

/-- Source function `cs_8409_fixup_gpio`: every branch only prints; the
assignments of the PRE_PROBE branch are commented out. -/
def cs_8409_fixup_gpio (codec : hda_codec) (action : hda_fixup_action) : hda_codec :=
  match action with
  | HDA_FIXUP_ACT_PRE_PROBE => codec
  | HDA_FIXUP_ACT_PROBE => codec
  | HDA_FIXUP_ACT_INIT => codec
  | HDA_FIXUP_ACT_BUILD => codec
  | HDA_FIXUP_ACT_FREE => codec

/-! ## Fixup selection -/

/-- Value `HDA_FIXUP_ID_NOT_SET` of `codec->fixup_id`. -/
def HDA_FIXUP_ID_NOT_SET : Int := -1

/-- Entry of a model table (`struct hda_model_fixup`); the terminator has no
name. -/
structure hda_model_fixup where
  id : Nat
  name : Option String
  deriving DecidableEq, Repr

def cs420x_models : List hda_model_fixup :=
  [⟨CS420X_MBP53, some "mbp53"⟩,
   ⟨CS420X_MBP55, some "mbp55"⟩,
   ⟨CS420X_IMAC27, some "imac27"⟩,
   ⟨CS420X_IMAC27_122, some "imac27_122"⟩,
   ⟨CS420X_APPLE, some "apple"⟩,
   ⟨CS420X_MBP101, some "mbp101"⟩,
   ⟨CS420X_MBP81, some "mbp81"⟩,
   ⟨CS420X_MBA42, some "mba42"⟩,
   ⟨0, none⟩]

def cs4208_models : List hda_model_fixup :=
  [⟨CS4208_GPIO0, some "gpio0"⟩,
   ⟨CS4208_MBA6, some "mba6"⟩,
   ⟨CS4208_MBP11, some "mbp11"⟩,
   ⟨CS4208_MACMINI, some "macmini"⟩,
   ⟨0, none⟩]

def cs421x_models : List hda_model_fixup :=
  [⟨CS421X_CDB4210, some "cdb4210"⟩,
   ⟨CS421X_STUMPY, some "stumpy"⟩,
   ⟨0, none⟩]

def cs8409_models : List hda_model_fixup :=
  [⟨CS8409_MBP131, some "mbp131"⟩,
   ⟨CS8409_MBP143, some "mbp143"⟩,
   ⟨0, none⟩]

/-- Entry of a quirk table (`struct snd_pci_quirk`): subsystem vendor, subsystem
device, the mask applied to the device, and the fixup id. -/
structure snd_pci_quirk where
  subvendor : Nat
  subdevice : Nat
  subdevice_mask : Nat
  value : Nat
  deriving DecidableEq, Repr

/-- Modelled from the spec: the header macro `SND_PCI_QUIRK`, which is not part
of this file: an exact entry, matching its subsystem vendor and device. -/
def SND_PCI_QUIRK (vend dev val : Nat) : snd_pci_quirk :=
  { subvendor := vend, subdevice := dev, subdevice_mask := 0xffff, value := val }

/-- Modelled from the spec: the header macro `SND_PCI_QUIRK_VENDOR`, which is
not part of this file: a vendor entry, matching every device of its vendor. -/
def SND_PCI_QUIRK_VENDOR (vend val : Nat) : snd_pci_quirk :=
  { subvendor := vend, subdevice := 0, subdevice_mask := 0, value := val }

/-- Terminator `{}` of a quirk table. -/
def snd_pci_quirk_end : snd_pci_quirk :=
  { subvendor := 0, subdevice := 0, subdevice_mask := 0, value := 0 }

/-- The entry `SND_PCI_QUIRK(0x8086, 0x7270, "IMac 27 Inch", CS420X_IMAC27)` is
commented out in the source and is not part of the table. -/
def cs420x_fixup_tbl : List snd_pci_quirk :=
  [SND_PCI_QUIRK 0x10de 0x0ac0 CS420X_MBP53,
   SND_PCI_QUIRK 0x10de 0x0d94 CS420X_MBP55,
   SND_PCI_QUIRK 0x10de 0xcb79 CS420X_MBP55,
   SND_PCI_QUIRK 0x10de 0xcb89 CS420X_MBP55,
   SND_PCI_QUIRK 0x106b 0x0600 CS420X_IMAC27_122,
   SND_PCI_QUIRK 0x106b 0x1c00 CS420X_MBP81,
   SND_PCI_QUIRK 0x106b 0x2000 CS420X_IMAC27_122,
   SND_PCI_QUIRK 0x106b 0x2800 CS420X_MBP101,
   SND_PCI_QUIRK 0x106b 0x5600 CS420X_MBP81,
   SND_PCI_QUIRK 0x106b 0x5b00 CS420X_MBA42,
   SND_PCI_QUIRK_VENDOR 0x106b CS420X_APPLE,
   snd_pci_quirk_end]

def cs4208_fixup_tbl : List snd_pci_quirk :=
  [SND_PCI_QUIRK_VENDOR 0x106b CS4208_MAC_AUTO,
   snd_pci_quirk_end]

/-- Codec SSID matching. -/
def cs4208_mac_fixup_tbl : List snd_pci_quirk :=
  [SND_PCI_QUIRK 0x106b 0x5e00 CS4208_MBP11,
   SND_PCI_QUIRK 0x106b 0x6c00 CS4208_MACMINI,
   SND_PCI_QUIRK 0x106b 0x7100 CS4208_MBA6,
   SND_PCI_QUIRK 0x106b 0x7200 CS4208_MBA6,
   SND_PCI_QUIRK 0x106b 0x7b00 CS4208_MBP11,
   snd_pci_quirk_end]

def cs421x_fixup_tbl : List snd_pci_quirk :=
  [SND_PCI_QUIRK 0x8086 0x5001 CS421X_CDB4210,
   snd_pci_quirk_end]

def cs8409_fixup_tbl : List snd_pci_quirk :=
  [SND_PCI_QUIRK 0x106b 0x3300 CS8409_MBP131,
   SND_PCI_QUIRK 0x106b 0x3900 CS8409_MBP143,
   snd_pci_quirk_end]

/-- Entries of a quirk table in front of its terminator (the first entry whose
`subvendor` is zero). -/
def quirk_entries (tbl : List snd_pci_quirk) : List snd_pci_quirk :=
  tbl.takeWhile (fun q => q.subvendor != 0)

/-- Entries of a model table in front of its terminator. -/
def model_entries (models : List hda_model_fixup) : List hda_model_fixup :=
  models.takeWhile (fun m => m.name.isSome)

/-- Is the entry an exact entry (it looks at the device). -/
def quirk_is_exact (q : snd_pci_quirk) : Bool := q.subdevice_mask != 0

/-- Modelled from the spec: the match of one quirk entry (part of
`snd_pci_quirk_lookup` of the sound core, which is not part of this file): an
exact entry matches its subsystem vendor and device, a vendor entry matches
every device of its vendor. -/
def quirk_matches (q : snd_pci_quirk) (vendor device : Nat) : Bool :=
  q.subvendor == vendor &&
    (q.subdevice_mask == 0 || q.subdevice == device &&& q.subdevice_mask)

/-- Modelled from the spec: first-match lookup over a quirk table (the walk of
`snd_pci_quirk_lookup` of the sound core, which is not part of this file): the
first entry of the table, in table order, that matches the identity. -/
def first_match_lookup (tbl : List snd_pci_quirk) (vendor device : Nat) :
    Option snd_pci_quirk :=
  (quirk_entries tbl).find? (fun q => quirk_matches q vendor device)

/-- Modelled from the spec: the quirk lookup of the fixup resolver (the lookup
of `snd_hda_pick_fixup`, which lives in the HD-audio core and not in this file):
the exact match for the identity if the table has one, the vendor match
otherwise. -/
def quirk_lookup (tbl : List snd_pci_quirk) (vendor device : Nat) : Option snd_pci_quirk :=
  match (quirk_entries tbl).find? (fun q => quirk_is_exact q && quirk_matches q vendor device)
  with
  | some q => some q
  | none =>
    (quirk_entries tbl).find? (fun q => !quirk_is_exact q && quirk_matches q vendor device)

/-- Modelled from the spec: the fixup pick (`snd_hda_pick_fixup`, which lives in
the HD-audio core and not in this file). A model name selected by the operator
and found in the model table takes precedence and bypasses the quirk table;
otherwise the quirk table is looked up with the hardware identity; the entry
found gives `fixup_id` and the fixup table becomes `fixup_list`. When nothing
matches the codec is left as it is. `models` and `quirk` are empty for NULL. -/
def snd_hda_pick_fixup (codec : hda_codec) (models : List hda_model_fixup)
    (quirk : List snd_pci_quirk) (fixlist : List hda_fixup) : hda_codec :=
  match codec.modelname.bind
    (fun n => (model_entries models).find? (fun m => m.name == some n)) with
  | some m => { codec with fixup_id := (m.id : Int), fixup_list := fixlist }
  | none =>
    match quirk_lookup quirk codec.subsystem_vendor codec.subsystem_device with
    | some q => { codec with fixup_id := (q.value : Int), fixup_list := fixlist }
    | none => codec

/-! ## Fixup application -/

/-- Result of a fixup application: the codec and the calls recorded; `none`
when the application does not come to an end (a malformed chain, or the nesting
bound used up). -/
abbrev fixup_result := Option (hda_codec × List hda_event)

/-- Source function `cs4208_fixup_mac`: remap the fixup from the codec SSID and
apply it. `apply` is `snd_hda_apply_fixup`, which the function calls. -/
def cs4208_fixup_mac (apply : hda_codec → hda_fixup_action → fixup_result)
    (codec : hda_codec) (action : hda_fixup_action) : fixup_result :=
  if action ≠ HDA_FIXUP_ACT_PRE_PROBE then some (codec, [])
  else
    let codec := { codec with fixup_id := HDA_FIXUP_ID_NOT_SET }
    let codec := snd_hda_pick_fixup codec [] cs4208_mac_fixup_tbl cs4208_fixups
    let codec :=
      if codec.fixup_id = HDA_FIXUP_ID_NOT_SET then
        { codec with fixup_id := (CS4208_GPIO0 : Int) } /- default fixup -/
      else codec
    match apply codec action with
    | none => none
    | some r =>
      some (r.1, [hda_event.pick_fixup fixup_family.cs4208_mac, hda_event.apply_fixup action]
        ++ r.2)

/-- Call of the fixup callback `fix->v.func(codec, fix, action)`. -/
def call_fixup_func (apply : hda_codec → hda_fixup_action → fixup_result) :
    hda_fixup_func → hda_codec → hda_fixup_action → fixup_result
  | .cs420x_fixup_gpio_13, codec, action => some (cs420x_fixup_gpio_13 codec action, [])
  | .cs420x_fixup_gpio_23, codec, action => some (cs420x_fixup_gpio_23 codec action, [])
  | .cs4208_fixup_gpio0, codec, action => some (cs4208_fixup_gpio0 codec action, [])
  | .cs4208_fixup_mac, codec, action => cs4208_fixup_mac apply codec action
  | .cs4208_fixup_macmini, codec, action => some (cs4208_fixup_macmini codec action, [])
  | .cs4208_fixup_spdif_switch, codec, action =>
    some (cs4208_fixup_spdif_switch codec action, [])
  | .cs421x_fixup_sense_b, codec, action => some (cs421x_fixup_sense_b codec action, [])
  | .cs_8409_fixup_gpio, codec, action => some (cs_8409_fixup_gpio codec action, [])

/-- Modelled from the spec: one step of the fixup applier (the body of the loop
of `snd_hda_apply_fixup`, which lives in the HD-audio core and not in this
file). A callback is invoked with the lifecycle point; a pin-override table is
applied only at PRE_PROBE; a raw register sequence is issued only at INIT. -/
def apply_fixup_entry (apply : hda_codec → hda_fixup_action → fixup_result)
    (fix : hda_fixup) (codec : hda_codec) (action : hda_fixup_action) : fixup_result :=
  match fix.v with
  | .invalid => some (codec, [])
  | .HDA_FIXUP_PINS pins =>
    if action = HDA_FIXUP_ACT_PRE_PROBE then some (snd_hda_apply_pincfgs codec pins, [])
    else some (codec, [])
  | .HDA_FIXUP_VERBS verbs =>
    if action = HDA_FIXUP_ACT_INIT then some (snd_hda_sequence_write codec verbs)
    else some (codec, [])
  | .HDA_FIXUP_FUNC func => call_fixup_func apply func codec action

/-- Modelled from the spec: the fixup applier over a resolved chain: the entries
are applied in chain order, each on the codec the previous one left. -/
def apply_fixup_chain (apply : hda_codec → hda_fixup_action → fixup_result)
    (table : List hda_fixup) (action : hda_fixup_action) :
    List Nat → hda_codec → fixup_result
  | [], codec => some (codec, [])
  | id :: rest, codec =>
    match table[id]? with
    | none => none
    | some fix =>
      match apply_fixup_entry apply fix codec action with
      | none => none
      | some r =>
        match apply_fixup_chain apply table action rest r.1 with
        | none => none
        | some r2 => some (r2.1, r.2 ++ r2.2)

/-- Modelled from the spec: the fixup applier (`snd_hda_apply_fixup`, which
lives in the HD-audio core and not in this file). With no fixup picked it does
nothing; otherwise it resolves the chain that starts at `fixup_id` in
`fixup_list` and applies it for the lifecycle point. The first argument bounds
the nesting of applications (a callback may call the applier again); `none`
means the bound is used up or the chain is malformed. -/
def snd_hda_apply_fixup : Nat → hda_codec → hda_fixup_action → fixup_result
  | 0, _, _ => none
  | depth + 1, codec, action =>
    if codec.fixup_list = [] ∨ codec.fixup_id < 0 then some (codec, [])
    else
      match resolve codec.fixup_list codec.fixup_id.toNat with
      | .error _ => none
      | .ok chain =>
        apply_fixup_chain (snd_hda_apply_fixup depth) codec.fixup_list action chain codec

/-! ## Probe -/

/-- Services of the HD-audio core and of the generic parser that the probe
functions call and whose code is not in this file: what each hands back, as a
function of the codec it is called on. -/
structure hda_core where
  /-- Does `kzalloc` return memory. -/
  kzalloc_ok : Bool
  snd_hda_pick_fixup : fixup_family → hda_codec → hda_codec
  snd_hda_apply_fixup : hda_fixup_action → hda_codec → hda_codec
  snd_hda_parse_pin_defcfg : hda_codec → Int × hda_codec
  snd_hda_gen_parse_auto_config : hda_codec → Int × hda_codec
  /-- Does `snd_hda_gen_add_kctl` return a control (non-NULL). -/
  snd_hda_gen_add_kctl : Bool
  snd_hda_gen_free : hda_codec → hda_codec
  /-- Generic initialization `snd_hda_gen_init`; it may run the automute hook. -/
  snd_hda_gen_init : hda_codec → hda_codec

/-- Source function `cs_alloc_spec`; `none` is the NULL return. The call
`snd_hda_gen_spec_init` sets up bookkeeping of the generic layer that is not
modelled. -/
def cs_alloc_spec (core : hda_core) (codec : hda_codec) (vendor_nid : hda_nid_t) :
    Option hda_codec :=
  if core.kzalloc_ok then
    let spec := cs_spec_zero
    let codec := { codec with spec := spec }
    let codec := { codec with spec := { codec.spec with vendor_nid := vendor_nid } }
    let codec := { codec with power_save_node := true }
    some codec
  else none

/-- Mask of 32 bits, the width of `unsigned int`. -/
def U32_MAX : Nat := 0xffffffff

/-- The loop of `cs_parse_auto_config` that keeps the ADCs powered up, over the
remaining values of `i`, with the bit set `done`. The shift `1 << idx` is
taken in 32 bits. -/
def fix_adc_pin_power (gen : hda_gen_spec) : List Nat → Nat → List hda_event
  | [], _ => []
  | i :: rest, done =>
    let idx := array_get gen.dyn_adc_idx i
    if done &&& ((1 <<< idx) &&& U32_MAX) ≠ 0 then
      fix_adc_pin_power gen rest done
    else
      hda_event.gen_fix_pin_power (array_get gen.adc_nids idx) ::
        fix_adc_pin_power gen rest (done ||| ((1 <<< idx) &&& U32_MAX))

/-- Source function `cs_parse_auto_config`. -/
def cs_parse_auto_config (core : hda_core) (codec : hda_codec) :
    Int × hda_codec × List hda_event :=
  let r := core.snd_hda_parse_pin_defcfg codec
  let ev := [hda_event.parse_pin_defcfg]
  if r.1 < 0 then (r.1, r.2, ev)
  else
    let r := core.snd_hda_gen_parse_auto_config r.2
    let ev := ev ++ [hda_event.gen_parse_auto_config]
    if r.1 < 0 then (r.1, r.2, ev)
    else
      let codec := r.2
      if codec.spec.gen.dyn_adc_switch then
        (0, codec, ev ++ fix_adc_pin_power codec.spec.gen (List.range codec.spec.gen.num_items) 0)
      else (0, codec, ev)

/-- Source function `patch_cs420x`: return value, codec and recorded calls. -/
def patch_cs420x (k : hda_consts) (core : hda_core) (codec : hda_codec) :
    Int × hda_codec × List hda_event :=
  match cs_alloc_spec core codec CS420X_VENDOR_NID with
  | none => (-k.ENOMEM, codec, [])
  | some codec =>
    let codec := { codec with patch_ops := some hda_codec_ops.cs_patch_ops }
    let codec := { codec with
      spec := { codec.spec with gen := { codec.spec.gen with automute_hook := true } } }
    let codec := { codec with single_adc_amp := true }
    let codec := core.snd_hda_pick_fixup fixup_family.cs420x codec
    let ev := [hda_event.pick_fixup fixup_family.cs420x]
    let codec := core.snd_hda_apply_fixup HDA_FIXUP_ACT_PRE_PROBE codec
    let ev := ev ++ [hda_event.apply_fixup HDA_FIXUP_ACT_PRE_PROBE]
    let p := cs_parse_auto_config core codec
    let ev := ev ++ p.2.2
    if p.1 < 0 then
      (p.1, core.snd_hda_gen_free p.2.1, ev ++ [hda_event.gen_free])
    else
      let codec := core.snd_hda_apply_fixup HDA_FIXUP_ACT_PROBE p.2.1
      (0, codec, ev ++ [hda_event.apply_fixup HDA_FIXUP_ACT_PROBE])

/-- Modelled from the spec: the read of the widget capabilities, `get_wcaps`
of the HD-audio core. -/
def get_wcaps (codec : hda_codec) (nid : hda_nid_t) : Nat := codec.wcaps nid

/-- Modelled from the spec: the override of the widget capabilities,
`snd_hda_override_wcaps` of the HD-audio core; later reads return the new
value. -/
def snd_hda_override_wcaps (codec : hda_codec) (nid : hda_nid_t) (val : Nat) : hda_codec :=
  { codec with wcaps := fun n => if n = nid then val else codec.wcaps n }

/-- Modelled from the spec: the read of the amplifier capabilities,
`query_amp_caps` of the HD-audio core. -/
def query_amp_caps (codec : hda_codec) (nid : hda_nid_t) (output : Bool) : Nat :=
  codec.amp_caps nid output

/-- Modelled from the spec: the override of the amplifier capabilities,
`snd_hda_override_amp_caps` of the HD-audio core; later reads return the new
value. -/
def snd_hda_override_amp_caps (codec : hda_codec) (nid : hda_nid_t) (output : Bool)
    (caps : Nat) : hda_codec :=
  { codec with
    amp_caps := fun n d => if n = nid ∧ d = output then caps else codec.amp_caps n d }

/-- Source function `cs4208_fix_amp_caps`, on the input amplifier
(`HDA_INPUT`) of `adc`. -/
def cs4208_fix_amp_caps (k : hda_consts) (codec : hda_codec) (adc : hda_nid_t) : hda_codec :=
  let caps := query_amp_caps codec adc false
  let caps := caps &&& (U32_MAX ^^^ k.AC_AMPCAP_OFFSET)
  let caps := caps ||| 0x02
  snd_hda_override_amp_caps codec adc false caps

/-- Source function `patch_cs4208`. -/
def patch_cs4208 (k : hda_consts) (core : hda_core) (codec : hda_codec) :
    Int × hda_codec × List hda_event :=
  match cs_alloc_spec core codec CS4208_VENDOR_NID with
  | none => (-k.ENOMEM, codec, [])
  | some codec =>
    let codec := { codec with patch_ops := some hda_codec_ops.cs_patch_ops }
    let codec := { codec with
      spec := { codec.spec with gen := { codec.spec.gen with automute_hook := true } } }
    let codec := { codec with
      spec := { codec.spec with gen := { codec.spec.gen with out_vol_mask := 1 <<< 0x10 } } }
    let codec := core.snd_hda_pick_fixup fixup_family.cs4208 codec
    let ev := [hda_event.pick_fixup fixup_family.cs4208]
    let codec := core.snd_hda_apply_fixup HDA_FIXUP_ACT_PRE_PROBE codec
    let ev := ev ++ [hda_event.apply_fixup HDA_FIXUP_ACT_PRE_PROBE]
    let codec := snd_hda_override_wcaps codec 0x18 (get_wcaps codec 0x18 ||| k.AC_WCAP_STEREO)
    let codec := cs4208_fix_amp_caps k codec 0x18
    let codec := cs4208_fix_amp_caps k codec 0x1b
    let codec := cs4208_fix_amp_caps k codec 0x1c
    let p := cs_parse_auto_config core codec
    let ev := ev ++ p.2.2
    if p.1 < 0 then
      (p.1, core.snd_hda_gen_free p.2.1, ev ++ [hda_event.gen_free])
    else
      let codec := core.snd_hda_apply_fixup HDA_FIXUP_ACT_PROBE p.2.1
      (0, codec, ev ++ [hda_event.apply_fixup HDA_FIXUP_ACT_PROBE])

/-- Modelled from the spec: the header macro `get_defcfg_connect`, which is not
part of this file: the port-connectivity field of a pin default
configuration. -/
def get_defcfg_connect (k : hda_consts) (cfg : Nat) : Nat :=
  (cfg &&& k.AC_DEFCFG_PORT_CONN) >>> k.AC_DEFCFG_PORT_CONN_SHIFT

/-- Source function `is_active_pin`. -/
def is_active_pin (k : hda_consts) (codec : hda_codec) (nid : hda_nid_t) : Bool :=
  let val := snd_hda_codec_get_pincfg codec nid
  get_defcfg_connect k val != k.AC_JACK_PORT_NONE

/-- Source function `cs4210_pinmux_init`. -/
def cs4210_pinmux_init (k : hda_consts) (codec : hda_codec) : hda_codec × List hda_event :=
  let spec := codec.spec
  let g := cs_vendor_coef_get codec CS421X_IDX_DEV_CFG
  let coef := g.1 &&& U32_MAX
  let codec := g.2.1
  let coef := if spec.gpio_mask ≠ 0 then coef ||| 0x0008 else coef &&& (U32_MAX ^^^ 0x0008)
  let coef := if spec.sense_b then coef ||| 0x0010 else coef &&& (U32_MAX ^^^ 0x0010)
  let s := cs_vendor_coef_set codec CS421X_IDX_DEV_CFG coef
  let codec := s.1
  let ev := g.2.2 ++ s.2
  if (spec.gpio_mask ≠ 0 || spec.sense_b) && is_active_pin k codec CS421X_DMIC_PIN_NID then
    let def_conf := snd_hda_codec_get_pincfg codec CS421X_DMIC_PIN_NID
    let def_conf := def_conf &&& (U32_MAX ^^^ k.AC_DEFCFG_PORT_CONN)
    let def_conf := def_conf ||| (k.AC_JACK_PORT_NONE <<< k.AC_DEFCFG_PORT_CONN_SHIFT)
    (snd_hda_codec_set_pincfg codec CS421X_DMIC_PIN_NID def_conf, ev)
  else (codec, ev)

/-- Source function `fix_volume_caps`, on the output amplifier (`HDA_OUTPUT`)
of `dac`. -/
def fix_volume_caps (k : hda_consts) (codec : hda_codec) (dac : hda_nid_t) : hda_codec :=
  let caps := query_amp_caps codec dac true
  let caps := caps &&& (U32_MAX ^^^ ((0x7f <<< k.AC_AMPCAP_NUM_STEPS_SHIFT) &&& U32_MAX))
  let caps := caps |||
    ((((caps >>> k.AC_AMPCAP_OFFSET_SHIFT) &&& 0x7f) <<< k.AC_AMPCAP_NUM_STEPS_SHIFT) &&& U32_MAX)
  snd_hda_override_amp_caps codec dac true caps

/-- The loop of `parse_cs421x_digital`, over the remaining values of `i`. -/
def parse_cs421x_digital_loop (k : hda_consts) (codec : hda_codec) :
    List Nat → hda_codec × List hda_event
  | [] => (codec, [])
  | i :: rest =>
    let nid := array_get codec.spec.gen.autocfg.dig_out_pins i
    if get_wcaps codec nid &&& k.AC_WCAP_UNSOL_CAP ≠ 0 then
      let codec := { codec with spec := { codec.spec with spdif_detect := true } }
      let r := parse_cs421x_digital_loop k codec rest
      (r.1, hda_event.jack_detect_enable_callback nid :: r.2)
    else parse_cs421x_digital_loop k codec rest

/-- Source function `parse_cs421x_digital`. -/
def parse_cs421x_digital (k : hda_consts) (codec : hda_codec) : hda_codec × List hda_event :=
  parse_cs421x_digital_loop k codec (List.range codec.spec.gen.autocfg.dig_outs)

/-- Source function `cs421x_parse_auto_config`. -/
def cs421x_parse_auto_config (k : hda_consts) (core : hda_core) (codec : hda_codec) :
    Int × hda_codec × List hda_event :=
  let dac := CS4210_DAC_NID
  let codec := fix_volume_caps k codec dac
  let r := core.snd_hda_parse_pin_defcfg codec
  let ev := [hda_event.parse_pin_defcfg]
  if r.1 < 0 then (r.1, r.2, ev)
  else
    let r := core.snd_hda_gen_parse_auto_config r.2
    let ev := ev ++ [hda_event.gen_parse_auto_config]
    if r.1 < 0 then (r.1, r.2, ev)
    else
      let d := parse_cs421x_digital k r.2
      let codec := d.1
      let ev := ev ++ d.2
      if codec.spec.gen.autocfg.speaker_outs ≠ 0 ∧ codec.spec.vendor_nid = CS4210_VENDOR_NID then
        if !core.snd_hda_gen_add_kctl then (-k.ENOMEM, codec, ev ++ [hda_event.gen_add_kctl])
        else (0, codec, ev ++ [hda_event.gen_add_kctl])
      else (0, codec, ev)

/-- Source function `patch_cs4210`. -/
def patch_cs4210 (k : hda_consts) (core : hda_core) (codec : hda_codec) :
    Int × hda_codec × List hda_event :=
  match cs_alloc_spec core codec CS4210_VENDOR_NID with
  | none => (-k.ENOMEM, codec, [])
  | some codec =>
    let codec := { codec with patch_ops := some hda_codec_ops.cs421x_patch_ops }
    let codec := { codec with
      spec := { codec.spec with gen := { codec.spec.gen with automute_hook := true } } }
    let codec := core.snd_hda_pick_fixup fixup_family.cs421x codec
    let ev := [hda_event.pick_fixup fixup_family.cs421x]
    let codec := core.snd_hda_apply_fixup HDA_FIXUP_ACT_PRE_PROBE codec
    let ev := ev ++ [hda_event.apply_fixup HDA_FIXUP_ACT_PRE_PROBE]
    let m := cs4210_pinmux_init k codec
    let ev := ev ++ m.2
    let p := cs421x_parse_auto_config k core m.1
    let ev := ev ++ p.2.2
    if p.1 < 0 then
      (p.1, core.snd_hda_gen_free p.2.1, ev ++ [hda_event.gen_free])
    else
      let codec := core.snd_hda_apply_fixup HDA_FIXUP_ACT_PROBE p.2.1
      (0, codec, ev ++ [hda_event.apply_fixup HDA_FIXUP_ACT_PROBE])

/-! ## Initialization and suspend -/

/-- The writes a verb table stands for: one bus write for each entry in front
of the terminator, in table order. -/
def verb_events (seq : List hda_verb) : List hda_event :=
  (verb_entries seq).map (fun v => hda_event.codec_write v.nid v.verb v.param)

/-- Source function `init_input_coef`. -/
def init_input_coef (k : hda_consts) (codec : hda_codec) : hda_codec × List hda_event :=
  /- CS420x has multiple ADC, CS421x has single ADC -/
  if codec.spec.vendor_nid = CS420X_VENDOR_NID then
    let g := cs_vendor_coef_get codec IDX_BEEP_CFG
    let coef := g.1 &&& U32_MAX
    let codec := g.2.1
    let coef := if is_active_pin k codec CS_DMIC2_PIN_NID then coef ||| (1 <<< 4) else coef
    let coef := if is_active_pin k codec CS_DMIC1_PIN_NID then coef ||| (1 <<< 3) else coef
    let s := cs_vendor_coef_set codec IDX_BEEP_CFG coef
    (s.1, g.2.2 ++ s.2)
  else (codec, [])

/-- Source function `init_digital_coef`: S/PDIF setup. -/
def init_digital_coef (k : hda_consts) (codec : hda_codec) : hda_codec × List hda_event :=
  let coef := 0x0002
  let coef := coef ||| 0x0008
  let coef := if is_active_pin k codec CS_DIG_OUT2_PIN_NID then coef ||| 0x4000 else coef
  cs_vendor_coef_set codec IDX_SPDIF_CTL coef

/-- The GPIO block of `cs_init` and of `cs421x_init` (the same statements in
both): mask, direction and data are written to node 0x01 when `gpio_mask` is
non-zero. -/
def init_gpio (codec : hda_codec) : hda_codec × List hda_event :=
  if codec.spec.gpio_mask ≠ 0 then
    let w1 := snd_hda_codec_write codec 0x01 AC_VERB_SET_GPIO_MASK codec.spec.gpio_mask
    let w2 := snd_hda_codec_write w1.1 0x01 AC_VERB_SET_GPIO_DIRECTION w1.1.spec.gpio_dir
    let w3 := snd_hda_codec_write w2.1 0x01 AC_VERB_SET_GPIO_DATA w2.1.spec.gpio_data
    (w3.1, w1.2 ++ w2.2 ++ w3.2)
  else (codec, [])

/-- The verb block that opens `cs_init`. -/
def cs_init_verbs (codec : hda_codec) : hda_codec × List hda_event :=
  if codec.spec.vendor_nid = CS420X_VENDOR_NID then
    /- init_verb sequence for C0/C1/C2 errata -/
    let a := snd_hda_sequence_write codec cs_errata_init_verbs
    let b := snd_hda_sequence_write a.1 cs_coef_init_verbs
    (b.1, a.2 ++ b.2)
  else if codec.spec.vendor_nid = CS4208_VENDOR_NID then
    snd_hda_sequence_write codec cs4208_coef_init_verbs
  else (codec, [])

/-- Source function `cs_init`: return value, codec and recorded calls. -/
def cs_init (k : hda_consts) (core : hda_core) (codec : hda_codec) :
    Int × hda_codec × List hda_event :=
  let v := cs_init_verbs codec
  let codec := core.snd_hda_gen_init v.1
  let ev := v.2 ++ [hda_event.gen_init]
  let g := init_gpio codec
  let codec := g.1
  let ev := ev ++ g.2
  if codec.spec.vendor_nid = CS420X_VENDOR_NID then
    let i := init_input_coef k codec
    let d := init_digital_coef k i.1
    (0, d.1, ev ++ i.2 ++ d.2)
  else (0, codec, ev)

/-- The block that opens `cs421x_init`: the two verb tables and the pin-mux
programming, on a CS4210 only. -/
def cs421x_init_verbs (k : hda_consts) (codec : hda_codec) : hda_codec × List hda_event :=
  if codec.spec.vendor_nid = CS4210_VENDOR_NID then
    let a := snd_hda_sequence_write codec cs421x_coef_init_verbs
    let b := snd_hda_sequence_write a.1 cs421x_coef_init_verbs_A1_silicon_fixes
    let m := cs4210_pinmux_init k b.1
    (m.1, a.2 ++ b.2 ++ m.2)
  else (codec, [])

/-- Source function `cs421x_init`; `jack_sense` is what `snd_hda_jack_detect`
reports for a pin at the closing S/PDIF evaluation. -/
def cs421x_init (k : hda_consts) (core : hda_core) (jack_sense : hda_nid_t → Bool)
    (codec : hda_codec) : Int × hda_codec × List hda_event :=
  let v := cs421x_init_verbs k codec
  let codec := core.snd_hda_gen_init v.1
  let ev := v.2 ++ [hda_event.gen_init]
  let g := init_gpio codec
  let i := init_input_coef k g.1
  let s := cs4210_spdif_automute k jack_sense i.1
  (0, s.1, ev ++ g.2 ++ i.2 ++ s.2)

/-- Source function `cs421x_suspend` (built under `CONFIG_PM`): manage PDREF
when going to D3hot. The call `snd_hda_shutup_pins` is recorded; it clears the
pin controls and writes none of the fields modelled here. -/
def cs421x_suspend (k : hda_consts) (codec : hda_codec) : Int × hda_codec × List hda_event :=
  let ev := [hda_event.shutup_pins]
  let w1 := snd_hda_codec_write codec CS4210_DAC_NID AC_VERB_SET_POWER_STATE k.AC_PWRST_D3
  let w2 := snd_hda_codec_write w1.1 CS4210_ADC_NID AC_VERB_SET_POWER_STATE k.AC_PWRST_D3
  let ev := ev ++ w1.2 ++ w2.2
  if w2.1.spec.vendor_nid = CS4210_VENDOR_NID then
    let g := cs_vendor_coef_get w2.1 CS421X_IDX_DEV_CFG
    let coef := g.1 &&& U32_MAX
    let coef := coef ||| 0x0004 /- PDREF -/
    let s := cs_vendor_coef_set g.2.1 CS421X_IDX_DEV_CFG coef
    (0, s.1, ev ++ g.2.2 ++ s.2)
  else (0, w2.1, ev)

/-! ## Vocabulary of the statements -/

/-- Is the event a call of the auto-configuration parser
(`snd_hda_parse_pin_defcfg` or `snd_hda_gen_parse_auto_config`). -/
def is_parse_call (e : hda_event) : Bool :=
  e == hda_event.parse_pin_defcfg || e == hda_event.gen_parse_auto_config

/-- Is the event a bus write (`snd_hda_codec_write` or `snd_hda_set_pin_ctl`). -/
def is_bus_write : hda_event → Bool
  | hda_event.codec_write _ _ _ => true
  | hda_event.set_pin_ctl _ _ => true
  | _ => false

/-- Number of invocations of `cs_automute` in a recording: the function calls
`snd_hda_gen_update_outputs` exactly once on every path, and nothing else
modelled here calls it. -/
def automute_runs (l : List hda_event) : Nat := l.count hda_event.gen_update_outputs

/-- Every occurrence of `a` in the recording comes strictly before every parser
call. -/
def before_parse (a : hda_event) (l : List hda_event) : Prop :=
  ∀ l1 l2, l = l1 ++ a :: l2 → ∀ e ∈ l1, is_parse_call e = false

/-- Every occurrence of `a` in the recording comes strictly after every parser
call. -/
def after_parse (a : hda_event) (l : List hda_event) : Prop :=
  ∀ l1 l2, l = l1 ++ a :: l2 → ∀ e ∈ l2, is_parse_call e = false

/-- Is the event a lifecycle call of a probe function (`snd_hda_pick_fixup`,
`snd_hda_apply_fixup` or `cs_free`). -/
def is_lifecycle_call : hda_event → Bool
  | hda_event.pick_fixup _ => true
  | hda_event.apply_fixup _ => true
  | hda_event.gen_free => true
  | _ => false

/-- The probe ordering of a probe function that returned `r` (return value, codec,
recording), where `p` is what its one run of the parse returned: the recording
is the parse run between recordings free of parser calls; the PRE_PROBE fixups
are applied exactly once and strictly before the parser calls; if the parse did
not fail the PROBE fixups are applied exactly once and strictly after the parser
calls, nothing is freed and 0 is returned; if the parse failed the PROBE fixups
are never applied, the device is freed once and the error of the parse is
returned. -/
def probe_ordered (r p : Int × hda_codec × List hda_event) : Prop :=
  (∃ pre post, r.2.2 = pre ++ p.2.2 ++ post ∧ ∀ e ∈ pre ++ post, is_parse_call e = false) ∧
  hda_event.parse_pin_defcfg ∈ p.2.2 ∧
  r.2.2.count (hda_event.apply_fixup HDA_FIXUP_ACT_PRE_PROBE) = 1 ∧
  before_parse (hda_event.apply_fixup HDA_FIXUP_ACT_PRE_PROBE) r.2.2 ∧
  (¬ p.1 < 0 →
    r.2.2.count (hda_event.apply_fixup HDA_FIXUP_ACT_PROBE) = 1 ∧
    after_parse (hda_event.apply_fixup HDA_FIXUP_ACT_PROBE) r.2.2 ∧
    hda_event.gen_free ∉ r.2.2 ∧
    r.1 = 0) ∧
  (p.1 < 0 →
    r.2.2.count (hda_event.apply_fixup HDA_FIXUP_ACT_PROBE) = 0 ∧
    r.2.2.count hda_event.gen_free = 1 ∧
    r.1 = p.1)

/-- Is the event a write of a GPIO register (mask, direction or data). -/
def is_gpio_write : hda_event → Bool
  | hda_event.codec_write _ AC_VERB_SET_GPIO_MASK _ => true
  | hda_event.codec_write _ AC_VERB_SET_GPIO_DIRECTION _ => true
  | hda_event.codec_write _ AC_VERB_SET_GPIO_DATA _ => true
  | _ => false

/-- Is the event a coefficient access: an index write, a coefficient read or a
coefficient write. -/
def is_coef_access : hda_event → Bool
  | hda_event.codec_write _ AC_VERB_SET_COEF_INDEX _ => true
  | hda_event.codec_write _ AC_VERB_SET_PROC_COEF _ => true
  | hda_event.codec_read _ AC_VERB_GET_PROC_COEF _ => true
  | _ => false

/-- The generic initialization of the core leaves the chip identity, the GPIO
mask and direction, and the S/PDIF detection state and pin as they are (it may
change the jack state of the generic layer and run the automute hook). -/
def gen_init_keeps_policy (core : hda_core) : Prop :=
  ∀ c : hda_codec,
    (core.snd_hda_gen_init c).spec.vendor_nid = c.spec.vendor_nid ∧
    (core.snd_hda_gen_init c).spec.gpio_mask = c.spec.gpio_mask ∧
    (core.snd_hda_gen_init c).spec.gpio_dir = c.spec.gpio_dir ∧
    (core.snd_hda_gen_init c).spec.gpio_eapd_hp = c.spec.gpio_eapd_hp ∧
    (core.snd_hda_gen_init c).spec.gpio_eapd_speaker = c.spec.gpio_eapd_speaker ∧
    (core.snd_hda_gen_init c).spec.spdif_detect = c.spec.spdif_detect ∧
    (core.snd_hda_gen_init c).spec.spdif_present = c.spec.spdif_present ∧
    (core.snd_hda_gen_init c).spec.gen.autocfg.dig_out_pins = c.spec.gen.autocfg.dig_out_pins

/-- Number of bits set in a 32-bit word. -/
def popcount32 (x : Nat) : Nat := (List.range 32).countP (fun i => x.testBit i)

/-- Number of amplifier-enable bits (the bits of `gpio_eapd_hp` and
`gpio_eapd_speaker`) that are asserted in `gpio_data`. -/
def amp_bits_asserted (spec : cs_spec) : Nat :=
  popcount32 (spec.gpio_data &&& (spec.gpio_eapd_hp ||| spec.gpio_eapd_speaker))

/-! ## Example states -/

/-- A CS420x board after `cs420x_fixup_gpio_13` at PRE_PROBE: headphone amplifier on
GPIO1, speaker amplifier on GPIO3. -/
def codec_gpio_13 : hda_codec :=
  cs420x_fixup_gpio_13
    { hda_codec_zero with spec := { cs_spec_zero with vendor_nid := CS420X_VENDOR_NID } }
    HDA_FIXUP_ACT_PRE_PROBE

/-- A CS4210 board with SENSE_B and S/PDIF detection on pin 0x0a; `present` is
the stored S/PDIF presence. -/
def codec_cdb4210 (present : Bool) : hda_codec :=
  cs421x_fixup_sense_b
    { hda_codec_zero with
      spec := { cs_spec_zero with
        vendor_nid := CS4210_VENDOR_NID, spdif_detect := true, spdif_present := present,
        gen := { hda_gen_spec_zero with
          autocfg := { speaker_outs := 1, dig_outs := 1, dig_out_pins := [0x0a] } } } }
    HDA_FIXUP_ACT_PRE_PROBE

/-- A core in which every call succeeds: the allocation succeeds, the pick finds
nothing, the fixups applied are those of `CS420X_GPIO_13`, the parser reports
success without touching the codec, and the generic initialization runs the
automute hook. -/
def hda_core_ok : hda_core :=
  { kzalloc_ok := true,
    snd_hda_pick_fixup := fun _ codec => codec,
    snd_hda_apply_fixup := fun action codec => cs420x_fixup_gpio_13 codec action,
    snd_hda_parse_pin_defcfg := fun codec => (0, codec),
    snd_hda_gen_parse_auto_config := fun codec => (0, codec),
    snd_hda_gen_add_kctl := true,
    snd_hda_gen_free := fun codec => codec,
    snd_hda_gen_init := fun codec => (cs_automute codec).1 }

/-- A core like `hda_core_ok` whose generic parser fails with `-EINVAL` (-22). -/
def hda_core_parse_fails : hda_core :=
  { hda_core_ok with snd_hda_gen_parse_auto_config := fun codec => (-22, codec) }

/-- Is the event a register access on the bus (`snd_hda_codec_write` or
`snd_hda_codec_read`). -/
def is_register_access : hda_event → Bool
  | hda_event.codec_write _ _ _ => true
  | hda_event.codec_read _ _ _ => true
  | _ => false

/-- Is the event a pin-control write (`snd_hda_set_pin_ctl`). -/
def is_pin_ctl_write : hda_event → Bool
  | hda_event.set_pin_ctl _ _ => true
  | _ => false

/-- A CS4208 board after `cs4208_fixup_gpio0` at PRE_PROBE, with the given
speaker-automute policy and headphone presence. -/
def codec_gpio0 (automute_speaker hp_jack_present : Bool) : hda_codec :=
  cs4208_fixup_gpio0
    { hda_codec_zero with
      spec := { cs_spec_zero with
        vendor_nid := CS4208_VENDOR_NID,
        gen := { hda_gen_spec_zero with
          automute_speaker := automute_speaker, hp_jack_present := hp_jack_present } } }
    HDA_FIXUP_ACT_PRE_PROBE

/-- A CS4208 device of Apple whose fixup was picked from `cs4208_fixup_tbl`, with
the given subsystem device. -/
def codec_cs4208_mac (device : Nat) : hda_codec :=
  { hda_codec_zero with
    spec := { cs_spec_zero with vendor_nid := CS4208_VENDOR_NID },
    fixup_id := (CS4208_MAC_AUTO : Int), fixup_list := cs4208_fixups,
    subsystem_vendor := 0x106b, subsystem_device := device }

/-- Does the table list the identity with an exact entry. -/
def exactly_listed (tbl : List snd_pci_quirk) (vendor device : Nat) : Prop :=
  ∃ q ∈ quirk_entries tbl, quirk_is_exact q = true ∧ q.subvendor = vendor ∧ q.subdevice = device

/-- A CS4208 device after its controls were built: the first digital output pin
is 0x21 and the control "IEC958 Playback Switch" exists with the generic setter. -/
def codec_cs4208_spdif : hda_codec :=
  { hda_codec_zero with
    spec := { cs_spec_zero with
      vendor_nid := CS4208_VENDOR_NID,
      gen := { hda_gen_spec_zero with
        autocfg := { auto_pin_cfg_zero with dig_outs := 1, dig_out_pins := [0x21] } } },
    iec958_playback_switch := some kctl_put.generic_put }

/-- A CS4213 device: the vendor widget is 0x09. -/
def codec_cs4213 : hda_codec :=
  { hda_codec_zero with spec := { cs_spec_zero with vendor_nid := CS4213_VENDOR_NID } }

/-- A CS4210 device whose device-configuration coefficient holds 0x0003. -/
def codec_cs4210_dev_cfg : hda_codec :=
  { hda_codec_zero with
    spec := { cs_spec_zero with vendor_nid := CS4210_VENDOR_NID },
    proc_coef := fun n i => if n = CS4210_VENDOR_NID ∧ i = CS421X_IDX_DEV_CFG then 0x0003 else 0 }

/-! ## Speaker boost control -/

/-- The part of `struct snd_ctl_elem_info` that `cs421x_boost_vol_info` fills
(the element type it sets is `SNDRV_CTL_ELEM_TYPE_INTEGER`). -/
structure snd_ctl_elem_info where
  count : Nat
  min : Int
  max : Int
  deriving DecidableEq, Repr

/-- Source function `cs421x_boost_vol_info`: return value and the information
it fills. -/
def cs421x_boost_vol_info : Int × snd_ctl_elem_info :=
  (0, { count := 1, min := 0, max := 3 })

/-- Source function `cs421x_boost_vol_get`: return value, the value stored in
`ucontrol->value.integer.value[0]`, codec and recorded calls. -/
def cs421x_boost_vol_get (codec : hda_codec) : Int × Int × hda_codec × List hda_event :=
  let g := cs_vendor_coef_get codec CS421X_IDX_SPK_CTL
  (0, ((g.1 &&& 0x0003 : Nat) : Int), g.2.1, g.2.2)

/-- Source function `cs421x_boost_vol_put`: return value, codec and recorded
calls; `value` is `ucontrol->value.integer.value[0]`, a `long` that the
assignment to `vol` converts to `unsigned int`. -/
def cs421x_boost_vol_put (codec : hda_codec) (value : Int) :
    Int × hda_codec × List hda_event :=
  let vol := (value % 2 ^ 32).toNat
  let g := cs_vendor_coef_get codec CS421X_IDX_SPK_CTL
  let coef := g.1 &&& U32_MAX
  let original_coef := coef
  let coef := coef &&& (U32_MAX ^^^ 0x0003)
  let coef := coef ||| (vol &&& 0x0003)
  if original_coef = coef then (0, g.2.1, g.2.2)
  else
    let s := cs_vendor_coef_set g.2.1 CS421X_IDX_SPK_CTL coef
    (1, s.1, g.2.2 ++ s.2)

/-- Is the event a coefficient write (`AC_VERB_SET_PROC_COEF`). -/
def is_coef_write : hda_event → Bool
  | hda_event.codec_write _ AC_VERB_SET_PROC_COEF _ => true
  | _ => false

/-- A CS4210 device whose speaker-control coefficient (index 0x04) holds
0x00A1. -/
def codec_cs4210_spk_ctl : hda_codec :=
  { hda_codec_zero with
    spec := { cs_spec_zero with vendor_nid := CS4210_VENDOR_NID },
    proc_coef := fun n i => if n = CS4210_VENDOR_NID ∧ i = CS421X_IDX_SPK_CTL then 0x00A1 else 0 }

/-- A CS4210 device with SENSE_B forced, an active DMIC pin (a fixed-function
microphone on pin 0x09) and 0x0003 in the device-configuration coefficient. -/
def codec_cs4210_dmic : hda_codec :=
  { hda_codec_zero with
    spec := { cs_spec_zero with vendor_nid := CS4210_VENDOR_NID, sense_b := true },
    pincfg := fun n => if n = CS421X_DMIC_PIN_NID then 0x90A60100 else 0,
    proc_coef := fun n i => if n = CS4210_VENDOR_NID ∧ i = CS421X_IDX_DEV_CFG then 0x0003 else 0 }

/-- A CS4210 device whose DAC 0x02 reports the output-amplifier capabilities
0x80037f42: offset 0x42, number of steps 0x7f, step size 3, mute capable. -/
def codec_cs4210_caps : hda_codec :=
  { hda_codec_zero with
    spec := { cs_spec_zero with vendor_nid := CS4210_VENDOR_NID },
    amp_caps := fun n d => if n = CS4210_DAC_NID ∧ d = true then 0x80037f42 else 0 }

/-! ## GPIO policy machine -/

/-- One step of a run over the GPIO policy: one of the three GPIO fixup callbacks
applied at a lifecycle point, or a call of `cs_automute`. -/
inductive gpio_step
  | fixup_gpio_13 (action : hda_fixup_action)
  | fixup_gpio_23 (action : hda_fixup_action)
  | fixup_gpio0 (action : hda_fixup_action)
  | automute
  deriving DecidableEq, Repr

/-- The codec one step leaves. -/
def apply_gpio_step (codec : hda_codec) : gpio_step → hda_codec
  | gpio_step.fixup_gpio_13 action => cs420x_fixup_gpio_13 codec action
  | gpio_step.fixup_gpio_23 action => cs420x_fixup_gpio_23 codec action
  | gpio_step.fixup_gpio0 action => cs4208_fixup_gpio0 codec action
  | gpio_step.automute => (cs_automute codec).1

/-- The codec a run of steps leaves, first step first. -/
def apply_gpio_steps (codec : hda_codec) (steps : List gpio_step) : hda_codec :=
  steps.foldl apply_gpio_step codec

/-- Is the step a fixup callback applied at PRE_PROBE. -/
def is_pre_probe_fixup : gpio_step → Bool
  | gpio_step.fixup_gpio_13 HDA_FIXUP_ACT_PRE_PROBE => true
  | gpio_step.fixup_gpio_23 HDA_FIXUP_ACT_PRE_PROBE => true
  | gpio_step.fixup_gpio0 HDA_FIXUP_ACT_PRE_PROBE => true
  | _ => false

/-- The GPIO fields of a freshly allocated device: all zero. -/
def gpio_fresh (spec : cs_spec) : Prop :=
  spec.gpio_mask = 0 ∧ spec.gpio_dir = 0 ∧ spec.gpio_data = 0 ∧
    spec.gpio_eapd_hp = 0 ∧ spec.gpio_eapd_speaker = 0

/-- The GPIO policy: mask and direction are the two EAPD bits. -/
def gpio_policy (spec : cs_spec) : Prop :=
  spec.gpio_mask = spec.gpio_dir ∧
    spec.gpio_dir = spec.gpio_eapd_hp ||| spec.gpio_eapd_speaker

/-- No bit of `gpio_data` is set outside `gpio_mask`. -/
def gpio_data_in_mask (spec : cs_spec) : Prop :=
  spec.gpio_data &&& spec.gpio_mask = spec.gpio_data

/-- What holds of the GPIO fields in every state of a run from a fresh device:
the GPIO policy, and `gpio_data` still zero while no EAPD bit is assigned. -/
def gpio_invariant (spec : cs_spec) : Prop :=
  gpio_policy spec ∧
    (spec.gpio_eapd_hp = 0 ∧ spec.gpio_eapd_speaker = 0 → spec.gpio_data = 0)

/-- The remap `cs4208_fixup_mac` makes at PRE_PROBE in front of its call of the
applier (its first three statements): the codec with the fixup id selected
from the codec SSID, `CS4208_GPIO0` when the pick finds nothing. -/
def cs4208_fixup_mac_remap (codec : hda_codec) : hda_codec :=
  let codec := { codec with fixup_id := HDA_FIXUP_ID_NOT_SET }
  let codec := snd_hda_pick_fixup codec [] cs4208_mac_fixup_tbl cs4208_fixups
  if codec.fixup_id = HDA_FIXUP_ID_NOT_SET then
    { codec with fixup_id := (CS4208_GPIO0 : Int) }
  else codec

/-- Is the entry the callback `cs4208_fixup_mac`. -/
def is_fixup_mac_entry (fix : hda_fixup) : Bool :=
  fix.v == hda_fixup_v.HDA_FIXUP_FUNC hda_fixup_func.cs4208_fixup_mac

/-! ## CS8409 probe -/

/-- Source function `cs_8409_parse_auto_config`; the `printk` calls write to
the kernel log only and are left out. -/
def cs_8409_parse_auto_config (core : hda_core) (codec : hda_codec) :
    Int × hda_codec × List hda_event :=
  let r := core.snd_hda_parse_pin_defcfg codec
  let ev := [hda_event.parse_pin_defcfg]
  if r.1 < 0 then (r.1, r.2, ev)
  else
    let r := core.snd_hda_gen_parse_auto_config r.2
    let ev := ev ++ [hda_event.gen_parse_auto_config]
    if r.1 < 0 then (r.1, r.2, ev)
    else
      let codec := r.2
      /- keep the ADCs powered up when it's dynamically switchable -/
      if codec.spec.gen.dyn_adc_switch then
        (0, codec, ev ++ fix_adc_pin_power codec.spec.gen (List.range codec.spec.gen.num_items) 0)
      else (0, codec, ev)

/-- The distinct values of a list, in order of first occurrence: the head, then
the distinct values of the tail other than the head. -/
def distinct_in_order : List Nat → List Nat
  | [] => []
  | x :: rest => x :: (distinct_in_order rest).filter (fun y => y != x)

/-- Is the event a call of `snd_hda_gen_fix_pin_power`. -/
def is_fix_pin_power : hda_event → Bool
  | hda_event.gen_fix_pin_power _ => true
  | _ => false

/-- A core whose parser reports a dynamically switched ADC with the input list
1, 0, 1, 2, 0 over the ADCs 0x05, 0x06, 0x07. -/
def hda_core_dyn_adc : hda_core :=
  { hda_core_ok with
    snd_hda_gen_parse_auto_config := fun codec =>
      (0, { codec with
          spec := { codec.spec with
            gen := { codec.spec.gen with
              dyn_adc_switch := true, num_items := 5, dyn_adc_idx := [1, 0, 1, 2, 0],
              adc_nids := [0x05, 0x06, 0x07] } } }) }

/-- Source function `patch_cs4213`. -/
def patch_cs4213 (k : hda_consts) (core : hda_core) (codec : hda_codec) :
    Int × hda_codec × List hda_event :=
  match cs_alloc_spec core codec CS4213_VENDOR_NID with
  | none => (-k.ENOMEM, codec, [])
  | some codec =>
    let codec := { codec with patch_ops := some hda_codec_ops.cs421x_patch_ops }
    let p := cs421x_parse_auto_config k core codec
    if p.1 < 0 then
      (p.1, core.snd_hda_gen_free p.2.1, p.2.2 ++ [hda_event.gen_free])
    else (0, p.2.1, p.2.2)

/-- Source function `patch_cs8409`, with `explicit` equal to 0 as the source
sets it. `boot_setup` is `cs_8409_boot_setup`, defined in the included file
`patch_cirrus_new84.h`, which is not part of this file: the value it returns,
the codec it leaves and the calls it records. The assignments to the play-time
bookkeeping of `cs_spec` (`beep_nid`, `use_data`, `play_init`, the play times)
and to fields of the generic layer that are not modelled
(`pcm_playback_hook`, `line_outs`, `hp_outs`, `num_inputs`, `num_adc_nids`,
`hp_out_nid[0]`), and the `printk` calls, are left out. -/
def patch_cs8409 (k : hda_consts) (core : hda_core)
    (boot_setup : hda_codec → Int × hda_codec × List hda_event) (codec : hda_codec) :
    Int × hda_codec × List hda_event :=
  match cs_alloc_spec core codec CS8409_VENDOR_NID with
  | none => (-k.ENOMEM, codec, [])
  | some codec =>
    let codec := { codec with patch_ops := some hda_codec_ops.cs_8409_patch_ops }
    let p := cs_8409_parse_auto_config core codec
    if p.1 < 0 then
      (p.1, core.snd_hda_gen_free p.2.1, p.2.2 ++ [hda_event.gen_free])
    else
      let b := boot_setup p.2.1
      if b.1 < 0 then
        (b.1, core.snd_hda_gen_free b.2.1, p.2.2 ++ b.2.2 ++ [hda_event.gen_free])
      else (0, b.2.1, p.2.2 ++ b.2.2)

/-- A core in which `kzalloc` returns NULL. -/
def hda_core_no_memory : hda_core := { hda_core_ok with kzalloc_ok := false }

/-! ## Initialization on a bus whose writes can fail

The functions of this section are the functions of the same names above, run on
a bus on which each individual write succeeds or fails. The source discards the
value `snd_hda_codec_write` returns at every call, and so do they. -/

/-- A codec on a bus whose writes can fail. -/
structure faulty_bus where
  codec : hda_codec
  /-- Outcome of each write still to come, first write first: `true` succeeds,
  `false` fails; past the end of the list every write succeeds. -/
  outcomes : List Bool

namespace Faulty

/-- Modelled from the spec: the bus write `snd_hda_codec_write` on a bus whose
writes can fail. The call is recorded either way; a write that succeeds returns
0 and stores as `PatchCirrus.snd_hda_codec_write` does, a write that fails
returns an error and leaves the registers as they were. -/
def snd_hda_codec_write (s : faulty_bus) (nid : hda_nid_t) (verb : hda_verb_id)
    (param : Nat) : Int × faulty_bus × List hda_event :=
  match s.outcomes with
  | false :: rest =>
    (-1, { codec := s.codec, outcomes := rest }, [hda_event.codec_write nid verb param])
  | true :: rest =>
    let w := PatchCirrus.snd_hda_codec_write s.codec nid verb param
    (0, { codec := w.1, outcomes := rest }, w.2)
  | [] =>
    let w := PatchCirrus.snd_hda_codec_write s.codec nid verb param
    (0, { codec := w.1, outcomes := [] }, w.2)

/-- Modelled from the spec: the sequence executor `snd_hda_sequence_write`; it
issues every entry in front of the terminator, whatever the outcome of the
writes before. -/
def snd_hda_sequence_write (s : faulty_bus) : List hda_verb → faulty_bus × List hda_event
  | [] => (s, [])
  | v :: rest =>
    if v.nid = 0 then (s, [])
    else
      let w := snd_hda_codec_write s v.nid v.verb v.param
      let r := snd_hda_sequence_write w.2.1 rest
      (r.1, w.2.2 ++ r.2)

/-- Source function `cs_vendor_coef_get`. -/
def cs_vendor_coef_get (s : faulty_bus) (idx : Nat) : Nat × faulty_bus × List hda_event :=
  let w := snd_hda_codec_write s s.codec.spec.vendor_nid AC_VERB_SET_COEF_INDEX idx
  let r := PatchCirrus.snd_hda_codec_read w.2.1.codec s.codec.spec.vendor_nid
    AC_VERB_GET_PROC_COEF 0
  (r.1, w.2.1, w.2.2 ++ r.2)

/-- Source function `cs_vendor_coef_set`. -/
def cs_vendor_coef_set (s : faulty_bus) (idx : Nat) (coef : Nat) :
    faulty_bus × List hda_event :=
  let w1 := snd_hda_codec_write s s.codec.spec.vendor_nid AC_VERB_SET_COEF_INDEX idx
  let w2 := snd_hda_codec_write w1.2.1 s.codec.spec.vendor_nid AC_VERB_SET_PROC_COEF coef
  (w2.2.1, w1.2.2 ++ w2.2.2)

/-- Source function `cs_automute`. -/
def cs_automute (s : faulty_bus) : faulty_bus × List hda_event :=
  let spec := s.codec.spec
  let spec := { spec with
    gen := { spec.gen with master_mute := spec.spdif_present && spec.sense_b } }
  let codec := { s.codec with spec := spec }
  let ev := [hda_event.gen_update_outputs]
  if spec.gpio_eapd_hp ≠ 0 ∨ spec.gpio_eapd_speaker ≠ 0 then
    let spec := { spec with
      gpio_data :=
        if spec.gen.automute_speaker then
          (if spec.gen.hp_jack_present then spec.gpio_eapd_hp else spec.gpio_eapd_speaker)
        else
          spec.gpio_eapd_hp ||| spec.gpio_eapd_speaker }
    let codec := { codec with spec := spec }
    let w := snd_hda_codec_write { s with codec := codec } 0x01 AC_VERB_SET_GPIO_DATA
      spec.gpio_data
    (w.2.1, ev ++ w.2.2)
  else
    ({ s with codec := codec }, ev)

/-- Source function `cs4210_spdif_automute`. -/
def cs4210_spdif_automute (k : hda_consts) (jack_sense : hda_nid_t → Bool)
    (s : faulty_bus) : faulty_bus × List hda_event :=
  let spec := s.codec.spec
  let spdif_pin := array_get spec.gen.autocfg.dig_out_pins 0
  if !spec.spdif_detect || spec.vendor_nid != CS4210_VENDOR_NID then
    (s, [])
  else
    let spdif_present := jack_sense spdif_pin
    let ev := [hda_event.jack_detect spdif_pin]
    if spdif_present == spec.spdif_present then
      (s, ev)
    else
      let codec := { s.codec with spec := { spec with spdif_present := spdif_present } }
      let ev := ev ++ [hda_event.set_pin_ctl spdif_pin (if spdif_present then k.PIN_OUT else 0)]
      let a := cs_automute { s with codec := codec }
      (a.1, ev ++ a.2)
/-- Source function `init_input_coef`. -/
def init_input_coef (k : hda_consts) (s : faulty_bus) : faulty_bus × List hda_event :=
  if s.codec.spec.vendor_nid = CS420X_VENDOR_NID then
    let g := cs_vendor_coef_get s IDX_BEEP_CFG
    let coef := g.1 &&& U32_MAX
    let s := g.2.1
    let coef := if is_active_pin k s.codec CS_DMIC2_PIN_NID then coef ||| (1 <<< 4) else coef
    let coef := if is_active_pin k s.codec CS_DMIC1_PIN_NID then coef ||| (1 <<< 3) else coef
    let w := cs_vendor_coef_set s IDX_BEEP_CFG coef
    (w.1, g.2.2 ++ w.2)
  else (s, [])

/-- Source function `init_digital_coef`. -/
def init_digital_coef (k : hda_consts) (s : faulty_bus) : faulty_bus × List hda_event :=
  let coef := 0x0002
  let coef := coef ||| 0x0008
  let coef := if is_active_pin k s.codec CS_DIG_OUT2_PIN_NID then coef ||| 0x4000 else coef
  cs_vendor_coef_set s IDX_SPDIF_CTL coef

/-- The GPIO block of `cs_init` and of `cs421x_init`. -/
def init_gpio (s : faulty_bus) : faulty_bus × List hda_event :=
  if s.codec.spec.gpio_mask ≠ 0 then
    let w1 := snd_hda_codec_write s 0x01 AC_VERB_SET_GPIO_MASK s.codec.spec.gpio_mask
    let w2 := snd_hda_codec_write w1.2.1 0x01 AC_VERB_SET_GPIO_DIRECTION
      w1.2.1.codec.spec.gpio_dir
    let w3 := snd_hda_codec_write w2.2.1 0x01 AC_VERB_SET_GPIO_DATA
      w2.2.1.codec.spec.gpio_data
    (w3.2.1, w1.2.2 ++ w2.2.2 ++ w3.2.2)
  else (s, [])

/-- The verb block that opens `cs_init`. -/
def cs_init_verbs (s : faulty_bus) : faulty_bus × List hda_event :=
  if s.codec.spec.vendor_nid = CS420X_VENDOR_NID then
    let a := snd_hda_sequence_write s cs_errata_init_verbs
    let b := snd_hda_sequence_write a.1 cs_coef_init_verbs
    (b.1, a.2 ++ b.2)
  else if s.codec.spec.vendor_nid = CS4208_VENDOR_NID then
    snd_hda_sequence_write s cs4208_coef_init_verbs
  else (s, [])

/-- Source function `cs_init`. The generic initialization works on the codec;
its own bus traffic is not modelled and uses up no outcome. -/
def cs_init (k : hda_consts) (core : hda_core) (s : faulty_bus) :
    Int × faulty_bus × List hda_event :=
  let v := cs_init_verbs s
  let s := { v.1 with codec := core.snd_hda_gen_init v.1.codec }
  let ev := v.2 ++ [hda_event.gen_init]
  let g := init_gpio s
  let s := g.1
  let ev := ev ++ g.2
  if s.codec.spec.vendor_nid = CS420X_VENDOR_NID then
    let i := init_input_coef k s
    let d := init_digital_coef k i.1
    (0, d.1, ev ++ i.2 ++ d.2)
  else (0, s, ev)

/-- Source function `cs4210_pinmux_init`. -/
def cs4210_pinmux_init (k : hda_consts) (s : faulty_bus) : faulty_bus × List hda_event :=
  let spec := s.codec.spec
  let g := cs_vendor_coef_get s CS421X_IDX_DEV_CFG
  let coef := g.1 &&& U32_MAX
  let s := g.2.1
  let coef := if spec.gpio_mask ≠ 0 then coef ||| 0x0008 else coef &&& (U32_MAX ^^^ 0x0008)
  let coef := if spec.sense_b then coef ||| 0x0010 else coef &&& (U32_MAX ^^^ 0x0010)
  let w := cs_vendor_coef_set s CS421X_IDX_DEV_CFG coef
  let s := w.1
  let ev := g.2.2 ++ w.2
  if (spec.gpio_mask ≠ 0 || spec.sense_b) && is_active_pin k s.codec CS421X_DMIC_PIN_NID then
    let def_conf := snd_hda_codec_get_pincfg s.codec CS421X_DMIC_PIN_NID
    let def_conf := def_conf &&& (U32_MAX ^^^ k.AC_DEFCFG_PORT_CONN)
    let def_conf := def_conf ||| (k.AC_JACK_PORT_NONE <<< k.AC_DEFCFG_PORT_CONN_SHIFT)
    ({ s with codec := snd_hda_codec_set_pincfg s.codec CS421X_DMIC_PIN_NID def_conf }, ev)
  else (s, ev)

/-- The block that opens `cs421x_init`. -/
def cs421x_init_verbs (k : hda_consts) (s : faulty_bus) : faulty_bus × List hda_event :=
  if s.codec.spec.vendor_nid = CS4210_VENDOR_NID then
    let a := snd_hda_sequence_write s cs421x_coef_init_verbs
    let b := snd_hda_sequence_write a.1 cs421x_coef_init_verbs_A1_silicon_fixes
    let m := cs4210_pinmux_init k b.1
    (m.1, a.2 ++ b.2 ++ m.2)
  else (s, [])

/-- Source function `cs421x_init`. -/
def cs421x_init (k : hda_consts) (core : hda_core) (jack_sense : hda_nid_t → Bool)
    (s : faulty_bus) : Int × faulty_bus × List hda_event :=
  let v := cs421x_init_verbs k s
  let s := { v.1 with codec := core.snd_hda_gen_init v.1.codec }
  let ev := v.2 ++ [hda_event.gen_init]
  let g := init_gpio s
  let i := init_input_coef k g.1
  let a := cs4210_spdif_automute k jack_sense i.1
  (0, a.1, ev ++ g.2 ++ i.2 ++ a.2)

end Faulty

/-- The register access or call an event stands for, without the value of a
bus write: two recordings with the same image made the same calls on the same
registers in the same order. -/
def event_address : hda_event → hda_event
  | hda_event.codec_write nid verb _ => hda_event.codec_write nid verb 0
  | e => e

/-- Two driver states agree on the fields that decide which calls the
initialization makes: the chip identity, the GPIO mask and EAPD bits, and the
S/PDIF detection state and pin. -/
def same_policy (a b : cs_spec) : Prop :=
  a.vendor_nid = b.vendor_nid ∧ a.gpio_mask = b.gpio_mask ∧
  a.gpio_eapd_hp = b.gpio_eapd_hp ∧ a.gpio_eapd_speaker = b.gpio_eapd_speaker ∧
  a.spdif_detect = b.spdif_detect ∧ a.spdif_present = b.spdif_present ∧
  a.gen.autocfg.dig_out_pins = b.gen.autocfg.dig_out_pins

/-! # Theorems -/

/-! ## Automute engine -/

/-- The codec `cs_automute` returns, field by field. -/
theorem cs_automute_codec (codec : hda_codec) :
    (cs_automute codec).1 =
      { codec with
        spec := { codec.spec with
          gen := { codec.spec.gen with
            master_mute := codec.spec.spdif_present && codec.spec.sense_b },
          gpio_data :=
            if codec.spec.gpio_eapd_hp ≠ 0 ∨ codec.spec.gpio_eapd_speaker ≠ 0 then
              (if codec.spec.gen.automute_speaker then
                (if codec.spec.gen.hp_jack_present then codec.spec.gpio_eapd_hp
                 else codec.spec.gpio_eapd_speaker)
               else codec.spec.gpio_eapd_hp ||| codec.spec.gpio_eapd_speaker)
            else codec.spec.gpio_data } } := by
  by_cases h : codec.spec.gpio_eapd_hp ≠ 0 ∨ codec.spec.gpio_eapd_speaker ≠ 0
  · simp only [cs_automute, snd_hda_codec_write, if_pos h]
  · simp only [cs_automute, snd_hda_codec_write, if_neg h]

/-- The calls `cs_automute` records. -/
theorem cs_automute_events (codec : hda_codec) :
    (cs_automute codec).2 =
      hda_event.gen_update_outputs ::
        (if codec.spec.gpio_eapd_hp ≠ 0 ∨ codec.spec.gpio_eapd_speaker ≠ 0 then
          [hda_event.codec_write 0x01 AC_VERB_SET_GPIO_DATA (cs_automute codec).1.spec.gpio_data]
         else []) := by
  by_cases h : codec.spec.gpio_eapd_hp ≠ 0 ∨ codec.spec.gpio_eapd_speaker ≠ 0
  · simp only [cs_automute, snd_hda_codec_write, if_pos h, List.singleton_append]
  · simp only [cs_automute, snd_hda_codec_write, if_neg h]

/-- One run of `cs_automute` records one call of `snd_hda_gen_update_outputs`. -/
theorem cs_automute_runs_once (codec : hda_codec) :
    automute_runs (cs_automute codec).2 = 1 := by
  rw [cs_automute_events]
  unfold automute_runs
  split <;> simp

/-- A second run of `cs_automute` on the state the first run left returns that state. -/
theorem cs_automute_twice_codec (codec : hda_codec) :
    (cs_automute (cs_automute codec).1).1 = (cs_automute codec).1 := by
  rw [cs_automute_codec (cs_automute codec).1, cs_automute_codec codec]
  by_cases h : codec.spec.gpio_eapd_hp ≠ 0 ∨ codec.spec.gpio_eapd_speaker ≠ 0
  · simp only [if_pos h]
  · simp only [if_neg h]

/-- A second run of `cs_automute` on the state the first run left records the calls of
the first run. -/
theorem cs_automute_twice_events (codec : hda_codec) :
    (cs_automute (cs_automute codec).1).2 = (cs_automute codec).2 := by
  rw [cs_automute_events (cs_automute codec).1, cs_automute_events codec,
    cs_automute_twice_codec]
  rw [cs_automute_codec codec]

/-- C1. GPIO derivation: when `gpio_eapd_hp` or `gpio_eapd_speaker` is non-zero,
`cs_automute` sets `gpio_data` to `gpio_eapd_hp` (automute on, headphone present), to
`gpio_eapd_speaker` (automute on, headphone absent) or to their bitwise or (automute
off), and the only bus write it issues is that value to the GPIO data register of node
0x01. With the bits 0x02 and 0x08 the three values are 0x02, 0x08 and 0x0A. -/
theorem cs_automute_gpio_derivation (codec : hda_codec)
    (h : codec.spec.gpio_eapd_hp ≠ 0 ∨ codec.spec.gpio_eapd_speaker ≠ 0) :
    (codec.spec.gen.automute_speaker = true → codec.spec.gen.hp_jack_present = true →
      (cs_automute codec).1.spec.gpio_data = codec.spec.gpio_eapd_hp) ∧
    (codec.spec.gen.automute_speaker = true → codec.spec.gen.hp_jack_present = false →
      (cs_automute codec).1.spec.gpio_data = codec.spec.gpio_eapd_speaker) ∧
    (codec.spec.gen.automute_speaker = false →
      (cs_automute codec).1.spec.gpio_data
        = codec.spec.gpio_eapd_hp ||| codec.spec.gpio_eapd_speaker) ∧
    (cs_automute codec).2.filter is_bus_write
      = [hda_event.codec_write 0x01 AC_VERB_SET_GPIO_DATA (cs_automute codec).1.spec.gpio_data] ∧
    (codec.spec.gpio_eapd_hp = 0x02 → codec.spec.gpio_eapd_speaker = 0x08 →
      (cs_automute codec).1.spec.gpio_data
        = if codec.spec.gen.automute_speaker then
            (if codec.spec.gen.hp_jack_present then 0x02 else 0x08)
          else 0x0A) := by
  have hc : (codec.spec.gpio_eapd_hp ≠ 0 ∨ codec.spec.gpio_eapd_speaker ≠ 0) := h
  refine ⟨?_, ?_, ?_, ?_, ?_⟩
  · intro h1 h2
    simp [cs_automute, snd_hda_codec_write, hc, h1, h2]
  · intro h1 h2
    simp [cs_automute, snd_hda_codec_write, hc, h1, h2]
  · intro h1
    simp [cs_automute, snd_hda_codec_write, hc, h1]
  · simp [cs_automute, snd_hda_codec_write, hc, is_bus_write]
  · intro h1 h2
    have hc2 : (codec.spec.gpio_eapd_hp ≠ 0 ∨ codec.spec.gpio_eapd_speaker ≠ 0) := h
    simp only [cs_automute, snd_hda_codec_write, if_pos hc2]
    simp only [h1, h2]
    cases codec.spec.gen.automute_speaker <;> cases codec.spec.gen.hp_jack_present <;> rfl

/-- Witness of C1 on the `cs420x_fixup_gpio_13` board with automute off: the value
written is 0x0A. -/
theorem cs_automute_gpio_derivation_witness :
    (cs_automute codec_gpio_13).1.spec.gpio_data = 0x0A ∧
    (cs_automute codec_gpio_13).2.filter is_bus_write
      = [hda_event.codec_write 0x01 AC_VERB_SET_GPIO_DATA 0x0A] := by
  have h := cs_automute_gpio_derivation codec_gpio_13 (by decide)
  have h5 := h.2.2.2.2 (by decide) (by decide)
  have h4 := h.2.2.2.1
  rw [h5] at h4
  exact ⟨h5, h4⟩


/-- C2. SPDIF precedence: after `cs_automute` the master mute flag is true exactly when
`spdif_present` and `sense_b` are both set; with both set it is true whatever the
headphone presence, in particular on a board whose `sense_b` comes from
`cs421x_fixup_sense_b`. -/
theorem cs_automute_spdif_precedence (codec : hda_codec) :
    ((cs_automute codec).1.spec.gen.master_mute = true ↔
      (codec.spec.spdif_present = true ∧ codec.spec.sense_b = true)) ∧
    (∀ hp : Bool, codec.spec.sense_b = true → codec.spec.spdif_present = true →
      (cs_automute { codec with
        spec := { codec.spec with
          gen := { codec.spec.gen with hp_jack_present := hp } } }).1.spec.gen.master_mute
        = true) ∧
    (∀ hp : Bool,
      (cs_automute
        (cs421x_fixup_sense_b
          { codec with
            spec := { codec.spec with
              spdif_present := true,
              gen := { codec.spec.gen with hp_jack_present := hp } } }
          HDA_FIXUP_ACT_PRE_PROBE)).1.spec.gen.master_mute = true) := by
  refine ⟨?_, ?_, ?_⟩
  · rw [cs_automute_codec]
    simp
  · intro hp h1 h2
    rw [cs_automute_codec]
    simp [h1, h2]
  · intro hp
    rw [cs_automute_codec]
    simp [cs421x_fixup_sense_b]

/-- Witness of C2 on the CDB4210 board with S/PDIF present and the headphone absent. -/
theorem cs_automute_spdif_precedence_witness :
    (cs_automute (codec_cdb4210 true)).1.spec.gen.master_mute = true :=
  (cs_automute_spdif_precedence (codec_cdb4210 true)).2.1 false (by decide) (by decide)

/-! ## Jack presence tracker -/

/-- What `cs4210_spdif_automute` does when the device is not a CS4210 with S/PDIF
detection: nothing. -/
theorem cs4210_spdif_automute_gated (k : hda_consts) (jack_sense : hda_nid_t → Bool)
    (codec : hda_codec)
    (hg : (!codec.spec.spdif_detect || codec.spec.vendor_nid != CS4210_VENDOR_NID) = true) :
    cs4210_spdif_automute k jack_sense codec = (codec, []) := by
  unfold cs4210_spdif_automute
  simp only [hg, if_true]

/-- What `cs4210_spdif_automute` does when the sensed presence is the stored one: it
only calls `snd_hda_jack_detect`. -/
theorem cs4210_spdif_automute_same (k : hda_consts) (jack_sense : hda_nid_t → Bool)
    (codec : hda_codec)
    (hg : (!codec.spec.spdif_detect || codec.spec.vendor_nid != CS4210_VENDOR_NID) = false)
    (hs : jack_sense (array_get codec.spec.gen.autocfg.dig_out_pins 0)
      = codec.spec.spdif_present) :
    cs4210_spdif_automute k jack_sense codec
      = (codec, [hda_event.jack_detect (array_get codec.spec.gen.autocfg.dig_out_pins 0)]) := by
  unfold cs4210_spdif_automute
  simp [hg, hs]

/-- What `cs4210_spdif_automute` does when the sensed presence differs from the stored
one: it stores the sensed value, programs the pin control and runs `cs_automute`. -/
theorem cs4210_spdif_automute_changed (k : hda_consts) (jack_sense : hda_nid_t → Bool)
    (codec : hda_codec)
    (hg : (!codec.spec.spdif_detect || codec.spec.vendor_nid != CS4210_VENDOR_NID) = false)
    (hs : jack_sense (array_get codec.spec.gen.autocfg.dig_out_pins 0)
      ≠ codec.spec.spdif_present) :
    cs4210_spdif_automute k jack_sense codec
      = ((cs_automute { codec with
            spec := { codec.spec with
              spdif_present :=
                jack_sense (array_get codec.spec.gen.autocfg.dig_out_pins 0) } }).1,
         [hda_event.jack_detect (array_get codec.spec.gen.autocfg.dig_out_pins 0),
          hda_event.set_pin_ctl (array_get codec.spec.gen.autocfg.dig_out_pins 0)
            (if jack_sense (array_get codec.spec.gen.autocfg.dig_out_pins 0) then k.PIN_OUT
             else 0)] ++
          (cs_automute { codec with
            spec := { codec.spec with
              spdif_present :=
                jack_sense (array_get codec.spec.gen.autocfg.dig_out_pins 0) } }).2) := by
  have hs2 : (jack_sense (array_get codec.spec.gen.autocfg.dig_out_pins 0)
      == codec.spec.spdif_present) = false := by
    simpa using hs
  unfold cs4210_spdif_automute
  simp only [hg, hs2]
  simp

/-- C3. Jack debounce: when the sensed presence equals the stored `spdif_present`,
`cs4210_spdif_automute` leaves the codec as it was, issues no bus write and does not
run `cs_automute`; and whatever the first sense event did, a second event with the same
physical presence leaves the codec as the first left it, without a bus write and without
running `cs_automute`. -/
theorem cs4210_spdif_automute_debounce (k : hda_consts) (jack_sense : hda_nid_t → Bool)
    (codec : hda_codec) :
    (jack_sense (array_get codec.spec.gen.autocfg.dig_out_pins 0) = codec.spec.spdif_present →
      (cs4210_spdif_automute k jack_sense codec).1 = codec ∧
      (cs4210_spdif_automute k jack_sense codec).2.filter is_bus_write = [] ∧
      automute_runs (cs4210_spdif_automute k jack_sense codec).2 = 0) ∧
    ((cs4210_spdif_automute k jack_sense (cs4210_spdif_automute k jack_sense codec).1).1
        = (cs4210_spdif_automute k jack_sense codec).1 ∧
      (cs4210_spdif_automute k jack_sense
        (cs4210_spdif_automute k jack_sense codec).1).2.filter is_bus_write = [] ∧
      automute_runs
        (cs4210_spdif_automute k jack_sense (cs4210_spdif_automute k jack_sense codec).1).2
        = 0) := by
  have key : ∀ c : hda_codec,
      jack_sense (array_get c.spec.gen.autocfg.dig_out_pins 0) = c.spec.spdif_present →
      (cs4210_spdif_automute k jack_sense c).1 = c ∧
      (cs4210_spdif_automute k jack_sense c).2.filter is_bus_write = [] ∧
      automute_runs (cs4210_spdif_automute k jack_sense c).2 = 0 := by
    intro c hc
    cases hg : (!c.spec.spdif_detect || c.spec.vendor_nid != CS4210_VENDOR_NID)
    · rw [cs4210_spdif_automute_same k jack_sense c hg hc]
      simp [automute_runs, is_bus_write]
    · rw [cs4210_spdif_automute_gated k jack_sense c hg]
      simp [automute_runs]
  refine ⟨key codec, ?_⟩
  cases hg : (!codec.spec.spdif_detect || codec.spec.vendor_nid != CS4210_VENDOR_NID)
  · by_cases hs : jack_sense (array_get codec.spec.gen.autocfg.dig_out_pins 0)
        = codec.spec.spdif_present
    · apply key
      rw [(key codec hs).1]
      exact hs
    · apply key
      rw [cs4210_spdif_automute_changed k jack_sense codec hg hs, cs_automute_codec]
  · rw [cs4210_spdif_automute_gated k jack_sense codec hg]
    simp only
    rw [cs4210_spdif_automute_gated k jack_sense codec hg]
    simp [automute_runs]

/-- Witness of C3 on the CDB4210 board: S/PDIF stored as present and sensed as
present. -/
theorem cs4210_spdif_automute_debounce_witness :
    (cs4210_spdif_automute hda_consts_std (fun _ => true) (codec_cdb4210 true)).2.filter
      is_bus_write = [] ∧
    automute_runs (cs4210_spdif_automute hda_consts_std (fun _ => true) (codec_cdb4210 true)).2
      = 0 :=
  ((cs4210_spdif_automute_debounce hda_consts_std (fun _ => true) (codec_cdb4210 true)).1
    (by decide)).2

/-- C4. Sense state change: on a CS4210 with `spdif_detect` set, when the sensed
presence differs from the stored one, on return `spdif_present` is the sensed value, the
pin control of `dig_out_pins[0]` has been written once, with `PIN_OUT` if S/PDIF is
present and 0 if absent, and `cs_automute` has run exactly once, on the state holding
the new presence and after the pin-control write. -/
theorem cs4210_spdif_automute_state_change (k : hda_consts) (jack_sense : hda_nid_t → Bool)
    (codec : hda_codec)
    (hv : codec.spec.vendor_nid = CS4210_VENDOR_NID)
    (hd : codec.spec.spdif_detect = true)
    (hs : jack_sense (array_get codec.spec.gen.autocfg.dig_out_pins 0)
      ≠ codec.spec.spdif_present) :
    (cs4210_spdif_automute k jack_sense codec).1.spec.spdif_present
      = jack_sense (array_get codec.spec.gen.autocfg.dig_out_pins 0) ∧
    (cs4210_spdif_automute k jack_sense codec).1
      = (cs_automute { codec with
          spec := { codec.spec with
            spdif_present :=
              jack_sense (array_get codec.spec.gen.autocfg.dig_out_pins 0) } }).1 ∧
    (cs4210_spdif_automute k jack_sense codec).2
      = [hda_event.jack_detect (array_get codec.spec.gen.autocfg.dig_out_pins 0),
         hda_event.set_pin_ctl (array_get codec.spec.gen.autocfg.dig_out_pins 0)
           (if jack_sense (array_get codec.spec.gen.autocfg.dig_out_pins 0) then k.PIN_OUT
            else 0)] ++
        (cs_automute { codec with
          spec := { codec.spec with
            spdif_present :=
              jack_sense (array_get codec.spec.gen.autocfg.dig_out_pins 0) } }).2 ∧
    automute_runs (cs4210_spdif_automute k jack_sense codec).2 = 1 := by
  have hg : (!codec.spec.spdif_detect || codec.spec.vendor_nid != CS4210_VENDOR_NID)
      = false := by
    simp [hv, hd]
  rw [cs4210_spdif_automute_changed k jack_sense codec hg hs]
  refine ⟨?_, rfl, rfl, ?_⟩
  · rw [cs_automute_codec]
  · have h1 := cs_automute_runs_once { codec with
      spec := { codec.spec with
        spdif_present := jack_sense (array_get codec.spec.gen.autocfg.dig_out_pins 0) } }
    unfold automute_runs at h1 ⊢
    simp only [List.count_append, h1]
    simp

/-- Witness of C4 on the CDB4210 board: S/PDIF stored as absent and sensed as present;
the pin control of pin 0x0a is set to `PIN_OUT` and master mute comes on. -/
theorem cs4210_spdif_automute_state_change_witness :
    (cs4210_spdif_automute hda_consts_std (fun _ => true)
      (codec_cdb4210 false)).1.spec.spdif_present = true ∧
    (cs4210_spdif_automute hda_consts_std (fun _ => true) (codec_cdb4210 false)).2
      = [hda_event.jack_detect 0x0a, hda_event.set_pin_ctl 0x0a 0x40,
         hda_event.gen_update_outputs] := by
  have h := cs4210_spdif_automute_state_change hda_consts_std (fun _ => true)
    (codec_cdb4210 false) (by decide) (by decide) (by decide)
  refine ⟨h.1, ?_⟩
  rw [h.2.2.1]
  decide

/-- C5 as stated fails: on the `cs420x_fixup_gpio_13` board the first run of
`cs_automute` writes 0x0A to the GPIO data register, and the second run, with nothing
changed, writes the same 0x0A again. -/
theorem cs_automute_write_dedup_counterexample :
    (cs_automute codec_gpio_13).2.filter is_bus_write
      = [hda_event.codec_write 0x01 AC_VERB_SET_GPIO_DATA 0x0A] ∧
    (cs_automute (cs_automute codec_gpio_13).1).2.filter is_bus_write
      = [hda_event.codec_write 0x01 AC_VERB_SET_GPIO_DATA 0x0A] ∧
    (cs_automute (cs_automute codec_gpio_13).1).2.filter is_bus_write ≠ [] := by
  decide

/-- C5, amended. When `cs_automute` runs twice in succession with jack state and board
policy unchanged, the second run issues the bus writes of the first: one write of
`gpio_data` to the GPIO data register of node 0x01 when `gpio_eapd_hp` or
`gpio_eapd_speaker` is non-zero, also when the value is the one last written, and no bus
write when both are zero. -/
theorem cs_automute_second_run_writes (codec : hda_codec) :
    (cs_automute (cs_automute codec).1).2.filter is_bus_write
      = (cs_automute codec).2.filter is_bus_write ∧
    (cs_automute (cs_automute codec).1).2.filter is_bus_write
      = if codec.spec.gpio_eapd_hp ≠ 0 ∨ codec.spec.gpio_eapd_speaker ≠ 0 then
          [hda_event.codec_write 0x01 AC_VERB_SET_GPIO_DATA (cs_automute codec).1.spec.gpio_data]
        else [] := by
  have h3 := cs_automute_twice_events codec
  rw [h3]
  refine ⟨rfl, ?_⟩
  rw [cs_automute_events codec]
  by_cases h : codec.spec.gpio_eapd_hp ≠ 0 ∨ codec.spec.gpio_eapd_speaker ≠ 0
  · simp only [if_pos h]
    simp [is_bus_write]
  · simp only [if_neg h]
    simp [is_bus_write]

/-- C6. Side-effect idempotence: a second run of `cs_automute`, with jack state and board
policy unchanged, leaves `master_mute` and `gpio_data` (and every other field) as the
first run left them, and records the same calls with the same register and value as the
first run recorded. -/
theorem cs_automute_side_effect_idempotent (codec : hda_codec) :
    (cs_automute (cs_automute codec).1).1.spec.gen.master_mute
      = (cs_automute codec).1.spec.gen.master_mute ∧
    (cs_automute (cs_automute codec).1).1.spec.gpio_data
      = (cs_automute codec).1.spec.gpio_data ∧
    (cs_automute (cs_automute codec).1).1 = (cs_automute codec).1 ∧
    (cs_automute (cs_automute codec).1).2 = (cs_automute codec).2 := by
  refine ⟨?_, ?_, cs_automute_twice_codec codec, cs_automute_twice_events codec⟩
  · rw [cs_automute_twice_codec]
  · rw [cs_automute_twice_codec]

/-! ## Fixup chains -/

/-- C7. Chain resolution terminates: in each fixup table of the file every index holds a
defined entry, and from every one of them the resolver returns a list, which starts at
that entry, follows `chain_id` while `chained` is true and ends at an entry that is not
chained; every entry of the list is a defined entry of the same table, no entry occurs
twice, and the length of the list is the number of distinct entries visited, at most 2. -/
theorem fixup_chains_resolve :
    ∀ table ∈ all_fixups, ∀ id, id < table.length →
      defined_entry table id ∧
      ∃ l, resolve table id = Except.ok l ∧
        l.head? = some id ∧
        follows_chain table l = true ∧
        (∀ j ∈ l, defined_entry table j) ∧
        l.Nodup ∧
        l.length = l.dedup.length ∧
        l.length ≤ 2 := by
  intro table ht
  simp only [all_fixups, List.mem_cons, List.mem_singleton, List.not_mem_nil, or_false] at ht
  rcases ht with rfl | rfl | rfl | rfl
  · intro id hid
    have hl : cs420x_fixups.length = 8 := by decide
    rw [hl] at hid
    interval_cases id <;> exact ⟨by decide, _, rfl, by decide⟩
  · intro id hid
    have hl : cs4208_fixups.length = 5 := by decide
    rw [hl] at hid
    interval_cases id <;> exact ⟨by decide, _, rfl, by decide⟩
  · intro id hid
    have hl : cs421x_fixups.length = 3 := by decide
    rw [hl] at hid
    interval_cases id <;> exact ⟨by decide, _, rfl, by decide⟩
  · intro id hid
    have hl : cs8409_fixups.length = 4 := by decide
    rw [hl] at hid
    interval_cases id <;> exact ⟨by decide, _, rfl, by decide⟩

/-- Witness of C7: the chain of `CS4208_MBP11` in `cs4208_fixups` resolves to a list of
at most two distinct defined entries. -/
theorem fixup_chains_resolve_witness :
    cs4208_fixups ∈ all_fixups ∧ CS4208_MBP11 < cs4208_fixups.length ∧
    ∃ l, resolve cs4208_fixups CS4208_MBP11 = Except.ok l ∧
      l.head? = some CS4208_MBP11 ∧ l.Nodup ∧ l.length ≤ 2 := by
  have hm : cs4208_fixups ∈ all_fixups := by simp [all_fixups]
  have hl : CS4208_MBP11 < cs4208_fixups.length := by decide
  obtain ⟨_, l, h1, h2, _, _, h5, _, h7⟩ :=
    fixup_chains_resolve cs4208_fixups hm CS4208_MBP11 hl
  exact ⟨hm, hl, l, h1, h2, h5, h7⟩

/-! ## Pin overrides -/

/-- Entries of a pin table whose first entry is not the terminator. -/
theorem pintbl_entries_cons (e : hda_pintbl) (rest : List hda_pintbl) (h : e.nid ≠ 0) :
    pintbl_entries (e :: rest) = e :: pintbl_entries rest := by
  simp [pintbl_entries, List.takeWhile_cons, h]

/-- Entries of a pin table whose first entry is the terminator. -/
theorem pintbl_entries_end (e : hda_pintbl) (rest : List hda_pintbl) (h : e.nid = 0) :
    pintbl_entries (e :: rest) = [] := by
  simp [pintbl_entries, List.takeWhile_cons, h]

/-- A pin that the table does not list keeps its configuration. -/
theorem snd_hda_apply_pincfgs_other (cfg : List hda_pintbl) :
    ∀ (codec : hda_codec) (nid : hda_nid_t),
      nid ∉ (pintbl_entries cfg).map hda_pintbl.nid →
      snd_hda_codec_get_pincfg (snd_hda_apply_pincfgs codec cfg) nid
        = snd_hda_codec_get_pincfg codec nid := by
  induction cfg with
  | nil => intro codec nid _; rfl
  | cons e rest ih =>
    intro codec nid hn
    by_cases he : e.nid = 0
    · simp [snd_hda_apply_pincfgs, he]
    · rw [pintbl_entries_cons e rest he] at hn
      simp only [List.map_cons, List.mem_cons, not_or] at hn
      simp only [snd_hda_apply_pincfgs, if_neg he]
      rw [ih _ nid hn.2]
      simp [snd_hda_codec_get_pincfg, snd_hda_codec_set_pincfg, hn.1]

/-- A pin that the table lists, once, reads back the value of the table. -/
theorem snd_hda_apply_pincfgs_listed (cfg : List hda_pintbl) :
    ∀ (codec : hda_codec) (e : hda_pintbl),
      ((pintbl_entries cfg).map hda_pintbl.nid).Nodup →
      e ∈ pintbl_entries cfg →
      snd_hda_codec_get_pincfg (snd_hda_apply_pincfgs codec cfg) e.nid = e.val := by
  induction cfg with
  | nil => intro codec e _ he; simp [pintbl_entries] at he
  | cons x rest ih =>
    intro codec e hnd he
    by_cases hx : x.nid = 0
    · rw [pintbl_entries_end x rest hx] at he
      simp at he
    · rw [pintbl_entries_cons x rest hx] at he hnd
      simp only [List.map_cons, List.nodup_cons] at hnd
      simp only [snd_hda_apply_pincfgs, if_neg hx]
      rcases List.mem_cons.mp he with rfl | hmem
      · rw [snd_hda_apply_pincfgs_other rest _ e.nid hnd.1]
        simp [snd_hda_codec_get_pincfg, snd_hda_codec_set_pincfg]
      · exact ih _ e hnd.2 hmem

/-- C8. Pin-override application: for every pin table of the file and every prior pin
configuration, after applying the table each listed pin reads back the value the table
gives it and every pin not listed reads back its prior value; for `mbp53_pincfgs` pin
0x0e reads 0x400000f0. -/
theorem pincfgs_override_frame :
    (∀ cfg ∈ all_pincfgs, ∀ codec : hda_codec,
      (∀ e ∈ pintbl_entries cfg,
        snd_hda_codec_get_pincfg (snd_hda_apply_pincfgs codec cfg) e.nid = e.val) ∧
      (∀ nid, nid ∉ (pintbl_entries cfg).map hda_pintbl.nid →
        snd_hda_codec_get_pincfg (snd_hda_apply_pincfgs codec cfg) nid
          = snd_hda_codec_get_pincfg codec nid)) ∧
    (∀ codec : hda_codec,
      snd_hda_codec_get_pincfg (snd_hda_apply_pincfgs codec mbp53_pincfgs) 0x0e
        = 0x400000f0) := by
  have hnd : ∀ cfg ∈ all_pincfgs, ((pintbl_entries cfg).map hda_pintbl.nid).Nodup := by
    decide
  refine ⟨?_, ?_⟩
  · intro cfg hcfg codec
    exact ⟨fun e he => snd_hda_apply_pincfgs_listed cfg codec e (hnd cfg hcfg) he,
      fun nid hn => snd_hda_apply_pincfgs_other cfg codec nid hn⟩
  · intro codec
    exact snd_hda_apply_pincfgs_listed mbp53_pincfgs codec ⟨0x0e, 0x400000f0⟩
      (hnd _ (by simp [all_pincfgs])) (by decide)

/-- Witness of C8 on `mba6_pincfgs`: pin 0x18 reads back 0x43ab9030 and pin 0x0e, which
the table does not list, keeps its value. -/
theorem pincfgs_override_frame_witness :
    snd_hda_codec_get_pincfg (snd_hda_apply_pincfgs hda_codec_zero mba6_pincfgs) 0x18
      = 0x43ab9030 ∧
    snd_hda_codec_get_pincfg (snd_hda_apply_pincfgs hda_codec_zero mba6_pincfgs) 0x0e
      = snd_hda_codec_get_pincfg hda_codec_zero 0x0e := by
  have h := pincfgs_override_frame.1 mba6_pincfgs (by simp [all_pincfgs]) hda_codec_zero
  exact ⟨h.1 ⟨0x18, 0x43ab9030⟩ (by decide), h.2 0x0e (by decide)⟩

/-! ## Errata sequence -/

/-- C9. Errata sequencing: run in table order on a recording bus, `cs_errata_init_verbs`
records its seventeen writes in table order; coefficient 0x0008 of node 0x11 is written
0x9999 and later 0x0000 and ends at 0x0000, coefficient 0x0017 is written 0xa412 and
later 0x2412 and ends at 0x2412, coefficient 0x0001 is written 0x0009 and later 0x0008
and ends at 0x0008; the S/PDIF receiver 0x07 and transmitter 0x08 are set to D0 after
the three enabling coefficient writes and before the three restoring ones. -/
theorem cs_errata_init_verbs_sequencing (codec : hda_codec) :
    (snd_hda_sequence_write codec cs_errata_init_verbs).2
      = [hda_event.codec_write 0x01 AC_VERB_SET_POWER_STATE 0x00,
         hda_event.codec_write 0x11 AC_VERB_SET_PROC_STATE 0x01,
         hda_event.codec_write 0x11 AC_VERB_SET_COEF_INDEX 0x0008,
         hda_event.codec_write 0x11 AC_VERB_SET_PROC_COEF 0x9999,
         hda_event.codec_write 0x11 AC_VERB_SET_COEF_INDEX 0x0017,
         hda_event.codec_write 0x11 AC_VERB_SET_PROC_COEF 0xa412,
         hda_event.codec_write 0x11 AC_VERB_SET_COEF_INDEX 0x0001,
         hda_event.codec_write 0x11 AC_VERB_SET_PROC_COEF 0x0009,
         hda_event.codec_write 0x07 AC_VERB_SET_POWER_STATE 0x00,
         hda_event.codec_write 0x08 AC_VERB_SET_POWER_STATE 0x00,
         hda_event.codec_write 0x11 AC_VERB_SET_COEF_INDEX 0x0017,
         hda_event.codec_write 0x11 AC_VERB_SET_PROC_COEF 0x2412,
         hda_event.codec_write 0x11 AC_VERB_SET_COEF_INDEX 0x0008,
         hda_event.codec_write 0x11 AC_VERB_SET_PROC_COEF 0x0000,
         hda_event.codec_write 0x11 AC_VERB_SET_COEF_INDEX 0x0001,
         hda_event.codec_write 0x11 AC_VERB_SET_PROC_COEF 0x0008,
         hda_event.codec_write 0x11 AC_VERB_SET_PROC_STATE 0x00] ∧
    (snd_hda_sequence_write codec cs_errata_init_verbs).2
      = (verb_entries cs_errata_init_verbs).map
          (fun v => hda_event.codec_write v.nid v.verb v.param) ∧
    coef_values codec.coef_index 0x11 0x0008
      (snd_hda_sequence_write codec cs_errata_init_verbs).2 = [0x9999, 0x0000] ∧
    coef_values codec.coef_index 0x11 0x0017
      (snd_hda_sequence_write codec cs_errata_init_verbs).2 = [0xa412, 0x2412] ∧
    coef_values codec.coef_index 0x11 0x0001
      (snd_hda_sequence_write codec cs_errata_init_verbs).2 = [0x0009, 0x0008] ∧
    (snd_hda_sequence_write codec cs_errata_init_verbs).1.proc_coef 0x11 0x0008 = 0x0000 ∧
    (snd_hda_sequence_write codec cs_errata_init_verbs).1.proc_coef 0x11 0x0017 = 0x2412 ∧
    (snd_hda_sequence_write codec cs_errata_init_verbs).1.proc_coef 0x11 0x0001 = 0x0008 ∧
    coef_writes codec.coef_index
        ((snd_hda_sequence_write codec cs_errata_init_verbs).2.take 8)
      = [(0x11, 0x0008, 0x9999), (0x11, 0x0017, 0xa412), (0x11, 0x0001, 0x0009)] ∧
    ((snd_hda_sequence_write codec cs_errata_init_verbs).2.drop 8).take 2
      = [hda_event.codec_write 0x07 AC_VERB_SET_POWER_STATE 0x00,
         hda_event.codec_write 0x08 AC_VERB_SET_POWER_STATE 0x00] ∧
    coef_writes codec.coef_index
        ((snd_hda_sequence_write codec cs_errata_init_verbs).2.drop 10)
      = [(0x11, 0x0017, 0x2412), (0x11, 0x0008, 0x0000), (0x11, 0x0001, 0x0008)] := by
  have hrec : (snd_hda_sequence_write codec cs_errata_init_verbs).2
      = [hda_event.codec_write 0x01 AC_VERB_SET_POWER_STATE 0x00,
         hda_event.codec_write 0x11 AC_VERB_SET_PROC_STATE 0x01,
         hda_event.codec_write 0x11 AC_VERB_SET_COEF_INDEX 0x0008,
         hda_event.codec_write 0x11 AC_VERB_SET_PROC_COEF 0x9999,
         hda_event.codec_write 0x11 AC_VERB_SET_COEF_INDEX 0x0017,
         hda_event.codec_write 0x11 AC_VERB_SET_PROC_COEF 0xa412,
         hda_event.codec_write 0x11 AC_VERB_SET_COEF_INDEX 0x0001,
         hda_event.codec_write 0x11 AC_VERB_SET_PROC_COEF 0x0009,
         hda_event.codec_write 0x07 AC_VERB_SET_POWER_STATE 0x00,
         hda_event.codec_write 0x08 AC_VERB_SET_POWER_STATE 0x00,
         hda_event.codec_write 0x11 AC_VERB_SET_COEF_INDEX 0x0017,
         hda_event.codec_write 0x11 AC_VERB_SET_PROC_COEF 0x2412,
         hda_event.codec_write 0x11 AC_VERB_SET_COEF_INDEX 0x0008,
         hda_event.codec_write 0x11 AC_VERB_SET_PROC_COEF 0x0000,
         hda_event.codec_write 0x11 AC_VERB_SET_COEF_INDEX 0x0001,
         hda_event.codec_write 0x11 AC_VERB_SET_PROC_COEF 0x0008,
         hda_event.codec_write 0x11 AC_VERB_SET_PROC_STATE 0x00] := by
    simp [snd_hda_sequence_write, cs_errata_init_verbs, snd_hda_codec_write, hda_verb_end]
  rw [hrec]
  refine ⟨rfl, by decide, ?_, ?_, ?_, ?_, ?_, ?_, ?_, rfl, ?_⟩
  · simp [coef_values, coef_writes]
  · simp [coef_values, coef_writes]
  · simp [coef_values, coef_writes]
  · simp [snd_hda_sequence_write, cs_errata_init_verbs, snd_hda_codec_write, hda_verb_end]
  · simp [snd_hda_sequence_write, cs_errata_init_verbs, snd_hda_codec_write, hda_verb_end]
  · simp [snd_hda_sequence_write, cs_errata_init_verbs, snd_hda_codec_write, hda_verb_end]
  · simp [coef_writes]
  · simp [coef_writes]

/-! ## Probe ordering -/

/-- An event that occurs only in a part of the recording free of parser calls, with
nothing but parser-free events in front of it, comes before every parser call. -/
theorem before_parse_of_prefix (a : hda_event) (pre suf : List hda_event)
    (hpre : ∀ e ∈ pre, is_parse_call e = false) (ha : a ∉ suf) :
    before_parse a (pre ++ suf) := by
  intro l1 l2 h e he
  rcases List.append_eq_append_iff.mp h with ⟨m, h1, h2⟩ | ⟨m, h1, h2⟩
  · exact absurd (by rw [h2]; simp) ha
  · exact hpre e (by rw [h1]; simp [he])

/-- An event that closes the recording and does not occur earlier comes after every
parser call. -/
theorem after_parse_of_last (a : hda_event) (pre : List hda_event) (ha : a ∉ pre) :
    after_parse a (pre ++ [a]) := by
  intro l1 l2 h e he
  rcases List.append_eq_append_iff.mp h with ⟨m, h1, h2⟩ | ⟨m, h1, h2⟩
  · cases m with
    | nil =>
      simp at h2
      rw [h2] at he
      simp at he
    | cons x m =>
      simp at h2
  · cases m with
    | nil =>
      simp at h2
      rw [h2] at he
      simp at he
    | cons x m =>
      simp at h2
      exact absurd (by rw [h1, h2.1]; simp) ha

/-- A recording free of lifecycle calls holds no fixup application and no free. -/
theorem not_mem_of_no_lifecycle (l : List hda_event)
    (h : ∀ e ∈ l, is_lifecycle_call e = false) :
    (∀ a, hda_event.apply_fixup a ∉ l) ∧ hda_event.gen_free ∉ l := by
  refine ⟨fun a hm => ?_, fun hm => ?_⟩
  · have := h _ hm
    simp [is_lifecycle_call] at this
  · have := h _ hm
    simp [is_lifecycle_call] at this

/-- The ADC power loop records only calls of `snd_hda_gen_fix_pin_power`. -/
theorem fix_adc_pin_power_events (gen : hda_gen_spec) (l : List Nat) :
    ∀ done, ∀ e ∈ fix_adc_pin_power gen l done,
      is_lifecycle_call e = false ∧ is_parse_call e = false := by
  induction l with
  | nil => intro done e he; simp [fix_adc_pin_power] at he
  | cons i rest ih =>
    intro done e he
    simp only [fix_adc_pin_power] at he
    split at he
    · exact ih _ e he
    · rcases List.mem_cons.mp he with rfl | hmem
      · exact ⟨rfl, rfl⟩
      · exact ih _ e hmem

/-- The parse of `cs_parse_auto_config` starts with `snd_hda_parse_pin_defcfg` and makes
no lifecycle call. -/
theorem cs_parse_auto_config_events (core : hda_core) (codec : hda_codec) :
    hda_event.parse_pin_defcfg ∈ (cs_parse_auto_config core codec).2.2 ∧
    ∀ e ∈ (cs_parse_auto_config core codec).2.2, is_lifecycle_call e = false := by
  unfold cs_parse_auto_config
  simp only
  split
  · simp [is_lifecycle_call]
  · split
    · simp [is_lifecycle_call]
    · split
      · refine ⟨by simp, ?_⟩
        intro e he
        rcases List.mem_append.mp he with h | h
        · simp at h
          rcases h with rfl | rfl <;> rfl
        · exact (fix_adc_pin_power_events _ _ _ e h).1
      · simp [is_lifecycle_call]

/-- The loop of `parse_cs421x_digital` records only calls that enable jack detection. -/
theorem parse_cs421x_digital_loop_events (k : hda_consts) (l : List Nat) :
    ∀ codec, ∀ e ∈ (parse_cs421x_digital_loop k codec l).2,
      is_lifecycle_call e = false := by
  induction l with
  | nil => intro codec e he; simp [parse_cs421x_digital_loop] at he
  | cons i rest ih =>
    intro codec e he
    simp only [parse_cs421x_digital_loop] at he
    split at he
    · rcases List.mem_cons.mp he with rfl | hmem
      · rfl
      · exact ih _ e hmem
    · exact ih _ e he

/-- The parse of `cs421x_parse_auto_config` starts with `snd_hda_parse_pin_defcfg` and
makes no lifecycle call. -/
theorem cs421x_parse_auto_config_events (k : hda_consts) (core : hda_core)
    (codec : hda_codec) :
    hda_event.parse_pin_defcfg ∈ (cs421x_parse_auto_config k core codec).2.2 ∧
    ∀ e ∈ (cs421x_parse_auto_config k core codec).2.2, is_lifecycle_call e = false := by
  have hd := parse_cs421x_digital_loop_events k
  unfold cs421x_parse_auto_config parse_cs421x_digital
  simp only
  split
  · simp [is_lifecycle_call]
  · split
    · simp [is_lifecycle_call]
    · split
      · split
        · refine ⟨by simp, ?_⟩
          intro e he
          simp only [List.mem_append, List.mem_cons, List.mem_singleton, List.not_mem_nil,
            or_false] at he
          rcases he with (h | h) | h
          · rcases h with rfl | rfl <;> rfl
          · exact hd _ _ e h
          · rw [h]; rfl
        · refine ⟨by simp, ?_⟩
          intro e he
          simp only [List.mem_append, List.mem_cons, List.mem_singleton, List.not_mem_nil,
            or_false] at he
          rcases he with (h | h) | h
          · rcases h with rfl | rfl <;> rfl
          · exact hd _ _ e h
          · rw [h]; rfl
      · refine ⟨by simp, ?_⟩
        intro e he
        simp only [List.mem_append, List.mem_cons, List.mem_singleton, List.not_mem_nil,
          or_false] at he
        rcases he with h | h
        · rcases h with rfl | rfl <;> rfl
        · exact hd _ _ e h

/-- The pin-mux programming records one coefficient read and one coefficient write on
the vendor widget. -/
theorem cs4210_pinmux_init_recording (k : hda_consts) (codec : hda_codec) :
    ∃ coef, (cs4210_pinmux_init k codec).2
      = [hda_event.codec_write codec.spec.vendor_nid AC_VERB_SET_COEF_INDEX CS421X_IDX_DEV_CFG,
         hda_event.codec_read codec.spec.vendor_nid AC_VERB_GET_PROC_COEF 0,
         hda_event.codec_write codec.spec.vendor_nid AC_VERB_SET_COEF_INDEX CS421X_IDX_DEV_CFG,
         hda_event.codec_write codec.spec.vendor_nid AC_VERB_SET_PROC_COEF coef] := by
  unfold cs4210_pinmux_init
  simp only [apply_ite Prod.snd, ite_self]
  exact ⟨_, rfl⟩

/-- The pin-mux programming records bus accesses only. -/
theorem cs4210_pinmux_init_events (k : hda_consts) (codec : hda_codec) :
    ∀ e ∈ (cs4210_pinmux_init k codec).2,
      is_parse_call e = false ∧ is_lifecycle_call e = false := by
  obtain ⟨coef, h⟩ := cs4210_pinmux_init_recording k codec
  rw [h]
  intro e he
  simp only [List.mem_cons, List.mem_singleton, List.not_mem_nil, or_false] at he
  rcases he with rfl | rfl | rfl | rfl <;> exact ⟨rfl, rfl⟩

/-- The common shape of the probe functions: pick, PRE_PROBE fixups, bus accesses free
of parser and lifecycle calls, the parse, then either the free with the error of the
parse or the PROBE fixups with 0. Every such run has the probe ordering. -/
theorem probe_ordered_of_shape (r p : Int × hda_codec × List hda_event) (f : fixup_family)
    (mid : List hda_event)
    (hmid : ∀ e ∈ mid, is_parse_call e = false ∧ is_lifecycle_call e = false)
    (hp1 : hda_event.parse_pin_defcfg ∈ p.2.2)
    (hp2 : ∀ e ∈ p.2.2, is_lifecycle_call e = false)
    (htr : r.2.2 = [hda_event.pick_fixup f, hda_event.apply_fixup HDA_FIXUP_ACT_PRE_PROBE]
      ++ mid ++ p.2.2
      ++ [if p.1 < 0 then hda_event.gen_free
          else hda_event.apply_fixup HDA_FIXUP_ACT_PROBE])
    (hret : r.1 = if p.1 < 0 then p.1 else 0) :
    probe_ordered r p := by
  have hm := not_mem_of_no_lifecycle mid (fun e he => (hmid e he).2)
  have hp := not_mem_of_no_lifecycle p.2.2 hp2
  have cm : ∀ a, mid.count (hda_event.apply_fixup a) = 0 :=
    fun a => List.count_eq_zero.mpr (hm.1 a)
  have cp : ∀ a, p.2.2.count (hda_event.apply_fixup a) = 0 :=
    fun a => List.count_eq_zero.mpr (hp.1 a)
  have fm : mid.count hda_event.gen_free = 0 := List.count_eq_zero.mpr hm.2
  have fp : p.2.2.count hda_event.gen_free = 0 := List.count_eq_zero.mpr hp.2
  refine ⟨⟨[hda_event.pick_fixup f, hda_event.apply_fixup HDA_FIXUP_ACT_PRE_PROBE] ++ mid,
      [if p.1 < 0 then hda_event.gen_free else hda_event.apply_fixup HDA_FIXUP_ACT_PROBE],
      htr, ?_⟩, hp1, ?_, ?_, ?_, ?_⟩
  · intro e he
    simp only [List.mem_append, List.mem_cons, List.mem_singleton, List.not_mem_nil,
      or_false] at he
    rcases he with ((rfl | rfl) | h) | h
    · rfl
    · rfl
    · exact (hmid e h).1
    · rw [h]; split <;> rfl
  · rw [htr]
    simp only [List.count_append, cm, cp]
    split <;> simp [List.count_cons]
  · rw [htr]
    have hsplit : [hda_event.pick_fixup f, hda_event.apply_fixup HDA_FIXUP_ACT_PRE_PROBE]
        ++ mid ++ p.2.2
        ++ [if p.1 < 0 then hda_event.gen_free
            else hda_event.apply_fixup HDA_FIXUP_ACT_PROBE]
        = [hda_event.pick_fixup f, hda_event.apply_fixup HDA_FIXUP_ACT_PRE_PROBE]
          ++ (mid ++ p.2.2
            ++ [if p.1 < 0 then hda_event.gen_free
                else hda_event.apply_fixup HDA_FIXUP_ACT_PROBE]) := by
      simp
    rw [hsplit]
    apply before_parse_of_prefix
    · intro e he
      simp only [List.mem_cons, List.mem_singleton, List.not_mem_nil, or_false] at he
      rcases he with rfl | rfl <;> rfl
    · simp only [List.mem_append, List.mem_singleton, not_or]
      refine ⟨⟨hm.1 _, hp.1 _⟩, ?_⟩
      split <;> simp
  · intro hok
    rw [htr, hret]
    simp only [if_neg hok]
    refine ⟨?_, ?_, ?_, trivial⟩
    · simp only [List.count_append, cm, cp]
      simp [List.count_cons]
    · apply after_parse_of_last
      simp only [List.mem_append, List.mem_cons, List.mem_singleton, List.not_mem_nil,
        or_false, not_or]
      exact ⟨⟨⟨by simp, by simp⟩, hm.1 _⟩, hp.1 _⟩
    · simp only [List.mem_append, List.mem_cons, List.mem_singleton, List.not_mem_nil,
        or_false, not_or]
      exact ⟨⟨⟨⟨by simp, by simp⟩, hm.2⟩, hp.2⟩, by simp⟩
  · intro herr
    rw [htr, hret]
    simp only [if_pos herr]
    refine ⟨?_, ?_, trivial⟩
    · simp only [List.count_append, cm, cp]
      simp [List.count_cons]
    · simp only [List.count_append, fm, fp]
      simp [List.count_cons]

/-- The last step of a probe function, as a tuple of projections. -/
theorem probe_tail (core : hda_core) (ev : List hda_event)
    (p : Int × hda_codec × List hda_event) :
    (if p.1 < 0 then
        (p.1, core.snd_hda_gen_free p.2.1, ev ++ p.2.2 ++ [hda_event.gen_free])
      else
        (0, core.snd_hda_apply_fixup HDA_FIXUP_ACT_PROBE p.2.1,
          ev ++ p.2.2 ++ [hda_event.apply_fixup HDA_FIXUP_ACT_PROBE])).2.2
      = ev ++ p.2.2
        ++ [if p.1 < 0 then hda_event.gen_free
            else hda_event.apply_fixup HDA_FIXUP_ACT_PROBE] ∧
    (if p.1 < 0 then
        (p.1, core.snd_hda_gen_free p.2.1, ev ++ p.2.2 ++ [hda_event.gen_free])
      else
        (0, core.snd_hda_apply_fixup HDA_FIXUP_ACT_PROBE p.2.1,
          ev ++ p.2.2 ++ [hda_event.apply_fixup HDA_FIXUP_ACT_PROBE])).1
      = if p.1 < 0 then p.1 else 0 := by
  split <;> exact ⟨rfl, rfl⟩

/-- C10. Probe ordering: when the allocation succeeds, each of `patch_cs420x`,
`patch_cs4208` and `patch_cs4210` applies the fixups at PRE_PROBE exactly once and
strictly before the parser calls; if its parse does not fail it applies the fixups at
PROBE exactly once, strictly after the parser calls, frees nothing and returns 0; if
its parse returns a negative error it never applies the fixups at PROBE, frees the
device once and returns that error. -/
theorem patch_probe_ordering (k : hda_consts) (core : hda_core) (codec : hda_codec)
    (hk : core.kzalloc_ok = true) :
    (∃ c, probe_ordered (patch_cs420x k core codec) (cs_parse_auto_config core c)) ∧
    (∃ c, probe_ordered (patch_cs4208 k core codec) (cs_parse_auto_config core c)) ∧
    (∃ c, probe_ordered (patch_cs4210 k core codec) (cs421x_parse_auto_config k core c)) := by
  refine ⟨?_, ?_, ?_⟩
  · unfold patch_cs420x cs_alloc_spec
    simp only [hk, if_true]
    refine ⟨_, probe_ordered_of_shape _ _ fixup_family.cs420x []
      (by simp) (cs_parse_auto_config_events core _).1 (cs_parse_auto_config_events core _).2
      (probe_tail core _ _).1 (probe_tail core _ _).2⟩
  · unfold patch_cs4208 cs_alloc_spec
    simp only [hk, if_true]
    refine ⟨_, probe_ordered_of_shape _ _ fixup_family.cs4208 []
      (by simp) (cs_parse_auto_config_events core _).1 (cs_parse_auto_config_events core _).2
      (probe_tail core _ _).1 (probe_tail core _ _).2⟩
  · unfold patch_cs4210 cs_alloc_spec
    simp only [hk, if_true]
    refine ⟨_, probe_ordered_of_shape _ _ fixup_family.cs421x (cs4210_pinmux_init k _).2
      (cs4210_pinmux_init_events k _) (cs421x_parse_auto_config_events k core _).1
      (cs421x_parse_auto_config_events k core _).2
      (probe_tail core _ _).1 (probe_tail core _ _).2⟩

/-- Witness of C10: with a core in which every call succeeds `patch_cs420x` returns 0
after pick, PRE_PROBE, the two parser calls and PROBE; with a parser failing with -22
`patch_cs4210` returns -22 and frees the device without PROBE. -/
theorem patch_probe_ordering_witness :
    hda_core_ok.kzalloc_ok = true ∧
    (patch_cs420x hda_consts_std hda_core_ok hda_codec_zero).1 = 0 ∧
    (patch_cs420x hda_consts_std hda_core_ok hda_codec_zero).2.2
      = [hda_event.pick_fixup fixup_family.cs420x,
         hda_event.apply_fixup HDA_FIXUP_ACT_PRE_PROBE,
         hda_event.parse_pin_defcfg, hda_event.gen_parse_auto_config,
         hda_event.apply_fixup HDA_FIXUP_ACT_PROBE] ∧
    (∃ c, probe_ordered (patch_cs420x hda_consts_std hda_core_ok hda_codec_zero)
      (cs_parse_auto_config hda_core_ok c)) ∧
    (patch_cs4210 hda_consts_std hda_core_parse_fails hda_codec_zero).1 = -22 ∧
    (patch_cs4210 hda_consts_std hda_core_parse_fails hda_codec_zero).2.2
      = [hda_event.pick_fixup fixup_family.cs421x,
         hda_event.apply_fixup HDA_FIXUP_ACT_PRE_PROBE,
         hda_event.codec_write 0x0B AC_VERB_SET_COEF_INDEX 0x01,
         hda_event.codec_read 0x0B AC_VERB_GET_PROC_COEF 0,
         hda_event.codec_write 0x0B AC_VERB_SET_COEF_INDEX 0x01,
         hda_event.codec_write 0x0B AC_VERB_SET_PROC_COEF 0x08,
         hda_event.parse_pin_defcfg, hda_event.gen_parse_auto_config,
         hda_event.gen_free] ∧
    (∃ c, probe_ordered (patch_cs4210 hda_consts_std hda_core_parse_fails hda_codec_zero)
      (cs421x_parse_auto_config hda_consts_std hda_core_parse_fails c)) :=
  ⟨rfl, by decide, by decide,
    (patch_probe_ordering hda_consts_std hda_core_ok hda_codec_zero rfl).1,
    by decide, by decide,
    (patch_probe_ordering hda_consts_std hda_core_parse_fails hda_codec_zero rfl).2.2⟩

/-! ## Initialization -/

/-- A bus write leaves the driver state and the pin configurations as they are. -/
theorem snd_hda_codec_write_frame (codec : hda_codec) (nid : hda_nid_t) (verb : hda_verb_id)
    (param : Nat) :
    (snd_hda_codec_write codec nid verb param).1.spec = codec.spec ∧
    (snd_hda_codec_write codec nid verb param).1.pincfg = codec.pincfg ∧
    (snd_hda_codec_write codec nid verb param).2 = [hda_event.codec_write nid verb param] := by
  cases verb <;> exact ⟨rfl, rfl, rfl⟩

/-- A verb table run on the bus records the writes it stands for and leaves the driver
state and the pin configurations as they are. -/
theorem snd_hda_sequence_write_frame (seq : List hda_verb) :
    ∀ codec : hda_codec,
      (snd_hda_sequence_write codec seq).1.spec = codec.spec ∧
      (snd_hda_sequence_write codec seq).1.pincfg = codec.pincfg ∧
      (snd_hda_sequence_write codec seq).2 = verb_events seq := by
  induction seq with
  | nil => intro codec; exact ⟨rfl, rfl, rfl⟩
  | cons v rest ih =>
    intro codec
    by_cases hv : v.nid = 0
    · simp [snd_hda_sequence_write, verb_events, verb_entries, hv]
    · have h := ih (snd_hda_codec_write codec v.nid v.verb v.param).1
      have hw := snd_hda_codec_write_frame codec v.nid v.verb v.param
      simp only [snd_hda_sequence_write, if_neg hv]
      refine ⟨h.1.trans hw.1, h.2.1.trans hw.2.1, ?_⟩
      rw [h.2.2, hw.2.2]
      simp [verb_events, verb_entries, List.takeWhile_cons, hv]

/-- A coefficient read through the vendor widget leaves the driver state and the pin
configurations as they are, and records the index write and the read. -/
theorem cs_vendor_coef_get_frame (codec : hda_codec) (idx : Nat) :
    (cs_vendor_coef_get codec idx).2.1.spec = codec.spec ∧
    (cs_vendor_coef_get codec idx).2.1.pincfg = codec.pincfg ∧
    (cs_vendor_coef_get codec idx).2.2
      = [hda_event.codec_write codec.spec.vendor_nid AC_VERB_SET_COEF_INDEX idx,
         hda_event.codec_read codec.spec.vendor_nid AC_VERB_GET_PROC_COEF 0] :=
  ⟨rfl, rfl, rfl⟩

/-- A coefficient write through the vendor widget leaves the driver state and the pin
configurations as they are, and records the index write and the coefficient write. -/
theorem cs_vendor_coef_set_frame (codec : hda_codec) (idx coef : Nat) :
    (cs_vendor_coef_set codec idx coef).1.spec = codec.spec ∧
    (cs_vendor_coef_set codec idx coef).1.pincfg = codec.pincfg ∧
    (cs_vendor_coef_set codec idx coef).2
      = [hda_event.codec_write codec.spec.vendor_nid AC_VERB_SET_COEF_INDEX idx,
         hda_event.codec_write codec.spec.vendor_nid AC_VERB_SET_PROC_COEF coef] :=
  ⟨rfl, rfl, rfl⟩

/-- The GPIO block leaves the driver state as it is and records the three GPIO writes
exactly when `gpio_mask` is non-zero. -/
theorem init_gpio_frame (codec : hda_codec) :
    (init_gpio codec).1.spec = codec.spec ∧
    (init_gpio codec).1.pincfg = codec.pincfg ∧
    (init_gpio codec).2
      = if codec.spec.gpio_mask ≠ 0 then
          [hda_event.codec_write 0x01 AC_VERB_SET_GPIO_MASK codec.spec.gpio_mask,
           hda_event.codec_write 0x01 AC_VERB_SET_GPIO_DIRECTION codec.spec.gpio_dir,
           hda_event.codec_write 0x01 AC_VERB_SET_GPIO_DATA codec.spec.gpio_data]
        else [] := by
  unfold init_gpio
  by_cases h : codec.spec.gpio_mask ≠ 0
  · simp only [if_pos h]
    exact ⟨rfl, rfl, rfl⟩
  · simp only [if_neg h]
    exact ⟨trivial, trivial, trivial⟩

/-- The input-coefficient setup leaves the driver state as it is; on a CS420x it records
one read and one write of the coefficient `IDX_BEEP_CFG`, elsewhere nothing. -/
theorem init_input_coef_frame (k : hda_consts) (codec : hda_codec) :
    (init_input_coef k codec).1.spec = codec.spec ∧
    (init_input_coef k codec).1.pincfg = codec.pincfg ∧
    ∃ coef, (init_input_coef k codec).2
      = if codec.spec.vendor_nid = CS420X_VENDOR_NID then
          [hda_event.codec_write CS420X_VENDOR_NID AC_VERB_SET_COEF_INDEX IDX_BEEP_CFG,
           hda_event.codec_read CS420X_VENDOR_NID AC_VERB_GET_PROC_COEF 0,
           hda_event.codec_write CS420X_VENDOR_NID AC_VERB_SET_COEF_INDEX IDX_BEEP_CFG,
           hda_event.codec_write CS420X_VENDOR_NID AC_VERB_SET_PROC_COEF coef]
        else [] := by
  unfold init_input_coef
  by_cases h : codec.spec.vendor_nid = CS420X_VENDOR_NID
  · simp only [if_pos h]
    refine ⟨rfl, rfl, ?_⟩
    simp only [cs_vendor_coef_get, cs_vendor_coef_set, snd_hda_codec_write,
      snd_hda_codec_read, h]
    exact ⟨_, rfl⟩
  · simp only [if_neg h]
    exact ⟨trivial, trivial, 0, trivial⟩

/-- The S/PDIF coefficient setup leaves the driver state as it is and records one write
of the coefficient `IDX_SPDIF_CTL`, of 0x000a or, with the second digital output active,
0x400a. -/
theorem init_digital_coef_frame (k : hda_consts) (codec : hda_codec) :
    (init_digital_coef k codec).1.spec = codec.spec ∧
    ∃ coef, (coef = 0x000a ∨ coef = 0x400a) ∧
      (init_digital_coef k codec).2
        = [hda_event.codec_write codec.spec.vendor_nid AC_VERB_SET_COEF_INDEX IDX_SPDIF_CTL,
           hda_event.codec_write codec.spec.vendor_nid AC_VERB_SET_PROC_COEF coef] := by
  unfold init_digital_coef
  by_cases h : is_active_pin k codec CS_DIG_OUT2_PIN_NID = true
  · simp only [h, if_true]
    exact ⟨rfl, 0x400a, Or.inr rfl, rfl⟩
  · simp only [h]
    exact ⟨rfl, 0x000a, Or.inl rfl, rfl⟩

/-- The verb block of `cs_init` leaves the driver state as it is and records the errata
table and the coefficient table on a CS420x, the CS4208 table on a CS4208, and nothing
on any other chip. -/
theorem cs_init_verbs_frame (codec : hda_codec) :
    (cs_init_verbs codec).1.spec = codec.spec ∧
    (cs_init_verbs codec).2
      = if codec.spec.vendor_nid = CS420X_VENDOR_NID then
          verb_events cs_errata_init_verbs ++ verb_events cs_coef_init_verbs
        else if codec.spec.vendor_nid = CS4208_VENDOR_NID then
          verb_events cs4208_coef_init_verbs
        else [] := by
  unfold cs_init_verbs
  split
  · have a := snd_hda_sequence_write_frame cs_errata_init_verbs codec
    have b := snd_hda_sequence_write_frame cs_coef_init_verbs
      (snd_hda_sequence_write codec cs_errata_init_verbs).1
    refine ⟨b.1.trans a.1, ?_⟩
    show (snd_hda_sequence_write codec cs_errata_init_verbs).2
      ++ (snd_hda_sequence_write (snd_hda_sequence_write codec cs_errata_init_verbs).1
        cs_coef_init_verbs).2 = _
    rw [a.2.2, b.2.2]
  · split
    · have a := snd_hda_sequence_write_frame cs4208_coef_init_verbs codec
      exact ⟨a.1, a.2.2⟩
    · exact ⟨rfl, rfl⟩

/-- The recording of `cs_init`, block by block. -/
theorem cs_init_recording (k : hda_consts) (core : hda_core) (codec : hda_codec) :
    (cs_init k core codec).1 = 0 ∧
    (cs_init k core codec).2.2
      = (cs_init_verbs codec).2 ++ [hda_event.gen_init]
        ++ (init_gpio (core.snd_hda_gen_init (cs_init_verbs codec).1)).2
        ++ (if (core.snd_hda_gen_init (cs_init_verbs codec).1).spec.vendor_nid
              = CS420X_VENDOR_NID then
            (init_input_coef k (init_gpio (core.snd_hda_gen_init (cs_init_verbs codec).1)).1).2
            ++ (init_digital_coef k
                (init_input_coef k
                  (init_gpio (core.snd_hda_gen_init (cs_init_verbs codec).1)).1).1).2
          else []) := by
  have hg := (init_gpio_frame (core.snd_hda_gen_init (cs_init_verbs codec).1)).1
  unfold cs_init
  simp only [hg]
  split
  · exact ⟨rfl, by simp⟩
  · exact ⟨rfl, by simp⟩

/-- The GPIO block records GPIO writes only. -/
theorem init_gpio_events (codec : hda_codec) :
    ∀ e ∈ (init_gpio codec).2, is_gpio_write e = true := by
  rw [(init_gpio_frame codec).2.2]
  intro e he
  split at he
  · simp only [List.mem_cons, List.mem_singleton, List.not_mem_nil, or_false] at he
    rcases he with rfl | rfl | rfl <;> rfl
  · simp at he

/-- C11. Init sequencing: `cs_init` returns 0, and provided the generic initialization
leaves the chip identity and the GPIO mask and direction as they are, on a CS420x its
recording is the whole of `cs_errata_init_verbs`, the whole of `cs_coef_init_verbs`, the
generic initialization, the GPIO block, the read and write of the input coefficient and
the write of the digital coefficient (0x000a or 0x400a), in that order and each once; on
a CS4208 it is the whole of `cs4208_coef_init_verbs`, the generic initialization and the
GPIO block; on any other chip it is the generic initialization and the GPIO block, with no
verb table and no coefficient access. The GPIO block is, when `gpio_mask` is non-zero,
the write of `gpio_mask` to the GPIO mask register, of `gpio_dir` to the GPIO direction
register and of `gpio_data`, as the generic initialization left it, to the GPIO data
register of node 0x01, each once and in that order, and nothing when `gpio_mask` is
zero. -/
theorem cs_init_sequencing (k : hda_consts) (core : hda_core) (codec : hda_codec)
    (hf : gen_init_keeps_policy core) :
    (cs_init k core codec).1 = 0 ∧
    (core.snd_hda_gen_init (cs_init_verbs codec).1).spec.gpio_data
      = (cs_init k core codec).2.1.spec.gpio_data ∧
    (codec.spec.vendor_nid = CS420X_VENDOR_NID →
      ∃ input digital,
        (digital = 0x000a ∨ digital = 0x400a) ∧
        (cs_init k core codec).2.2
          = verb_events cs_errata_init_verbs ++ verb_events cs_coef_init_verbs
            ++ [hda_event.gen_init]
            ++ (if codec.spec.gpio_mask ≠ 0 then
                  [hda_event.codec_write 0x01 AC_VERB_SET_GPIO_MASK codec.spec.gpio_mask,
                   hda_event.codec_write 0x01 AC_VERB_SET_GPIO_DIRECTION codec.spec.gpio_dir,
                   hda_event.codec_write 0x01 AC_VERB_SET_GPIO_DATA
                     (core.snd_hda_gen_init (cs_init_verbs codec).1).spec.gpio_data]
                else [])
            ++ [hda_event.codec_write 0x11 AC_VERB_SET_COEF_INDEX IDX_BEEP_CFG,
                hda_event.codec_read 0x11 AC_VERB_GET_PROC_COEF 0,
                hda_event.codec_write 0x11 AC_VERB_SET_COEF_INDEX IDX_BEEP_CFG,
                hda_event.codec_write 0x11 AC_VERB_SET_PROC_COEF input]
            ++ [hda_event.codec_write 0x11 AC_VERB_SET_COEF_INDEX IDX_SPDIF_CTL,
                hda_event.codec_write 0x11 AC_VERB_SET_PROC_COEF digital]) ∧
    (codec.spec.vendor_nid = CS4208_VENDOR_NID →
      (cs_init k core codec).2.2
        = verb_events cs4208_coef_init_verbs ++ [hda_event.gen_init]
          ++ (if codec.spec.gpio_mask ≠ 0 then
                [hda_event.codec_write 0x01 AC_VERB_SET_GPIO_MASK codec.spec.gpio_mask,
                 hda_event.codec_write 0x01 AC_VERB_SET_GPIO_DIRECTION codec.spec.gpio_dir,
                 hda_event.codec_write 0x01 AC_VERB_SET_GPIO_DATA
                   (core.snd_hda_gen_init (cs_init_verbs codec).1).spec.gpio_data]
              else [])) ∧
    (codec.spec.vendor_nid ≠ CS420X_VENDOR_NID → codec.spec.vendor_nid ≠ CS4208_VENDOR_NID →
      (cs_init k core codec).2.2
        = [hda_event.gen_init]
          ++ (if codec.spec.gpio_mask ≠ 0 then
                [hda_event.codec_write 0x01 AC_VERB_SET_GPIO_MASK codec.spec.gpio_mask,
                 hda_event.codec_write 0x01 AC_VERB_SET_GPIO_DIRECTION codec.spec.gpio_dir,
                 hda_event.codec_write 0x01 AC_VERB_SET_GPIO_DATA
                   (core.snd_hda_gen_init (cs_init_verbs codec).1).spec.gpio_data]
              else []) ∧
      (∀ e ∈ (cs_init k core codec).2.2, is_coef_access e = false)) := by
  have hr := cs_init_recording k core codec
  have hv := cs_init_verbs_frame codec
  have hn : (core.snd_hda_gen_init (cs_init_verbs codec).1).spec.vendor_nid
      = codec.spec.vendor_nid := by
    rw [(hf _).1, hv.1]
  have hg := (init_gpio_frame (core.snd_hda_gen_init (cs_init_verbs codec).1)).2.2
  rw [(hf _).2.1, (hf _).2.2.1, hv.1] at hg
  have hfin : (core.snd_hda_gen_init (cs_init_verbs codec).1).spec.gpio_data
      = (cs_init k core codec).2.1.spec.gpio_data := by
    unfold cs_init
    simp only []
    split
    · show _ = (init_digital_coef k _).1.spec.gpio_data
      rw [(init_digital_coef_frame k _).1, (init_input_coef_frame k _).1,
        (init_gpio_frame _).1]
    · show _ = (init_gpio _).1.spec.gpio_data
      rw [(init_gpio_frame _).1]
  refine ⟨hr.1, hfin, ?_, ?_, ?_⟩
  · intro h
    obtain ⟨_, _, input, hi⟩ :=
      init_input_coef_frame k (init_gpio (core.snd_hda_gen_init (cs_init_verbs codec).1)).1
    obtain ⟨hds, digital, hdv, hd⟩ := init_digital_coef_frame k
      (init_input_coef k (init_gpio (core.snd_hda_gen_init (cs_init_verbs codec).1)).1).1
    have hvi : (init_input_coef k
        (init_gpio (core.snd_hda_gen_init (cs_init_verbs codec).1)).1).1.spec.vendor_nid
        = CS420X_VENDOR_NID := by
      rw [(init_input_coef_frame k _).1, (init_gpio_frame _).1, hn, h]
    have hvg : (init_gpio (core.snd_hda_gen_init (cs_init_verbs codec).1)).1.spec.vendor_nid
        = CS420X_VENDOR_NID := by
      rw [(init_gpio_frame _).1, hn, h]
    refine ⟨input, digital, hdv, ?_⟩
    rw [hr.2, hv.2, hi, hd, hvi, hg]
    rw [hn] at *
    simp only [h, hvg, if_true]
    simp [CS420X_VENDOR_NID]
  · intro h
    have h1 : codec.spec.vendor_nid ≠ CS420X_VENDOR_NID := by
      rw [h]; decide
    rw [hr.2, hv.2, hn, hg]
    simp only [if_neg h1, if_pos h]
    simp
  · intro h1 h2
    have htr : (cs_init k core codec).2.2
        = [hda_event.gen_init]
          ++ (if codec.spec.gpio_mask ≠ 0 then
                [hda_event.codec_write 0x01 AC_VERB_SET_GPIO_MASK codec.spec.gpio_mask,
                 hda_event.codec_write 0x01 AC_VERB_SET_GPIO_DIRECTION codec.spec.gpio_dir,
                 hda_event.codec_write 0x01 AC_VERB_SET_GPIO_DATA
                   (core.snd_hda_gen_init (cs_init_verbs codec).1).spec.gpio_data]
              else []) := by
      rw [hr.2, hv.2, hn, hg]
      simp only [if_neg h1, if_neg h2]
      simp
    refine ⟨htr, ?_⟩
    rw [htr]
    intro e he
    rcases List.mem_append.mp he with h | h
    · simp only [List.mem_singleton] at h
      rw [h]; rfl
    · by_cases hm : codec.spec.gpio_mask ≠ 0
      · rw [if_pos hm] at h
        simp only [List.mem_cons, List.mem_singleton, List.not_mem_nil, or_false] at h
        rcases h with h | h | h <;> rw [h] <;> rfl
      · rw [if_neg hm] at h
        exact absurd h (List.not_mem_nil e)

/-- The example core, whose generic initialization runs `cs_automute`, leaves the chip
identity, the GPIO policy and the S/PDIF detection state as they are. -/
theorem hda_core_ok_keeps_policy : gen_init_keeps_policy hda_core_ok := by
  intro c
  have h : hda_core_ok.snd_hda_gen_init c = (cs_automute c).1 := rfl
  rw [h, cs_automute_codec]
  exact ⟨rfl, rfl, rfl, rfl, rfl, rfl, rfl, rfl⟩

/-- Witness of C11 on the `cs420x_fixup_gpio_13` board, with a core whose generic
initialization runs the automute hook: the recording is the two verb tables, the generic
initialization, the writes of 0x0A to the GPIO mask, direction and data registers, and
the two coefficient setups. -/
theorem cs_init_sequencing_witness :
    gen_init_keeps_policy hda_core_ok ∧
    codec_gpio_13.spec.vendor_nid = CS420X_VENDOR_NID ∧
    ∃ input digital,
      (cs_init hda_consts_std hda_core_ok codec_gpio_13).2.2
        = verb_events cs_errata_init_verbs ++ verb_events cs_coef_init_verbs
          ++ [hda_event.gen_init]
          ++ [hda_event.codec_write 0x01 AC_VERB_SET_GPIO_MASK 0x0A,
              hda_event.codec_write 0x01 AC_VERB_SET_GPIO_DIRECTION 0x0A,
              hda_event.codec_write 0x01 AC_VERB_SET_GPIO_DATA 0x0A]
          ++ [hda_event.codec_write 0x11 AC_VERB_SET_COEF_INDEX IDX_BEEP_CFG,
              hda_event.codec_read 0x11 AC_VERB_GET_PROC_COEF 0,
              hda_event.codec_write 0x11 AC_VERB_SET_COEF_INDEX IDX_BEEP_CFG,
              hda_event.codec_write 0x11 AC_VERB_SET_PROC_COEF input]
          ++ [hda_event.codec_write 0x11 AC_VERB_SET_COEF_INDEX IDX_SPDIF_CTL,
              hda_event.codec_write 0x11 AC_VERB_SET_PROC_COEF digital] := by
  have hf := hda_core_ok_keeps_policy
  obtain ⟨input, digital, _, h⟩ :=
    (cs_init_sequencing hda_consts_std hda_core_ok codec_gpio_13 hf).2.2.1 rfl
  exact ⟨hf, rfl, input, digital, h⟩

/-- The pin-mux programming leaves the driver state as it is. -/
theorem cs4210_pinmux_init_spec (k : hda_consts) (codec : hda_codec) :
    (cs4210_pinmux_init k codec).1.spec = codec.spec := by
  unfold cs4210_pinmux_init
  simp only [apply_ite Prod.fst, apply_ite hda_codec.spec]
  exact ite_self _

/-- The opening block of `cs421x_init` leaves the driver state as it is and records
register accesses only, none of them on a GPIO register. -/
theorem cs421x_init_verbs_frame (k : hda_consts) (codec : hda_codec) :
    (cs421x_init_verbs k codec).1.spec = codec.spec ∧
    ∀ e ∈ (cs421x_init_verbs k codec).2,
      is_register_access e = true ∧ is_gpio_write e = false := by
  unfold cs421x_init_verbs
  split
  · have a := snd_hda_sequence_write_frame cs421x_coef_init_verbs codec
    have b := snd_hda_sequence_write_frame cs421x_coef_init_verbs_A1_silicon_fixes
      (snd_hda_sequence_write codec cs421x_coef_init_verbs).1
    obtain ⟨coef, hm⟩ := cs4210_pinmux_init_recording k
      (snd_hda_sequence_write (snd_hda_sequence_write codec cs421x_coef_init_verbs).1
        cs421x_coef_init_verbs_A1_silicon_fixes).1
    refine ⟨(cs4210_pinmux_init_spec k _).trans (b.1.trans a.1), ?_⟩
    show ∀ e ∈ (snd_hda_sequence_write codec cs421x_coef_init_verbs).2
      ++ (snd_hda_sequence_write (snd_hda_sequence_write codec cs421x_coef_init_verbs).1
        cs421x_coef_init_verbs_A1_silicon_fixes).2
      ++ (cs4210_pinmux_init k
        (snd_hda_sequence_write (snd_hda_sequence_write codec cs421x_coef_init_verbs).1
          cs421x_coef_init_verbs_A1_silicon_fixes).1).2, _
    rw [a.2.2, b.2.2, hm]
    have h1 : ∀ e ∈ verb_events cs421x_coef_init_verbs,
        is_register_access e = true ∧ is_gpio_write e = false := by decide
    have h2 : ∀ e ∈ verb_events cs421x_coef_init_verbs_A1_silicon_fixes,
        is_register_access e = true ∧ is_gpio_write e = false := by decide
    intro e he
    simp only [List.mem_append, List.mem_cons, List.mem_singleton, List.not_mem_nil,
      or_false] at he
    rcases he with (h | h) | h
    · exact h1 e h
    · exact h2 e h
    · rcases h with rfl | rfl | rfl | rfl <;> exact ⟨rfl, rfl⟩
  · exact ⟨rfl, by simp⟩

/-- The recording of `cs421x_init`, block by block. -/
theorem cs421x_init_recording (k : hda_consts) (core : hda_core)
    (jack_sense : hda_nid_t → Bool) (codec : hda_codec) :
    (cs421x_init k core jack_sense codec).1 = 0 ∧
    (cs421x_init k core jack_sense codec).2.1
      = (cs4210_spdif_automute k jack_sense
          (init_input_coef k
            (init_gpio (core.snd_hda_gen_init (cs421x_init_verbs k codec).1)).1).1).1 ∧
    (cs421x_init k core jack_sense codec).2.2
      = (cs421x_init_verbs k codec).2 ++ [hda_event.gen_init]
        ++ (init_gpio (core.snd_hda_gen_init (cs421x_init_verbs k codec).1)).2
        ++ (init_input_coef k
            (init_gpio (core.snd_hda_gen_init (cs421x_init_verbs k codec).1)).1).2
        ++ (cs4210_spdif_automute k jack_sense
            (init_input_coef k
              (init_gpio (core.snd_hda_gen_init (cs421x_init_verbs k codec).1)).1).1).2 :=
  ⟨rfl, rfl, rfl⟩

/-- The driver state on which `cs421x_init` runs its closing S/PDIF evaluation is the
one the generic initialization left. -/
theorem cs421x_init_spdif_state (k : hda_consts) (core : hda_core) (codec : hda_codec) :
    (init_input_coef k
      (init_gpio (core.snd_hda_gen_init (cs421x_init_verbs k codec).1)).1).1.spec
      = (core.snd_hda_gen_init (cs421x_init_verbs k codec).1).spec := by
  rw [(init_input_coef_frame k _).1, (init_gpio_frame _).1]

/-- The GPIO writes of an S/PDIF evaluation: one write of the GPIO data, by `cs_automute`,
when the evaluation is not gated off, the presence changed and an EAPD bit is assigned;
none otherwise. -/
theorem cs4210_spdif_automute_gpio_writes (k : hda_consts) (jack_sense : hda_nid_t → Bool)
    (codec : hda_codec) :
    (cs4210_spdif_automute k jack_sense codec).2.filter is_gpio_write
      = if codec.spec.spdif_detect = true ∧ codec.spec.vendor_nid = CS4210_VENDOR_NID ∧
            jack_sense (array_get codec.spec.gen.autocfg.dig_out_pins 0)
              ≠ codec.spec.spdif_present ∧
            (codec.spec.gpio_eapd_hp ≠ 0 ∨ codec.spec.gpio_eapd_speaker ≠ 0) then
          [hda_event.codec_write 0x01 AC_VERB_SET_GPIO_DATA
            (cs4210_spdif_automute k jack_sense codec).1.spec.gpio_data]
        else [] := by
  cases hg : (!codec.spec.spdif_detect || codec.spec.vendor_nid != CS4210_VENDOR_NID)
  · have hd : codec.spec.spdif_detect = true ∧ codec.spec.vendor_nid = CS4210_VENDOR_NID := by
      simpa using hg
    by_cases hs : jack_sense (array_get codec.spec.gen.autocfg.dig_out_pins 0)
        = codec.spec.spdif_present
    · rw [cs4210_spdif_automute_same k jack_sense codec hg hs]
      simp [hs, is_gpio_write]
    · rw [cs4210_spdif_automute_changed k jack_sense codec hg hs]
      simp only [cs_automute_events]
      by_cases he : codec.spec.gpio_eapd_hp ≠ 0 ∨ codec.spec.gpio_eapd_speaker ≠ 0
      · have hc : codec.spec.spdif_detect = true ∧ codec.spec.vendor_nid = CS4210_VENDOR_NID ∧
            jack_sense (array_get codec.spec.gen.autocfg.dig_out_pins 0)
              ≠ codec.spec.spdif_present ∧
            (codec.spec.gpio_eapd_hp ≠ 0 ∨ codec.spec.gpio_eapd_speaker ≠ 0) :=
          ⟨hd.1, hd.2, hs, he⟩
        simp only [if_pos hc, if_pos he]
        simp [is_gpio_write]
      · have hc : ¬ (codec.spec.spdif_detect = true ∧
            codec.spec.vendor_nid = CS4210_VENDOR_NID ∧
            jack_sense (array_get codec.spec.gen.autocfg.dig_out_pins 0)
              ≠ codec.spec.spdif_present ∧
            (codec.spec.gpio_eapd_hp ≠ 0 ∨ codec.spec.gpio_eapd_speaker ≠ 0)) :=
          fun h => he h.2.2.2
        simp only [if_neg hc, if_neg he]
        simp [is_gpio_write]
  · rw [cs4210_spdif_automute_gated k jack_sense codec hg]
    have hc : ¬ (codec.spec.spdif_detect = true ∧ codec.spec.vendor_nid = CS4210_VENDOR_NID ∧
        jack_sense (array_get codec.spec.gen.autocfg.dig_out_pins 0)
          ≠ codec.spec.spdif_present ∧
        (codec.spec.gpio_eapd_hp ≠ 0 ∨ codec.spec.gpio_eapd_speaker ≠ 0)) := by
      intro h
      simp [h.1, h.2.1] at hg
    simp only [if_neg hc]
    simp

/-- A recording whose events all fail a test has nothing left after filtering. -/
theorem filter_nil_of_all_false (p : hda_event → Bool) (l : List hda_event)
    (h : ∀ e ∈ l, p e = false) : l.filter p = [] := by
  induction l with
  | nil => rfl
  | cons x xs ih =>
    have hx := h x (List.mem_cons_self x xs)
    simp only [List.filter_cons, hx]
    exact ih (fun e he => h e (List.mem_cons_of_mem x he))

/-- The verb block of `cs_init` writes no GPIO register. -/
theorem cs_init_verbs_no_gpio (codec : hda_codec) :
    (cs_init_verbs codec).2.filter is_gpio_write = [] := by
  rw [(cs_init_verbs_frame codec).2]
  split
  · decide
  · split
    · decide
    · rfl

/-- Applying a pin table changes the pin configurations only. -/
theorem snd_hda_apply_pincfgs_frame (cfg : List hda_pintbl) :
    ∀ codec : hda_codec,
      snd_hda_apply_pincfgs codec cfg
        = { codec with pincfg := (snd_hda_apply_pincfgs codec cfg).pincfg } := by
  induction cfg with
  | nil => intro codec; rfl
  | cons e rest ih =>
    intro codec
    by_cases he : e.nid = 0
    · simp only [snd_hda_apply_pincfgs, if_pos he]
    · simp only [snd_hda_apply_pincfgs, if_neg he]
      rw [ih]
      rfl

/-- The fixups of the CS421x table leave the GPIO fields as they are: whatever the fixup
picked and the lifecycle point, an application that comes to an end changes none of
`gpio_mask`, `gpio_dir`, `gpio_data`, `gpio_eapd_hp` and `gpio_eapd_speaker`. -/
theorem cs421x_fixups_keep_gpio (depth : Nat) (c : hda_codec) (action : hda_fixup_action)
    (r : hda_codec × List hda_event) (hl : c.fixup_list = cs421x_fixups)
    (h : snd_hda_apply_fixup depth c action = some r) :
    r.1.spec.gpio_mask = c.spec.gpio_mask ∧ r.1.spec.gpio_dir = c.spec.gpio_dir ∧
    r.1.spec.gpio_data = c.spec.gpio_data ∧ r.1.spec.gpio_eapd_hp = c.spec.gpio_eapd_hp ∧
    r.1.spec.gpio_eapd_speaker = c.spec.gpio_eapd_speaker := by
  have hne : ¬ (cs421x_fixups = []) := by decide
  have r0 : resolve cs421x_fixups 0 = Except.ok [0, 1] := rfl
  have r1 : resolve cs421x_fixups 1 = Except.ok [1] := rfl
  have r2 : resolve cs421x_fixups 2 = Except.ok [2] := rfl
  have r3 : ∀ n, resolve cs421x_fixups (n + 3) = Except.error (ResolutionError.dangling (n + 3)) :=
    fun n => rfl
  have e0 : cs421x_fixups[0]? = some
      { v := .HDA_FIXUP_PINS cdb4210_pincfgs, chained := true, chain_id := CS421X_SENSE_B } := rfl
  have e1 : cs421x_fixups[1]? = some
      { v := .HDA_FIXUP_FUNC .cs421x_fixup_sense_b, chained := false, chain_id := 0 } := rfl
  have e2 : cs421x_fixups[2]? = some
      { v := .HDA_FIXUP_PINS stumpy_pincfgs, chained := false, chain_id := 0 } := rfl
  have hpins : ∀ (x : hda_codec) (cfg : List hda_pintbl),
      (snd_hda_apply_pincfgs x cfg).spec = x.spec := by
    intro x cfg
    rw [snd_hda_apply_pincfgs_frame]
  have hsb : ∀ (x : hda_codec) (a : hda_fixup_action),
      (cs421x_fixup_sense_b x a).spec.gpio_mask = x.spec.gpio_mask ∧
      (cs421x_fixup_sense_b x a).spec.gpio_dir = x.spec.gpio_dir ∧
      (cs421x_fixup_sense_b x a).spec.gpio_data = x.spec.gpio_data ∧
      (cs421x_fixup_sense_b x a).spec.gpio_eapd_hp = x.spec.gpio_eapd_hp ∧
      (cs421x_fixup_sense_b x a).spec.gpio_eapd_speaker = x.spec.gpio_eapd_speaker := by
    intro x a
    cases a <;> exact ⟨rfl, rfl, rfl, rfl, rfl⟩
  cases depth with
  | zero => simp [snd_hda_apply_fixup] at h
  | succ d =>
    by_cases hneg : c.fixup_id < 0
    · simp [snd_hda_apply_fixup, hneg] at h
      rw [← h]
      exact ⟨rfl, rfl, rfl, rfl, rfl⟩
    · simp only [snd_hda_apply_fixup, hl, hne, hneg, or_self, if_false] at h
      rcases hn : c.fixup_id.toNat with _ | _ | _ | n
      · rw [hn, r0] at h
        by_cases ha : action = HDA_FIXUP_ACT_PRE_PROBE
        · simp [apply_fixup_chain, e0, e1, apply_fixup_entry, call_fixup_func, ha] at h
          rw [← h]
          have h1 := hsb (snd_hda_apply_pincfgs c cdb4210_pincfgs) HDA_FIXUP_ACT_PRE_PROBE
          rw [hpins] at h1
          exact h1
        · simp [apply_fixup_chain, e0, e1, apply_fixup_entry, call_fixup_func, ha] at h
          rw [← h]
          exact hsb c action
      · rw [hn, r1] at h
        simp [apply_fixup_chain, e1, apply_fixup_entry, call_fixup_func] at h
        rw [← h]
        exact hsb c action
      · rw [hn, r2] at h
        by_cases ha : action = HDA_FIXUP_ACT_PRE_PROBE
        · simp [apply_fixup_chain, e2, apply_fixup_entry, ha] at h
          rw [← h]
          simp only [hpins]
          exact ⟨trivial, trivial, trivial, trivial, trivial⟩
        · simp [apply_fixup_chain, e2, apply_fixup_entry, ha] at h
          rw [← h]
          exact ⟨rfl, rfl, rfl, rfl, rfl⟩
      · rw [hn, r3] at h
        simp at h

/-- With no EAPD bit assigned the S/PDIF evaluation leaves `gpio_data` as it is. -/
theorem cs4210_spdif_automute_gpio_data (k : hda_consts) (jack_sense : hda_nid_t → Bool)
    (codec : hda_codec) (h1 : codec.spec.gpio_eapd_hp = 0)
    (h2 : codec.spec.gpio_eapd_speaker = 0) :
    (cs4210_spdif_automute k jack_sense codec).1.spec.gpio_data = codec.spec.gpio_data := by
  cases hg : (!codec.spec.spdif_detect || codec.spec.vendor_nid != CS4210_VENDOR_NID)
  · by_cases hs : jack_sense (array_get codec.spec.gen.autocfg.dig_out_pins 0)
        = codec.spec.spdif_present
    · rw [cs4210_spdif_automute_same k jack_sense codec hg hs]
    · rw [cs4210_spdif_automute_changed k jack_sense codec hg hs, cs_automute_codec]
      have hc : ¬ (codec.spec.gpio_eapd_hp ≠ 0 ∨ codec.spec.gpio_eapd_speaker ≠ 0) := by
        simp [h1, h2]
      show (if codec.spec.gpio_eapd_hp ≠ 0 ∨ codec.spec.gpio_eapd_speaker ≠ 0 then _ else _)
        = _
      rw [if_neg hc]
  · rw [cs4210_spdif_automute_gated k jack_sense codec hg]

/-- A GPIO block is left as it is by the filter that keeps the GPIO writes. -/
theorem gpio_block_filter (mask dir data : Nat) (p : Prop) [Decidable p] :
    (if p then
        [hda_event.codec_write 0x01 AC_VERB_SET_GPIO_MASK mask,
         hda_event.codec_write 0x01 AC_VERB_SET_GPIO_DIRECTION dir,
         hda_event.codec_write 0x01 AC_VERB_SET_GPIO_DATA data]
      else []).filter is_gpio_write
      = if p then
          [hda_event.codec_write 0x01 AC_VERB_SET_GPIO_MASK mask,
           hda_event.codec_write 0x01 AC_VERB_SET_GPIO_DIRECTION dir,
           hda_event.codec_write 0x01 AC_VERB_SET_GPIO_DATA data]
        else [] := by
  by_cases h : p
  · simp only [if_pos h]
    rfl
  · simp only [if_neg h]
    rfl

/-- C12. GPIO configuration at INIT, provided the generic initialization leaves the chip
identity and the policy as they are. `cs_init`, on every device state, and `cs421x_init`,
on every device state with no EAPD bit assigned, write to node 0x01, right after the
generic initialization, `gpio_mask` to the GPIO mask register, then `gpio_dir` to the GPIO
direction register, then `gpio_data` (as it stands after the generic initialization, and
as the function leaves it) to the GPIO data register, each exactly once and in that
order, if and only if `gpio_mask` is non-zero; when `gpio_mask` is zero they issue no GPIO
write at all. No EAPD bit is assigned on any CS421x device: the freshly allocated state
has all GPIO fields zero and the fixups of the CS421x table leave them as they are. (Were
an EAPD bit assigned, `cs421x_init` would write the GPIO data once more exactly when its
closing S/PDIF evaluation runs `cs_automute`.) -/
theorem init_gpio_configuration (k : hda_consts) (core : hda_core)
    (jack_sense : hda_nid_t → Bool) (codec : hda_codec)
    (hf : gen_init_keeps_policy core) :
    (∃ pre post,
      (cs_init k core codec).2.2
        = pre ++ [hda_event.gen_init]
          ++ (if codec.spec.gpio_mask ≠ 0 then
                [hda_event.codec_write 0x01 AC_VERB_SET_GPIO_MASK codec.spec.gpio_mask,
                 hda_event.codec_write 0x01 AC_VERB_SET_GPIO_DIRECTION codec.spec.gpio_dir,
                 hda_event.codec_write 0x01 AC_VERB_SET_GPIO_DATA
                   (core.snd_hda_gen_init (cs_init_verbs codec).1).spec.gpio_data]
              else [])
          ++ post ∧
      pre.filter is_gpio_write = [] ∧
      post.filter is_gpio_write = []) ∧
    (cs_init k core codec).2.2.filter is_gpio_write
      = (if codec.spec.gpio_mask ≠ 0 then
                [hda_event.codec_write 0x01 AC_VERB_SET_GPIO_MASK codec.spec.gpio_mask,
                 hda_event.codec_write 0x01 AC_VERB_SET_GPIO_DIRECTION codec.spec.gpio_dir,
                 hda_event.codec_write 0x01 AC_VERB_SET_GPIO_DATA
                   (core.snd_hda_gen_init (cs_init_verbs codec).1).spec.gpio_data]
              else []) ∧
    (codec.spec.gpio_mask = 0 → (cs_init k core codec).2.2.filter is_gpio_write = []) ∧
    (core.snd_hda_gen_init (cs_init_verbs codec).1).spec.gpio_data
      = (cs_init k core codec).2.1.spec.gpio_data ∧
    (∃ pre post,
      (cs421x_init k core jack_sense codec).2.2
        = pre ++ [hda_event.gen_init]
          ++ (if codec.spec.gpio_mask ≠ 0 then
                [hda_event.codec_write 0x01 AC_VERB_SET_GPIO_MASK codec.spec.gpio_mask,
                 hda_event.codec_write 0x01 AC_VERB_SET_GPIO_DIRECTION codec.spec.gpio_dir,
                 hda_event.codec_write 0x01 AC_VERB_SET_GPIO_DATA
                   (core.snd_hda_gen_init (cs421x_init_verbs k codec).1).spec.gpio_data]
              else [])
          ++ post ∧
      pre.filter is_gpio_write = [] ∧
      post.filter is_gpio_write
        = if codec.spec.spdif_detect = true ∧ codec.spec.vendor_nid = CS4210_VENDOR_NID ∧
              jack_sense (array_get codec.spec.gen.autocfg.dig_out_pins 0)
                ≠ codec.spec.spdif_present ∧
              (codec.spec.gpio_eapd_hp ≠ 0 ∨ codec.spec.gpio_eapd_speaker ≠ 0) then
            [hda_event.codec_write 0x01 AC_VERB_SET_GPIO_DATA
              (cs421x_init k core jack_sense codec).2.1.spec.gpio_data]
          else []) ∧
    (codec.spec.gpio_eapd_hp = 0 → codec.spec.gpio_eapd_speaker = 0 →
      (cs421x_init k core jack_sense codec).2.2.filter is_gpio_write
        = (if codec.spec.gpio_mask ≠ 0 then
                [hda_event.codec_write 0x01 AC_VERB_SET_GPIO_MASK codec.spec.gpio_mask,
                 hda_event.codec_write 0x01 AC_VERB_SET_GPIO_DIRECTION codec.spec.gpio_dir,
                 hda_event.codec_write 0x01 AC_VERB_SET_GPIO_DATA
                   (core.snd_hda_gen_init (cs421x_init_verbs k codec).1).spec.gpio_data]
              else []) ∧
      (codec.spec.gpio_mask = 0 →
        (cs421x_init k core jack_sense codec).2.2.filter is_gpio_write = []) ∧
      (core.snd_hda_gen_init (cs421x_init_verbs k codec).1).spec.gpio_data
        = (cs421x_init k core jack_sense codec).2.1.spec.gpio_data) ∧
    (∀ (c0 : hda_codec) (vendor_nid : hda_nid_t),
      cs_alloc_spec core codec vendor_nid = some c0 →
        c0.spec.gpio_mask = 0 ∧ c0.spec.gpio_eapd_hp = 0 ∧ c0.spec.gpio_eapd_speaker = 0) ∧
    (∀ (depth : Nat) (c : hda_codec) (action : hda_fixup_action)
        (r : hda_codec × List hda_event),
      c.fixup_list = cs421x_fixups → snd_hda_apply_fixup depth c action = some r →
        r.1.spec.gpio_mask = c.spec.gpio_mask ∧
        r.1.spec.gpio_eapd_hp = c.spec.gpio_eapd_hp ∧
        r.1.spec.gpio_eapd_speaker = c.spec.gpio_eapd_speaker) := by
  have hA : (∃ pre post,
      (cs_init k core codec).2.2
        = pre ++ [hda_event.gen_init]
          ++ (if codec.spec.gpio_mask ≠ 0 then
                [hda_event.codec_write 0x01 AC_VERB_SET_GPIO_MASK codec.spec.gpio_mask,
                 hda_event.codec_write 0x01 AC_VERB_SET_GPIO_DIRECTION codec.spec.gpio_dir,
                 hda_event.codec_write 0x01 AC_VERB_SET_GPIO_DATA
                   (core.snd_hda_gen_init (cs_init_verbs codec).1).spec.gpio_data]
              else [])
          ++ post ∧
      pre.filter is_gpio_write = [] ∧
      post.filter is_gpio_write = []) := by
    have hr := (cs_init_recording k core codec).2
    have hv := cs_init_verbs_frame codec
    have hg := (init_gpio_frame (core.snd_hda_gen_init (cs_init_verbs codec).1)).2.2
    rw [(hf _).2.1, (hf _).2.2.1, hv.1] at hg
    refine ⟨(cs_init_verbs codec).2,
      (if (core.snd_hda_gen_init (cs_init_verbs codec).1).spec.vendor_nid
            = CS420X_VENDOR_NID then
          (init_input_coef k (init_gpio (core.snd_hda_gen_init (cs_init_verbs codec).1)).1).2
          ++ (init_digital_coef k
              (init_input_coef k
                (init_gpio (core.snd_hda_gen_init (cs_init_verbs codec).1)).1).1).2
        else []),
      ?_, cs_init_verbs_no_gpio codec, ?_⟩
    · rw [hr, hg]
    · split
      · obtain ⟨_, _, input, hi⟩ := init_input_coef_frame k
          (init_gpio (core.snd_hda_gen_init (cs_init_verbs codec).1)).1
        obtain ⟨_, digital, _, hd⟩ := init_digital_coef_frame k
          (init_input_coef k (init_gpio (core.snd_hda_gen_init (cs_init_verbs codec).1)).1).1
        rw [hi, hd]
        split <;> simp [is_gpio_write]
      · rfl
  have hB : (∃ pre post,
      (cs421x_init k core jack_sense codec).2.2
        = pre ++ [hda_event.gen_init]
          ++ (if codec.spec.gpio_mask ≠ 0 then
                [hda_event.codec_write 0x01 AC_VERB_SET_GPIO_MASK codec.spec.gpio_mask,
                 hda_event.codec_write 0x01 AC_VERB_SET_GPIO_DIRECTION codec.spec.gpio_dir,
                 hda_event.codec_write 0x01 AC_VERB_SET_GPIO_DATA
                   (core.snd_hda_gen_init (cs421x_init_verbs k codec).1).spec.gpio_data]
              else [])
          ++ post ∧
      pre.filter is_gpio_write = [] ∧
      post.filter is_gpio_write
        = if codec.spec.spdif_detect = true ∧ codec.spec.vendor_nid = CS4210_VENDOR_NID ∧
              jack_sense (array_get codec.spec.gen.autocfg.dig_out_pins 0)
                ≠ codec.spec.spdif_present ∧
              (codec.spec.gpio_eapd_hp ≠ 0 ∨ codec.spec.gpio_eapd_speaker ≠ 0) then
            [hda_event.codec_write 0x01 AC_VERB_SET_GPIO_DATA
              (cs421x_init k core jack_sense codec).2.1.spec.gpio_data]
          else []) := by
    have hr := cs421x_init_recording k core jack_sense codec
    have hv := cs421x_init_verbs_frame k codec
    have hg := (init_gpio_frame (core.snd_hda_gen_init (cs421x_init_verbs k codec).1)).2.2
    rw [(hf _).2.1, (hf _).2.2.1, hv.1] at hg
    have hs := cs421x_init_spdif_state k core codec
    have hw := cs4210_spdif_automute_gpio_writes k jack_sense
      (init_input_coef k (init_gpio (core.snd_hda_gen_init (cs421x_init_verbs k codec).1)).1).1
    rw [hs, (hf _).2.2.2.2.2.1, (hf _).1, (hf _).2.2.2.2.2.2.2, (hf _).2.2.2.2.2.2.1,
      (hf _).2.2.2.1, (hf _).2.2.2.2.1, hv.1, ← hr.2.1] at hw
    refine ⟨(cs421x_init_verbs k codec).2,
      (init_input_coef k
        (init_gpio (core.snd_hda_gen_init (cs421x_init_verbs k codec).1)).1).2
      ++ (cs4210_spdif_automute k jack_sense
        (init_input_coef k
          (init_gpio (core.snd_hda_gen_init (cs421x_init_verbs k codec).1)).1).1).2,
      ?_, filter_nil_of_all_false _ _ (fun e he => (hv.2 e he).2), ?_⟩
    · rw [hr.2.2, hg]
      simp only [List.append_assoc]
    · rw [List.filter_append, hw]
      obtain ⟨_, _, input, hi⟩ := init_input_coef_frame k
        (init_gpio (core.snd_hda_gen_init (cs421x_init_verbs k codec).1)).1
      rw [hi]
      split <;> simp [is_gpio_write]
  have hfin : (core.snd_hda_gen_init (cs_init_verbs codec).1).spec.gpio_data
      = (cs_init k core codec).2.1.spec.gpio_data := by
    unfold cs_init
    simp only []
    split
    · show _ = (init_digital_coef k _).1.spec.gpio_data
      rw [(init_digital_coef_frame k _).1, (init_input_coef_frame k _).1,
        (init_gpio_frame _).1]
    · show _ = (init_gpio _).1.spec.gpio_data
      rw [(init_gpio_frame _).1]
  have hfA : (cs_init k core codec).2.2.filter is_gpio_write
      = (if codec.spec.gpio_mask ≠ 0 then
                [hda_event.codec_write 0x01 AC_VERB_SET_GPIO_MASK codec.spec.gpio_mask,
                 hda_event.codec_write 0x01 AC_VERB_SET_GPIO_DIRECTION codec.spec.gpio_dir,
                 hda_event.codec_write 0x01 AC_VERB_SET_GPIO_DATA
                   (core.snd_hda_gen_init (cs_init_verbs codec).1).spec.gpio_data]
              else []) := by
    obtain ⟨pre, post, heq, hpre, hpost⟩ := hA
    rw [heq]
    simp only [List.filter_append, hpre, hpost, gpio_block_filter, List.append_nil]
    rfl
  refine ⟨hA, hfA, ?_, hfin, hB, ?_, ?_, ?_⟩
  · intro hm
    rw [hfA, if_neg (by simp [hm])]
  · intro h1 h2
    have hfB : (cs421x_init k core jack_sense codec).2.2.filter is_gpio_write
        = (if codec.spec.gpio_mask ≠ 0 then
                [hda_event.codec_write 0x01 AC_VERB_SET_GPIO_MASK codec.spec.gpio_mask,
                 hda_event.codec_write 0x01 AC_VERB_SET_GPIO_DIRECTION codec.spec.gpio_dir,
                 hda_event.codec_write 0x01 AC_VERB_SET_GPIO_DATA
                   (core.snd_hda_gen_init (cs421x_init_verbs k codec).1).spec.gpio_data]
              else []) := by
      obtain ⟨pre, post, heq, hpre, hpost⟩ := hB
      have hc : ¬ (codec.spec.spdif_detect = true ∧ codec.spec.vendor_nid = CS4210_VENDOR_NID ∧
          jack_sense (array_get codec.spec.gen.autocfg.dig_out_pins 0)
            ≠ codec.spec.spdif_present ∧
          (codec.spec.gpio_eapd_hp ≠ 0 ∨ codec.spec.gpio_eapd_speaker ≠ 0)) := by
        intro h
        rcases h.2.2.2 with h | h
        · exact h h1
        · exact h h2
      rw [if_neg hc] at hpost
      rw [heq]
      simp only [List.filter_append, hpre, hpost, gpio_block_filter, List.append_nil]
      rfl
    refine ⟨hfB, ?_, ?_⟩
    · intro hm
      rw [hfB, if_neg (by simp [hm])]
    · have hr := (cs421x_init_recording k core jack_sense codec).2.1
      have hs := cs421x_init_spdif_state k core codec
      have hv := (cs421x_init_verbs_frame k codec).1
      rw [hr, cs4210_spdif_automute_gpio_data, hs]
      · rw [hs, (hf _).2.2.2.1, hv]
        exact h1
      · rw [hs, (hf _).2.2.2.2.1, hv]
        exact h2
  · intro c0 vendor_nid h
    unfold cs_alloc_spec at h
    split at h
    · cases h
      exact ⟨rfl, rfl, rfl⟩
    · cases h
  · intro depth c action r hl h
    have hk := cs421x_fixups_keep_gpio depth c action r hl h
    exact ⟨hk.1, hk.2.2.2.1, hk.2.2.2.2⟩

/-- Witness of C12. On the `cs420x_fixup_gpio_13` board `cs_init` writes 0x0A to the GPIO
mask, direction and data registers and no GPIO register elsewhere; on the CDB4210 board,
whose fixups assign no GPIO field, `cs421x_init` with S/PDIF sensed present writes no GPIO
register. -/
theorem init_gpio_configuration_witness :
    gen_init_keeps_policy hda_core_ok ∧
    (cs_init hda_consts_std hda_core_ok codec_gpio_13).2.2.filter is_gpio_write
      = [hda_event.codec_write 0x01 AC_VERB_SET_GPIO_MASK 0x0A,
         hda_event.codec_write 0x01 AC_VERB_SET_GPIO_DIRECTION 0x0A,
         hda_event.codec_write 0x01 AC_VERB_SET_GPIO_DATA 0x0A] ∧
    (cs421x_init hda_consts_std hda_core_ok (fun _ => true) (codec_cdb4210 false)).2.2.filter
        is_gpio_write = [] :=
  ⟨hda_core_ok_keeps_policy,
    (init_gpio_configuration hda_consts_std hda_core_ok (fun _ => true) codec_gpio_13
      hda_core_ok_keeps_policy).2.1,
    ((init_gpio_configuration hda_consts_std hda_core_ok (fun _ => true) (codec_cdb4210 false)
      hda_core_ok_keeps_policy).2.2.2.2.2.1 rfl rfl).2.1 rfl⟩

/-! ## Amplifier enables -/

/-- C13 as stated fails for `cs4208_fixup_gpio0`, which assigns no headphone bit: with
speaker automute enabled and the headphone present `cs_automute` leaves `gpio_data` at 0,
so no amplifier-enable bit is asserted, not exactly one. -/
theorem amp_enable_exclusivity_counterexample :
    (codec_gpio0 true true).spec.gpio_eapd_hp = 0 ∧
    (codec_gpio0 true true).spec.gpio_eapd_speaker = 1 ∧
    (cs_automute (codec_gpio0 true true)).1.spec.gpio_data = 0 ∧
    amp_bits_asserted (cs_automute (codec_gpio0 true true)).1.spec = 0 ∧
    amp_bits_asserted (cs_automute (codec_gpio0 true true)).1.spec ≠ 1 := by
  decide

/-- C13, amended. For the policy of `cs420x_fixup_gpio_13` and of `cs420x_fixup_gpio_23`
at PRE_PROBE, after `cs_automute` both amplifier-enable bits are asserted in `gpio_data`
when speaker automute is disabled, and exactly one is asserted when it is enabled: the
headphone bit with the headphone present, the speaker bit with it absent. For the policy
of `cs4208_fixup_gpio0`, which assigns the speaker bit only, that bit is asserted when
speaker automute is disabled or the headphone is absent, and no bit is asserted when
speaker automute is enabled and the headphone is present. -/
theorem amp_enable_bits (codec : hda_codec) :
    ((cs_automute (cs420x_fixup_gpio_13 codec HDA_FIXUP_ACT_PRE_PROBE)).1.spec.gpio_data
        = (if codec.spec.gen.automute_speaker then
            (if codec.spec.gen.hp_jack_present then 0x02 else 0x08)
          else 0x0A) ∧
      amp_bits_asserted (cs_automute (cs420x_fixup_gpio_13 codec HDA_FIXUP_ACT_PRE_PROBE)).1.spec
        = if codec.spec.gen.automute_speaker then 1 else 2) ∧
    ((cs_automute (cs420x_fixup_gpio_23 codec HDA_FIXUP_ACT_PRE_PROBE)).1.spec.gpio_data
        = (if codec.spec.gen.automute_speaker then
            (if codec.spec.gen.hp_jack_present then 0x04 else 0x08)
          else 0x0C) ∧
      amp_bits_asserted (cs_automute (cs420x_fixup_gpio_23 codec HDA_FIXUP_ACT_PRE_PROBE)).1.spec
        = if codec.spec.gen.automute_speaker then 1 else 2) ∧
    ((cs_automute (cs4208_fixup_gpio0 codec HDA_FIXUP_ACT_PRE_PROBE)).1.spec.gpio_data
        = (if codec.spec.gen.automute_speaker then
            (if codec.spec.gen.hp_jack_present then 0x00 else 0x01)
          else 0x01) ∧
      amp_bits_asserted (cs_automute (cs4208_fixup_gpio0 codec HDA_FIXUP_ACT_PRE_PROBE)).1.spec
        = if codec.spec.gen.automute_speaker && codec.spec.gen.hp_jack_present then 0
          else 1) := by
  refine ⟨?_, ?_, ?_⟩
  · rw [cs_automute_codec]
    simp only [cs420x_fixup_gpio_13, amp_bits_asserted, if_true]
    rw [if_pos (by decide : (((2 : Nat) ≠ 0) ∨ ((8 : Nat) ≠ 0)))]
    cases codec.spec.gen.automute_speaker <;> cases codec.spec.gen.hp_jack_present <;> decide
  · rw [cs_automute_codec]
    simp only [cs420x_fixup_gpio_23, amp_bits_asserted, if_true]
    rw [if_pos (by decide : (((4 : Nat) ≠ 0) ∨ ((8 : Nat) ≠ 0)))]
    cases codec.spec.gen.automute_speaker <;> cases codec.spec.gen.hp_jack_present <;> decide
  · rw [cs_automute_codec]
    simp only [cs4208_fixup_gpio0, amp_bits_asserted, if_true]
    rw [if_pos (by decide : (((0 : Nat) ≠ 0) ∨ ((1 : Nat) ≠ 0)))]
    cases codec.spec.gen.automute_speaker <;> cases codec.spec.gen.hp_jack_present <;> decide

/-! ## Forced evaluation at INIT -/

/-- C14 as stated fails for a sensed absence: on a freshly attached CS4210 with
`spdif_detect` set, where `spdif_present` starts at 0, `cs421x_init` with S/PDIF sensed
absent ends its S/PDIF evaluation at the comparison: it programs no pin control and does
not run `cs_automute`. -/
theorem cs421x_init_forced_evaluation_counterexample :
    (codec_cdb4210 false).spec.vendor_nid = CS4210_VENDOR_NID ∧
    (codec_cdb4210 false).spec.spdif_detect = true ∧
    (codec_cdb4210 false).spec.spdif_present = false ∧
    (cs421x_init hda_consts_std hda_core_ok (fun _ => false) (codec_cdb4210 false)).2.2.filter
        is_pin_ctl_write = [] ∧
    automute_runs
        (cs421x_init hda_consts_std hda_core_ok (fun _ => false) (codec_cdb4210 false)).2.2
      = 0 := by
  decide

/-- What `cs421x_init` records in front of its closing S/PDIF evaluation holds register
accesses and the generic initialization only. -/
theorem cs421x_init_prefix_events (k : hda_consts) (core : hda_core) (codec : hda_codec) :
    ∀ e ∈ (cs421x_init_verbs k codec).2 ++ [hda_event.gen_init]
        ++ (init_gpio (core.snd_hda_gen_init (cs421x_init_verbs k codec).1)).2
        ++ (init_input_coef k
            (init_gpio (core.snd_hda_gen_init (cs421x_init_verbs k codec).1)).1).2,
      is_pin_ctl_write e = false ∧ e ≠ hda_event.gen_update_outputs := by
  have hreg : ∀ e : hda_event, is_register_access e = true →
      is_pin_ctl_write e = false ∧ e ≠ hda_event.gen_update_outputs := by
    intro e he
    cases e <;> simp [is_register_access, is_pin_ctl_write] at he ⊢
  have hgp : ∀ e : hda_event, is_gpio_write e = true → is_register_access e = true := by
    intro e he
    cases e <;> simp [is_register_access, is_gpio_write] at he ⊢
  intro e he
  simp only [List.mem_append, List.mem_singleton] at he
  rcases he with ((h | h) | h) | h
  · exact hreg e ((cs421x_init_verbs_frame k codec).2 e h).1
  · rw [h]
    exact ⟨rfl, by simp⟩
  · exact hreg e (hgp e (init_gpio_events _ e h))
  · obtain ⟨_, _, input, hi⟩ := init_input_coef_frame k
      (init_gpio (core.snd_hda_gen_init (cs421x_init_verbs k codec).1)).1
    rw [hi] at h
    split at h
    · simp only [List.mem_cons, List.mem_singleton, List.not_mem_nil, or_false] at h
      rcases h with rfl | rfl | rfl | rfl <;> exact hreg _ rfl
    · simp at h

/-- C14, amended. On a freshly attached CS4210 with `spdif_detect` set, where
`spdif_present` starts at 0 (absent), and provided the generic initialization leaves the
S/PDIF detection state as it is: when S/PDIF is sensed present, the INIT-time call of
`cs4210_spdif_automute` made by `cs421x_init` stores the presence, sets the pin control
of the S/PDIF transmitter pin to `PIN_OUT`, once, and then runs `cs_automute`, once, on
the state holding the presence; when S/PDIF is sensed absent, it leaves `spdif_present`
at 0, programs no pin control and does not run `cs_automute`. -/
theorem cs421x_init_first_evaluation (k : hda_consts) (core : hda_core)
    (jack_sense : hda_nid_t → Bool) (codec : hda_codec)
    (hf : gen_init_keeps_policy core)
    (hv : codec.spec.vendor_nid = CS4210_VENDOR_NID)
    (hd : codec.spec.spdif_detect = true)
    (hp : codec.spec.spdif_present = false) :
    (jack_sense (array_get codec.spec.gen.autocfg.dig_out_pins 0) = true →
      (cs421x_init k core jack_sense codec).2.1.spec.spdif_present = true ∧
      (cs421x_init k core jack_sense codec).2.2.filter is_pin_ctl_write
        = [hda_event.set_pin_ctl (array_get codec.spec.gen.autocfg.dig_out_pins 0) k.PIN_OUT] ∧
      automute_runs (cs421x_init k core jack_sense codec).2.2 = 1 ∧
      ∃ pre c,
        c.spec.spdif_present = true ∧
        (cs421x_init k core jack_sense codec).2.1 = (cs_automute c).1 ∧
        (cs421x_init k core jack_sense codec).2.2
          = pre
            ++ [hda_event.jack_detect (array_get codec.spec.gen.autocfg.dig_out_pins 0),
                hda_event.set_pin_ctl (array_get codec.spec.gen.autocfg.dig_out_pins 0)
                  k.PIN_OUT]
            ++ (cs_automute c).2) ∧
    (jack_sense (array_get codec.spec.gen.autocfg.dig_out_pins 0) = false →
      (cs421x_init k core jack_sense codec).2.1.spec.spdif_present = false ∧
      (cs421x_init k core jack_sense codec).2.2.filter is_pin_ctl_write = [] ∧
      automute_runs (cs421x_init k core jack_sense codec).2.2 = 0) := by
  have hr := cs421x_init_recording k core jack_sense codec
  have hpre := cs421x_init_prefix_events k core codec
  have hvs := (cs421x_init_verbs_frame k codec).1
  have hs := cs421x_init_spdif_state k core codec
  have hpin : array_get (init_input_coef k
      (init_gpio (core.snd_hda_gen_init (cs421x_init_verbs k codec).1)).1).1.spec.gen.autocfg.dig_out_pins
      0 = array_get codec.spec.gen.autocfg.dig_out_pins 0 := by
    rw [hs, (hf _).2.2.2.2.2.2.2, hvs]
  have hpres : (init_input_coef k
      (init_gpio (core.snd_hda_gen_init (cs421x_init_verbs k codec).1)).1).1.spec.spdif_present
      = false := by
    rw [hs, (hf _).2.2.2.2.2.2.1, hvs, hp]
  have hg : (!(init_input_coef k
      (init_gpio (core.snd_hda_gen_init (cs421x_init_verbs k codec).1)).1).1.spec.spdif_detect
      || (init_input_coef k
      (init_gpio (core.snd_hda_gen_init (cs421x_init_verbs k codec).1)).1).1.spec.vendor_nid
        != CS4210_VENDOR_NID) = false := by
    rw [hs, (hf _).2.2.2.2.2.1, (hf _).1, hvs, hd, hv]
    decide
  have hp0 : ((cs421x_init_verbs k codec).2 ++ [hda_event.gen_init]
      ++ (init_gpio (core.snd_hda_gen_init (cs421x_init_verbs k codec).1)).2
      ++ (init_input_coef k
          (init_gpio (core.snd_hda_gen_init (cs421x_init_verbs k codec).1)).1).2).filter
      is_pin_ctl_write = [] :=
    filter_nil_of_all_false _ _ (fun e he => (hpre e he).1)
  have ha0 : automute_runs ((cs421x_init_verbs k codec).2 ++ [hda_event.gen_init]
      ++ (init_gpio (core.snd_hda_gen_init (cs421x_init_verbs k codec).1)).2
      ++ (init_input_coef k
          (init_gpio (core.snd_hda_gen_init (cs421x_init_verbs k codec).1)).1).2) = 0 :=
    List.count_eq_zero.mpr (fun hm => (hpre _ hm).2 rfl)
  refine ⟨?_, ?_⟩
  · intro hsense
    have hne : jack_sense (array_get (init_input_coef k
        (init_gpio (core.snd_hda_gen_init (cs421x_init_verbs k codec).1)).1).1.spec.gen.autocfg.dig_out_pins
        0) ≠ (init_input_coef k
        (init_gpio (core.snd_hda_gen_init (cs421x_init_verbs k codec).1)).1).1.spec.spdif_present := by
      rw [hpin, hpres, hsense]
      decide
    have hc := cs4210_spdif_automute_changed k jack_sense _ hg hne
    rw [hpin, hsense] at hc
    simp only [if_true] at hc
    have h21 := hr.2.1
    have h22 := hr.2.2
    rw [hc] at h21 h22
    refine ⟨?_, ?_, ?_, ?_⟩
    · rw [h21, cs_automute_codec]
    · rw [h22, List.filter_append, hp0, List.filter_append, cs_automute_events]
      split <;> simp [is_pin_ctl_write]
    · have h1 := cs_automute_runs_once { (init_input_coef k
        (init_gpio (core.snd_hda_gen_init (cs421x_init_verbs k codec).1)).1).1 with
          spec := { (init_input_coef k
            (init_gpio (core.snd_hda_gen_init (cs421x_init_verbs k codec).1)).1).1.spec with
            spdif_present := true } }
      unfold automute_runs at h1 ha0 ⊢
      rw [h22]
      simp only [List.count_append, ha0, h1]
      simp
    · refine ⟨(cs421x_init_verbs k codec).2 ++ [hda_event.gen_init]
          ++ (init_gpio (core.snd_hda_gen_init (cs421x_init_verbs k codec).1)).2
          ++ (init_input_coef k
              (init_gpio (core.snd_hda_gen_init (cs421x_init_verbs k codec).1)).1).2,
        _, rfl, h21, ?_⟩
      rw [h22]
      exact (List.append_assoc _ _ _).symm
  · intro hsense
    have heq : jack_sense (array_get (init_input_coef k
        (init_gpio (core.snd_hda_gen_init (cs421x_init_verbs k codec).1)).1).1.spec.gen.autocfg.dig_out_pins
        0) = (init_input_coef k
        (init_gpio (core.snd_hda_gen_init (cs421x_init_verbs k codec).1)).1).1.spec.spdif_present := by
      rw [hpin, hpres, hsense]
    have hc := cs4210_spdif_automute_same k jack_sense _ hg heq
    have h21 := hr.2.1
    have h22 := hr.2.2
    rw [hc] at h21 h22
    refine ⟨?_, ?_, ?_⟩
    · rw [h21, hpres]
    · rw [h22, List.filter_append, hp0]
      simp [is_pin_ctl_write]
    · unfold automute_runs at ha0 ⊢
      rw [h22]
      simp only [List.count_append, ha0]
      simp

/-- Witness of C14, amended, on the CDB4210 board with S/PDIF sensed present at INIT:
the pin control of pin 0x0a is set to `PIN_OUT` once and `cs_automute` runs once. -/
theorem cs421x_init_first_evaluation_witness :
    (cs421x_init hda_consts_std hda_core_ok (fun _ => true)
      (codec_cdb4210 false)).2.1.spec.spdif_present = true ∧
    (cs421x_init hda_consts_std hda_core_ok (fun _ => true)
      (codec_cdb4210 false)).2.2.filter is_pin_ctl_write
      = [hda_event.set_pin_ctl 0x0a 0x40] ∧
    automute_runs
      (cs421x_init hda_consts_std hda_core_ok (fun _ => true) (codec_cdb4210 false)).2.2
      = 1 := by
  have h := (cs421x_init_first_evaluation hda_consts_std hda_core_ok (fun _ => true)
    (codec_cdb4210 false) hda_core_ok_keeps_policy (by decide) (by decide) (by decide)).1 rfl
  exact ⟨h.1, h.2.1, h.2.2.1⟩

/-! ## Fixup selection and application -/

/-- With no model table the pick is the quirk lookup. -/
theorem snd_hda_pick_fixup_no_models (codec : hda_codec) (quirk : List snd_pci_quirk)
    (fixlist : List hda_fixup) :
    snd_hda_pick_fixup codec [] quirk fixlist
      = match quirk_lookup quirk codec.subsystem_vendor codec.subsystem_device with
        | some q => { codec with fixup_id := (q.value : Int), fixup_list := fixlist }
        | none => codec := by
  unfold snd_hda_pick_fixup
  cases codec.modelname <;> rfl

/-- An entry found by the quirk lookup is an entry of the table. -/
theorem quirk_lookup_mem (tbl : List snd_pci_quirk) (vendor device : Nat) (q : snd_pci_quirk)
    (h : quirk_lookup tbl vendor device = some q) : q ∈ quirk_entries tbl := by
  unfold quirk_lookup at h
  split at h
  · rename_i q1 h1
    cases h
    exact List.mem_of_find?_eq_some h1
  · exact List.mem_of_find?_eq_some h

/-- The applier on the CS4208 table from one of the four entries that the remap
selects: the entry and then `CS4208_GPIO0`, or `CS4208_GPIO0` alone. No nested
application is made, so any bound of at least one is enough. -/
theorem snd_hda_apply_fixup_cs4208_pre_probe (depth : Nat) (codec : hda_codec)
    (hl : codec.fixup_list = cs4208_fixups) :
    (codec.fixup_id = (CS4208_GPIO0 : Int) →
      snd_hda_apply_fixup (depth + 1) codec HDA_FIXUP_ACT_PRE_PROBE
        = some (cs4208_fixup_gpio0 codec HDA_FIXUP_ACT_PRE_PROBE, [])) ∧
    (codec.fixup_id = (CS4208_MBA6 : Int) →
      snd_hda_apply_fixup (depth + 1) codec HDA_FIXUP_ACT_PRE_PROBE
        = some (cs4208_fixup_gpio0 (snd_hda_apply_pincfgs codec mba6_pincfgs)
            HDA_FIXUP_ACT_PRE_PROBE, [])) ∧
    (codec.fixup_id = (CS4208_MBP11 : Int) →
      snd_hda_apply_fixup (depth + 1) codec HDA_FIXUP_ACT_PRE_PROBE
        = some (cs4208_fixup_gpio0 (cs4208_fixup_spdif_switch codec HDA_FIXUP_ACT_PRE_PROBE)
            HDA_FIXUP_ACT_PRE_PROBE, [])) ∧
    (codec.fixup_id = (CS4208_MACMINI : Int) →
      snd_hda_apply_fixup (depth + 1) codec HDA_FIXUP_ACT_PRE_PROBE
        = some (cs4208_fixup_gpio0 (cs4208_fixup_macmini codec HDA_FIXUP_ACT_PRE_PROBE)
            HDA_FIXUP_ACT_PRE_PROBE, [])) := by
  have hne : ¬ (cs4208_fixups = []) := by decide
  have r4 : resolve cs4208_fixups 4 = Except.ok [4] := rfl
  have r1 : resolve cs4208_fixups 1 = Except.ok [1, 4] := rfl
  have r2 : resolve cs4208_fixups 2 = Except.ok [2, 4] := rfl
  have r3 : resolve cs4208_fixups 3 = Except.ok [3, 4] := rfl
  have e4 : cs4208_fixups[4]? = some
      { v := .HDA_FIXUP_FUNC .cs4208_fixup_gpio0, chained := false, chain_id := 0 } := rfl
  have e1 : cs4208_fixups[1]? = some
      { v := .HDA_FIXUP_PINS mba6_pincfgs, chained := true, chain_id := CS4208_GPIO0 } := rfl
  have e2 : cs4208_fixups[2]? = some
      { v := .HDA_FIXUP_FUNC .cs4208_fixup_spdif_switch, chained := true,
        chain_id := CS4208_GPIO0 } := rfl
  have e3 : cs4208_fixups[3]? = some
      { v := .HDA_FIXUP_FUNC .cs4208_fixup_macmini, chained := true,
        chain_id := CS4208_GPIO0 } := rfl
  refine ⟨?_, ?_, ?_, ?_⟩
  · intro hid
    simp [snd_hda_apply_fixup, hl, hid, hne, CS4208_GPIO0, r4, apply_fixup_chain, e4,
      apply_fixup_entry, call_fixup_func]
  · intro hid
    simp [snd_hda_apply_fixup, hl, hid, hne, CS4208_MBA6, r1, apply_fixup_chain, e1, e4,
      apply_fixup_entry, call_fixup_func]
  · intro hid
    simp [snd_hda_apply_fixup, hl, hid, hne, CS4208_MBP11, r2, apply_fixup_chain, e2, e4,
      apply_fixup_entry, call_fixup_func]
  · intro hid
    simp [snd_hda_apply_fixup, hl, hid, hne, CS4208_MACMINI, r3, apply_fixup_chain, e3, e4,
      apply_fixup_entry, call_fixup_func]

/-- C15. Default fixup fallback: when `cs4208_fixup_mac` runs at PRE_PROBE on the CS4208
table and the identity matches no entry of `cs4208_mac_fixup_tbl`, so that the pick
leaves `fixup_id` at `HDA_FIXUP_ID_NOT_SET`, the application comes to an end with
`fixup_id` equal to `CS4208_GPIO0` and the codec is the one `cs4208_fixup_gpio0` alone
leaves: `gpio_eapd_hp` 0, `gpio_eapd_speaker` 1, `gpio_mask` and `gpio_dir` 1. When the
identity matches an entry, the application comes to an end with `fixup_id` equal to the
id of that entry, which is not the default. -/
theorem cs4208_fixup_mac_default (depth : Nat) (codec : hda_codec)
    (hl : codec.fixup_list = cs4208_fixups) :
    (quirk_lookup cs4208_mac_fixup_tbl codec.subsystem_vendor codec.subsystem_device = none →
      (snd_hda_pick_fixup { codec with fixup_id := HDA_FIXUP_ID_NOT_SET } []
          cs4208_mac_fixup_tbl cs4208_fixups).fixup_id = HDA_FIXUP_ID_NOT_SET ∧
      ∃ r, cs4208_fixup_mac (snd_hda_apply_fixup (depth + 1)) codec HDA_FIXUP_ACT_PRE_PROBE
          = some r ∧
        r.1.fixup_id = (CS4208_GPIO0 : Int) ∧
        r.1 = cs4208_fixup_gpio0 { codec with fixup_id := (CS4208_GPIO0 : Int) }
          HDA_FIXUP_ACT_PRE_PROBE ∧
        r.1.spec.gpio_eapd_hp = 0 ∧ r.1.spec.gpio_eapd_speaker = 1 ∧
        r.1.spec.gpio_mask = 1 ∧ r.1.spec.gpio_dir = 1) ∧
    (∀ q, quirk_lookup cs4208_mac_fixup_tbl codec.subsystem_vendor codec.subsystem_device
        = some q →
      q ∈ quirk_entries cs4208_mac_fixup_tbl ∧
      q.value ≠ CS4208_GPIO0 ∧
      ∃ r, cs4208_fixup_mac (snd_hda_apply_fixup (depth + 1)) codec HDA_FIXUP_ACT_PRE_PROBE
          = some r ∧
        r.1.fixup_id = (q.value : Int)) := by
  refine ⟨?_, ?_⟩
  · intro hnone
    have hp : snd_hda_pick_fixup { codec with fixup_id := HDA_FIXUP_ID_NOT_SET } []
        cs4208_mac_fixup_tbl cs4208_fixups = { codec with fixup_id := HDA_FIXUP_ID_NOT_SET } := by
      rw [snd_hda_pick_fixup_no_models]
      simp only [hnone]
    have ha := (snd_hda_apply_fixup_cs4208_pre_probe depth
      { codec with fixup_id := (CS4208_GPIO0 : Int) } hl).1 rfl
    have hres : cs4208_fixup_mac (snd_hda_apply_fixup (depth + 1)) codec
        HDA_FIXUP_ACT_PRE_PROBE
        = some (cs4208_fixup_gpio0 { codec with fixup_id := (CS4208_GPIO0 : Int) }
            HDA_FIXUP_ACT_PRE_PROBE,
          [hda_event.pick_fixup fixup_family.cs4208_mac,
           hda_event.apply_fixup HDA_FIXUP_ACT_PRE_PROBE] ++ []) := by
      unfold cs4208_fixup_mac
      simp only [ne_eq, not_true_eq_false, if_false, hp, if_true, ha]
    exact ⟨by rw [hp], _, hres, rfl, rfl, rfl, rfl, by simp [cs4208_fixup_gpio0],
      by simp [cs4208_fixup_gpio0]⟩
  · intro q hq
    have hm := quirk_lookup_mem _ _ _ _ hq
    have hp : snd_hda_pick_fixup { codec with fixup_id := HDA_FIXUP_ID_NOT_SET } []
        cs4208_mac_fixup_tbl cs4208_fixups
        = { codec with fixup_id := (q.value : Int), fixup_list := cs4208_fixups } := by
      rw [snd_hda_pick_fixup_no_models]
      simp only [hq]
    have hv : q.value = CS4208_MBP11 ∨ q.value = CS4208_MACMINI ∨ q.value = CS4208_MBA6 := by
      have hall : ∀ x ∈ quirk_entries cs4208_mac_fixup_tbl,
          x.value = CS4208_MBP11 ∨ x.value = CS4208_MACMINI ∨ x.value = CS4208_MBA6 := by
        decide
      exact hall q hm
    have hnd : q.value ≠ CS4208_GPIO0 := by
      rcases hv with h | h | h <;> rw [h] <;> decide
    have hns : ((q.value : Int) = HDA_FIXUP_ID_NOT_SET) = False := by
      simp only [HDA_FIXUP_ID_NOT_SET, eq_iff_iff, iff_false]
      omega
    have ha := snd_hda_apply_fixup_cs4208_pre_probe depth
      { codec with fixup_id := (q.value : Int), fixup_list := cs4208_fixups } rfl
    refine ⟨hm, hnd, ?_⟩
    rcases hv with h | h | h
    · have hres : cs4208_fixup_mac (snd_hda_apply_fixup (depth + 1)) codec
          HDA_FIXUP_ACT_PRE_PROBE
          = some (cs4208_fixup_gpio0 (cs4208_fixup_spdif_switch
              { codec with fixup_id := (q.value : Int), fixup_list := cs4208_fixups }
              HDA_FIXUP_ACT_PRE_PROBE) HDA_FIXUP_ACT_PRE_PROBE,
            [hda_event.pick_fixup fixup_family.cs4208_mac,
             hda_event.apply_fixup HDA_FIXUP_ACT_PRE_PROBE] ++ []) := by
        unfold cs4208_fixup_mac
        simp only [ne_eq, not_true_eq_false, if_false, hp, hns, ha.2.2.1 (by simp [h])]
      exact ⟨_, hres, rfl⟩
    · have hres : cs4208_fixup_mac (snd_hda_apply_fixup (depth + 1)) codec
          HDA_FIXUP_ACT_PRE_PROBE
          = some (cs4208_fixup_gpio0 (cs4208_fixup_macmini
              { codec with fixup_id := (q.value : Int), fixup_list := cs4208_fixups }
              HDA_FIXUP_ACT_PRE_PROBE) HDA_FIXUP_ACT_PRE_PROBE,
            [hda_event.pick_fixup fixup_family.cs4208_mac,
             hda_event.apply_fixup HDA_FIXUP_ACT_PRE_PROBE] ++ []) := by
        unfold cs4208_fixup_mac
        simp only [ne_eq, not_true_eq_false, if_false, hp, hns, ha.2.2.2 (by simp [h])]
      refine ⟨_, hres, ?_⟩
      show (cs4208_fixup_macmini _ _).fixup_id = _
      simp only [cs4208_fixup_macmini, if_true]
      rw [snd_hda_apply_pincfgs_frame]
    · have hres : cs4208_fixup_mac (snd_hda_apply_fixup (depth + 1)) codec
          HDA_FIXUP_ACT_PRE_PROBE
          = some (cs4208_fixup_gpio0 (snd_hda_apply_pincfgs
              { codec with fixup_id := (q.value : Int), fixup_list := cs4208_fixups }
              mba6_pincfgs) HDA_FIXUP_ACT_PRE_PROBE,
            [hda_event.pick_fixup fixup_family.cs4208_mac,
             hda_event.apply_fixup HDA_FIXUP_ACT_PRE_PROBE] ++ []) := by
        unfold cs4208_fixup_mac
        simp only [ne_eq, not_true_eq_false, if_false, hp, hns, ha.2.1 (by simp [h])]
      refine ⟨_, hres, ?_⟩
      show (snd_hda_apply_pincfgs _ _).fixup_id = _
      rw [snd_hda_apply_pincfgs_frame]

/-- Witness of C15: an Apple CS4208 with the unlisted subsystem device 0x9999 falls back
to `CS4208_GPIO0`, and the MacMini 7,1 (0x6c00) keeps `CS4208_MACMINI`. -/
theorem cs4208_fixup_mac_default_witness :
    (∃ r, cs4208_fixup_mac (snd_hda_apply_fixup 1) (codec_cs4208_mac 0x9999)
        HDA_FIXUP_ACT_PRE_PROBE = some r ∧
      r.1.fixup_id = (CS4208_GPIO0 : Int) ∧
      r.1.spec.gpio_eapd_hp = 0 ∧ r.1.spec.gpio_eapd_speaker = 1 ∧
      r.1.spec.gpio_mask = 1 ∧ r.1.spec.gpio_dir = 1) ∧
    (∃ r, cs4208_fixup_mac (snd_hda_apply_fixup 1) (codec_cs4208_mac 0x6c00)
        HDA_FIXUP_ACT_PRE_PROBE = some r ∧
      r.1.fixup_id = (CS4208_MACMINI : Int)) := by
  have h := cs4208_fixup_mac_default 0 (codec_cs4208_mac 0x9999) rfl
  have h2 := cs4208_fixup_mac_default 0 (codec_cs4208_mac 0x6c00) rfl
  obtain ⟨_, r, hr, h1, _, h3, h4, h5, h6⟩ := h.1 (by decide)
  obtain ⟨_, _, r2, hr2, hid⟩ :=
    h2.2 (SND_PCI_QUIRK 0x106b 0x6c00 CS4208_MACMINI) (by decide)
  exact ⟨⟨r, hr, h1, h3, h4, h5, h6⟩, ⟨r2, hr2, hid⟩⟩

/-! ## Quirk lookup -/

/-- The first match of a list that opens with entries failing the test and continues
with an entry passing it is that entry. -/
theorem find_skip (p : snd_pci_quirk → Bool) (l1 : List snd_pci_quirk) (x : snd_pci_quirk)
    (l2 : List snd_pci_quirk) (h1 : ∀ q ∈ l1, p q = false) (hx : p x = true) :
    (l1 ++ x :: l2).find? p = some x := by
  induction l1 with
  | nil => simp [hx]
  | cons y ys ih =>
    have hy := h1 y (List.mem_cons_self y ys)
    simp only [List.cons_append, List.find?_cons, hy]
    exact ih (fun q hq => h1 q (List.mem_cons_of_mem y hq))

/-- An exact entry of `cs420x_fixup_tbl` matches only the identity it lists, for a
subsystem device of 16 bits. -/
theorem cs420x_exact_matches (vendor device : Nat) (hd : device < 0x10000) :
    ∀ q ∈ quirk_entries cs420x_fixup_tbl, quirk_is_exact q = true →
      quirk_matches q vendor device = true → q.subvendor = vendor ∧ q.subdevice = device := by
  have hmask : ∀ q ∈ quirk_entries cs420x_fixup_tbl, quirk_is_exact q = true →
      q.subdevice_mask = 2 ^ 16 - 1 := by decide
  intro q hq hex hm
  have hm2 := hmask q hq hex
  have hand : device &&& (2 ^ 16 - 1) = device :=
    Nat.and_pow_two_sub_one_of_lt_two_pow (by simpa using hd)
  simp only [quirk_matches, Bool.and_eq_true, beq_iff_eq, Bool.or_eq_true] at hm
  rw [hm2, hand] at hm
  refine ⟨hm.1, ?_⟩
  rcases hm.2 with h | h
  · simp at h
  · exact h

/-- C16. Quirk lookup order: under first-match lookup over `cs420x_fixup_tbl`, every
identity the table lists with an exact entry resolves to that entry, so to its own fixup
id; every other device of vendor 0x106b resolves to the vendor entry, whose fixup id
`CS420X_APPLE` is `CS420X_GPIO_13`; and every identity of another vendor that the table
does not list resolves to no entry. -/
theorem cs420x_first_match_lookup :
    (∀ q ∈ quirk_entries cs420x_fixup_tbl, quirk_is_exact q = true →
      first_match_lookup cs420x_fixup_tbl q.subvendor q.subdevice = some q) ∧
    (∀ device, device < 0x10000 → ¬ exactly_listed cs420x_fixup_tbl 0x106b device →
      first_match_lookup cs420x_fixup_tbl 0x106b device
        = some (SND_PCI_QUIRK_VENDOR 0x106b CS420X_APPLE)) ∧
    CS420X_APPLE = CS420X_GPIO_13 ∧
    (∀ vendor device, device < 0x10000 → vendor ≠ 0x106b →
      ¬ exactly_listed cs420x_fixup_tbl vendor device →
      first_match_lookup cs420x_fixup_tbl vendor device = none) := by
  have hsplit : quirk_entries cs420x_fixup_tbl
      = (quirk_entries cs420x_fixup_tbl).take 10
        ++ SND_PCI_QUIRK_VENDOR 0x106b CS420X_APPLE :: [] := by decide
  have hexact : ∀ q ∈ (quirk_entries cs420x_fixup_tbl).take 10, quirk_is_exact q = true := by
    decide
  refine ⟨by decide, ?_, rfl, ?_⟩
  · intro device hd hnl
    unfold first_match_lookup
    rw [hsplit]
    apply find_skip
    · intro q hq
      have hq2 : q ∈ quirk_entries cs420x_fixup_tbl := List.mem_of_mem_take hq
      have hex := hexact q hq
      cases hmt : quirk_matches q 0x106b device
      · rfl
      · exact absurd ⟨q, hq2, hex, cs420x_exact_matches 0x106b device hd q hq2 hex hmt⟩ hnl
    · simp [quirk_matches, SND_PCI_QUIRK_VENDOR]
  · intro vendor device hd hv hnl
    unfold first_match_lookup
    rw [List.find?_eq_none]
    intro q hq hmt
    rw [hsplit] at hq
    rcases List.mem_append.mp hq with h | h
    · have hq2 : q ∈ quirk_entries cs420x_fixup_tbl := List.mem_of_mem_take h
      have hex := hexact q h
      exact hnl ⟨q, hq2, hex, cs420x_exact_matches vendor device hd q hq2 hex hmt⟩
    · simp only [List.mem_singleton] at h
      rw [h] at hmt
      simp [quirk_matches, SND_PCI_QUIRK_VENDOR] at hmt
      exact hv hmt.symm

/-- Witness of C16: the MacBookPro 10,1 entry (0x106b, 0x2800) resolves to itself and
not to the vendor entry, the unlisted Apple device 0x9999 resolves to the vendor entry,
and the unlisted identity (0x1234, 0x0001) resolves to no entry. -/
theorem cs420x_first_match_lookup_witness :
    first_match_lookup cs420x_fixup_tbl 0x106b 0x2800
      = some (SND_PCI_QUIRK 0x106b 0x2800 CS420X_MBP101) ∧
    first_match_lookup cs420x_fixup_tbl 0x106b 0x9999
      = some (SND_PCI_QUIRK_VENDOR 0x106b CS420X_APPLE) ∧
    first_match_lookup cs420x_fixup_tbl 0x1234 0x0001 = none :=
  ⟨cs420x_first_match_lookup.1 (SND_PCI_QUIRK 0x106b 0x2800 CS420X_MBP101)
      (by decide) (by decide),
    cs420x_first_match_lookup.2.1 0x9999 (by decide) (by
      rintro ⟨q, hq, _, _, hd⟩
      revert q
      decide),
    cs420x_first_match_lookup.2.2.2 0x1234 0x0001 (by decide) (by decide) (by
      rintro ⟨q, hq, _, hv, _⟩
      revert q
      decide)⟩

/-! ## Fixup idempotence -/

/-- Applying a pin table a second time changes nothing: the table overwrites. -/
theorem cs4208_fixup_macmini_twice (codec : hda_codec) (action : hda_fixup_action) :
    cs4208_fixup_macmini (cs4208_fixup_macmini codec action) action
      = cs4208_fixup_macmini codec action := by
  unfold cs4208_fixup_macmini
  split
  · simp only [snd_hda_apply_pincfgs, cs4208_fixup_macmini_pincfgs,
      snd_hda_codec_set_pincfg]
    simp only [show ((0x18 : Nat) = 0) = False from by decide,
      show ((0x21 : Nat) = 0) = False from by decide, if_false, if_true]
    congr 1
    funext n
    by_cases h1 : n = 0x21
    · simp [h1]
    · by_cases h2 : n = 0x18
      · simp [h2]
      · simp [h1, h2]
  · rfl

/-- C17 (counterexample). On a CS4208 device with a digital output pin and the control
"IEC958 Playback Switch" carrying the generic setter, `cs4208_fixup_spdif_switch`
applied twice at BUILD leaves another saved setter than applied once: the second
application saves `cs4208_spdif_sw_put` itself. -/
theorem fixup_idempotence_counterexample :
    (cs4208_fixup_spdif_switch codec_cs4208_spdif HDA_FIXUP_ACT_BUILD).spec.spdif_sw_put
      = some kctl_put.generic_put ∧
    (cs4208_fixup_spdif_switch
        (cs4208_fixup_spdif_switch codec_cs4208_spdif HDA_FIXUP_ACT_BUILD)
        HDA_FIXUP_ACT_BUILD).spec.spdif_sw_put = some kctl_put.cs4208_spdif_sw_put ∧
    cs4208_fixup_spdif_switch
        (cs4208_fixup_spdif_switch codec_cs4208_spdif HDA_FIXUP_ACT_BUILD)
        HDA_FIXUP_ACT_BUILD
      ≠ cs4208_fixup_spdif_switch codec_cs4208_spdif HDA_FIXUP_ACT_BUILD := by
  refine ⟨by decide, by decide, ?_⟩
  intro h
  have h2 := congrArg (fun c => c.spec.spdif_sw_put) h
  revert h2
  decide

/-- C17 (amended). Every fixup callback of the file other than
`cs4208_fixup_spdif_switch` leaves, applied twice in succession at any lifecycle point,
the device state of one application. `cs4208_fixup_spdif_switch` does so at every point
other than BUILD, and at BUILD when there is no first digital output pin, when the
control "IEC958 Playback Switch" does not exist, or when its setter is already
`cs4208_spdif_sw_put`. At BUILD with the pin and the control present, one application
saves the setter of the control and installs `cs4208_spdif_sw_put`; the second keeps the
installed setter and every other field, and overwrites the saved setter with
`cs4208_spdif_sw_put`. -/
theorem fixup_callbacks_idempotent (codec : hda_codec) (action : hda_fixup_action) :
    cs420x_fixup_gpio_13 (cs420x_fixup_gpio_13 codec action) action
      = cs420x_fixup_gpio_13 codec action ∧
    cs420x_fixup_gpio_23 (cs420x_fixup_gpio_23 codec action) action
      = cs420x_fixup_gpio_23 codec action ∧
    cs4208_fixup_gpio0 (cs4208_fixup_gpio0 codec action) action
      = cs4208_fixup_gpio0 codec action ∧
    cs4208_fixup_macmini (cs4208_fixup_macmini codec action) action
      = cs4208_fixup_macmini codec action ∧
    cs421x_fixup_sense_b (cs421x_fixup_sense_b codec action) action
      = cs421x_fixup_sense_b codec action ∧
    cs_8409_fixup_gpio (cs_8409_fixup_gpio codec action) action
      = cs_8409_fixup_gpio codec action ∧
    ((action ≠ HDA_FIXUP_ACT_BUILD ∨ array_get codec.spec.gen.autocfg.dig_out_pins 0 = 0 ∨
        codec.iec958_playback_switch = none ∨
        codec.iec958_playback_switch = some kctl_put.cs4208_spdif_sw_put) →
      cs4208_fixup_spdif_switch (cs4208_fixup_spdif_switch codec action) action
        = cs4208_fixup_spdif_switch codec action) ∧
    (action = HDA_FIXUP_ACT_BUILD → array_get codec.spec.gen.autocfg.dig_out_pins 0 ≠ 0 →
      ∀ put, codec.iec958_playback_switch = some put →
        cs4208_fixup_spdif_switch codec action
          = { codec with
              spec := { codec.spec with spdif_sw_put := some put },
              iec958_playback_switch := some kctl_put.cs4208_spdif_sw_put } ∧
        cs4208_fixup_spdif_switch (cs4208_fixup_spdif_switch codec action) action
          = { codec with
              spec := { codec.spec with spdif_sw_put := some kctl_put.cs4208_spdif_sw_put },
              iec958_playback_switch := some kctl_put.cs4208_spdif_sw_put }) := by
  refine ⟨?_, ?_, ?_, cs4208_fixup_macmini_twice codec action, ?_, ?_, ?_, ?_⟩
  · cases action <;> rfl
  · cases action <;> rfl
  · cases action <;> rfl
  · cases action <;> rfl
  · cases action <;> rfl
  · intro h
    by_cases ha : action = HDA_FIXUP_ACT_BUILD
    · subst ha
      by_cases hp : array_get codec.spec.gen.autocfg.dig_out_pins 0 = 0
      · simp [cs4208_fixup_spdif_switch, hp]
      · rcases h with h | h | h | h
        · exact absurd rfl h
        · exact absurd h hp
        · simp [cs4208_fixup_spdif_switch, hp, h]
        · simp [cs4208_fixup_spdif_switch, hp, h]
    · simp [cs4208_fixup_spdif_switch, ha]
  · intro ha hp put hput
    subst ha
    constructor
    · simp [cs4208_fixup_spdif_switch, hp, hput]
    · simp [cs4208_fixup_spdif_switch, hp, hput]

/-- Witness of C17 (amended): on the CS4208 device with the pin 0x21 and the generic
setter, the second application at BUILD saves `cs4208_spdif_sw_put`, and at INIT the
callback applied twice is the callback applied once. -/
theorem fixup_callbacks_idempotent_witness :
    (cs4208_fixup_spdif_switch
        (cs4208_fixup_spdif_switch codec_cs4208_spdif HDA_FIXUP_ACT_BUILD)
        HDA_FIXUP_ACT_BUILD
      = { codec_cs4208_spdif with
          spec := { codec_cs4208_spdif.spec with
            spdif_sw_put := some kctl_put.cs4208_spdif_sw_put },
          iec958_playback_switch := some kctl_put.cs4208_spdif_sw_put }) ∧
    cs4208_fixup_spdif_switch
        (cs4208_fixup_spdif_switch codec_cs4208_spdif HDA_FIXUP_ACT_INIT) HDA_FIXUP_ACT_INIT
      = cs4208_fixup_spdif_switch codec_cs4208_spdif HDA_FIXUP_ACT_INIT :=
  ⟨((fixup_callbacks_idempotent codec_cs4208_spdif HDA_FIXUP_ACT_BUILD).2.2.2.2.2.2.2
      rfl (by decide) kctl_put.generic_put rfl).2,
    (fixup_callbacks_idempotent codec_cs4208_spdif HDA_FIXUP_ACT_INIT).2.2.2.2.2.2.1
      (Or.inl (by decide))⟩

/-! ## Suspend -/

/-- The suspend handler does not touch the driver state. -/
theorem cs421x_suspend_spec (k : hda_consts) (codec : hda_codec) :
    (cs421x_suspend k codec).2.1.spec = codec.spec := by
  unfold cs421x_suspend
  simp only []
  split
  · rw [(cs_vendor_coef_set_frame _ _ _).1, (cs_vendor_coef_get_frame _ _).1,
      (snd_hda_codec_write_frame _ _ _ _).1, (snd_hda_codec_write_frame _ _ _ _).1]
  · rw [(snd_hda_codec_write_frame _ _ _ _).1, (snd_hda_codec_write_frame _ _ _ _).1]

/-- The trace of the suspend handler and the device-configuration coefficient it leaves
on a CS4210 device. -/
theorem cs421x_suspend_cs4210 (k : hda_consts) (codec : hda_codec)
    (hv : codec.spec.vendor_nid = CS4210_VENDOR_NID) :
    (cs421x_suspend k codec).2.2
      = [hda_event.shutup_pins,
         hda_event.codec_write CS4210_DAC_NID AC_VERB_SET_POWER_STATE k.AC_PWRST_D3,
         hda_event.codec_write CS4210_ADC_NID AC_VERB_SET_POWER_STATE k.AC_PWRST_D3,
         hda_event.codec_write CS4210_VENDOR_NID AC_VERB_SET_COEF_INDEX CS421X_IDX_DEV_CFG,
         hda_event.codec_read CS4210_VENDOR_NID AC_VERB_GET_PROC_COEF 0,
         hda_event.codec_write CS4210_VENDOR_NID AC_VERB_SET_COEF_INDEX CS421X_IDX_DEV_CFG,
         hda_event.codec_write CS4210_VENDOR_NID AC_VERB_SET_PROC_COEF
           ((codec.proc_coef CS4210_VENDOR_NID CS421X_IDX_DEV_CFG &&& U32_MAX) ||| 0x0004)] ∧
    (cs421x_suspend k codec).2.1.proc_coef CS4210_VENDOR_NID CS421X_IDX_DEV_CFG
      = (codec.proc_coef CS4210_VENDOR_NID CS421X_IDX_DEV_CFG &&& U32_MAX) ||| 0x0004 := by
  constructor
  · simp [cs421x_suspend, snd_hda_codec_write, cs_vendor_coef_get, cs_vendor_coef_set,
      snd_hda_codec_read, hv]
  · simp [cs421x_suspend, snd_hda_codec_write, cs_vendor_coef_get, cs_vendor_coef_set,
      snd_hda_codec_read, hv]

/-- The trace of the suspend handler on a device whose vendor widget is not the one of
the CS4210, and the registers it leaves. -/
theorem cs421x_suspend_other (k : hda_consts) (codec : hda_codec)
    (hv : codec.spec.vendor_nid ≠ CS4210_VENDOR_NID) :
    (cs421x_suspend k codec).2.2
      = [hda_event.shutup_pins,
         hda_event.codec_write CS4210_DAC_NID AC_VERB_SET_POWER_STATE k.AC_PWRST_D3,
         hda_event.codec_write CS4210_ADC_NID AC_VERB_SET_POWER_STATE k.AC_PWRST_D3] ∧
    (cs421x_suspend k codec).2.1 = codec := by
  constructor
  · simp [cs421x_suspend, snd_hda_codec_write, hv]
  · simp [cs421x_suspend, snd_hda_codec_write, hv]

/-- Two runs of `cs_automute` on devices with the same driver state compute the same
driver state and record the same calls. -/
theorem cs_automute_spec_congr (a b : hda_codec) (h : a.spec = b.spec) :
    (cs_automute a).1.spec = (cs_automute b).1.spec ∧ (cs_automute a).2 = (cs_automute b).2 := by
  have hs : (cs_automute a).1.spec = (cs_automute b).1.spec := by
    rw [cs_automute_codec a, cs_automute_codec b]
    simp only [h]
  refine ⟨hs, ?_⟩
  rw [cs_automute_events a, cs_automute_events b, hs, h]

/-- C18 (counterexample). On a CS4210 device whose master mute is off, the master mute
still reads false after `cs421x_suspend` returned. -/
theorem cs421x_suspend_mute_counterexample :
    codec_cs4210_dev_cfg.spec.gen.master_mute = false ∧
    (cs421x_suspend hda_consts_std codec_cs4210_dev_cfg).2.1.spec.gen.master_mute = false ∧
    ¬ (cs421x_suspend hda_consts_std codec_cs4210_dev_cfg).2.1.spec.gen.master_mute = true := by
  have h := cs421x_suspend_spec hda_consts_std codec_cs4210_dev_cfg
  rw [h]
  decide

/-- C18 (amended). For every device state `cs421x_suspend` returns 0 and leaves the
master mute flag, with the whole driver state, as it was; it silences the outputs on the
device instead: the calls it records start with `snd_hda_shutup_pins`, followed by the
writes that set the DAC (0x02) and the ADC (0x03) to power state D3, and every later
call is a coefficient access. -/
theorem cs421x_suspend_silences_outputs (k : hda_consts) (codec : hda_codec) :
    (cs421x_suspend k codec).1 = 0 ∧
    (cs421x_suspend k codec).2.1.spec.gen.master_mute = codec.spec.gen.master_mute ∧
    (cs421x_suspend k codec).2.1.spec = codec.spec ∧
    ∃ rest,
      (cs421x_suspend k codec).2.2
        = [hda_event.shutup_pins,
           hda_event.codec_write 0x02 AC_VERB_SET_POWER_STATE k.AC_PWRST_D3,
           hda_event.codec_write 0x03 AC_VERB_SET_POWER_STATE k.AC_PWRST_D3] ++ rest ∧
      rest.filter (fun e => !is_coef_access e) = [] := by
  have hs := cs421x_suspend_spec k codec
  refine ⟨?_, by rw [hs], hs, ?_⟩
  · unfold cs421x_suspend
    simp only []
    split <;> rfl
  · by_cases hv : codec.spec.vendor_nid = CS4210_VENDOR_NID
    · refine ⟨_, (cs421x_suspend_cs4210 k codec hv).1, ?_⟩
      simp [is_coef_access]
    · exact ⟨[], (cs421x_suspend_other k codec hv).1, rfl⟩

/-- C19. Resume restores routing: `cs421x_suspend` leaves `spdif_present`, `sense_b`,
the automute policy, the headphone presence and the `gpio_eapd_hp` and
`gpio_eapd_speaker` assignments unchanged, so `cs_automute` run on the state the suspend
left computes the `master_mute` and the `gpio_data` (and records the calls) of
`cs_automute` run on the state before the suspend; in sequence, `cs_automute`, suspend,
`cs_automute` ends with the `master_mute` and `gpio_data` the first run computed. -/
theorem cs421x_suspend_resume_routing (k : hda_consts) (codec : hda_codec) :
    (cs421x_suspend k codec).2.1.spec.spdif_present = codec.spec.spdif_present ∧
    (cs421x_suspend k codec).2.1.spec.sense_b = codec.spec.sense_b ∧
    (cs421x_suspend k codec).2.1.spec.gen.automute_speaker = codec.spec.gen.automute_speaker ∧
    (cs421x_suspend k codec).2.1.spec.gen.hp_jack_present = codec.spec.gen.hp_jack_present ∧
    (cs421x_suspend k codec).2.1.spec.gpio_eapd_hp = codec.spec.gpio_eapd_hp ∧
    (cs421x_suspend k codec).2.1.spec.gpio_eapd_speaker = codec.spec.gpio_eapd_speaker ∧
    (cs_automute (cs421x_suspend k codec).2.1).1.spec.gen.master_mute
      = (cs_automute codec).1.spec.gen.master_mute ∧
    (cs_automute (cs421x_suspend k codec).2.1).1.spec.gpio_data
      = (cs_automute codec).1.spec.gpio_data ∧
    (cs_automute (cs421x_suspend k codec).2.1).2 = (cs_automute codec).2 ∧
    (cs_automute (cs421x_suspend k (cs_automute codec).1).2.1).1.spec.gen.master_mute
      = (cs_automute codec).1.spec.gen.master_mute ∧
    (cs_automute (cs421x_suspend k (cs_automute codec).1).2.1).1.spec.gpio_data
      = (cs_automute codec).1.spec.gpio_data := by
  have hs := cs421x_suspend_spec k codec
  have hc := cs_automute_spec_congr _ _ hs
  have hs2 := cs421x_suspend_spec k (cs_automute codec).1
  have hc2 := (cs_automute_spec_congr _ _ hs2).1
  rw [cs_automute_twice_codec] at hc2
  refine ⟨by rw [hs], by rw [hs], by rw [hs], by rw [hs], by rw [hs], by rw [hs],
    by rw [hc.1], by rw [hc.1], hc.2, by rw [hc2], by rw [hc2]⟩

/-- C20. Suspend sets PDREF: on a CS4210 device (vendor widget 0x0B) `cs421x_suspend`
records, after `snd_hda_shutup_pins`, the writes that set the DAC (0x02) and the ADC
(0x03) to power state D3, then the read of the device-configuration coefficient (index
0x01) and the write of that value with bit 0x0004 set; the register then holds it, bit 2
reads set and every other bit of the 32-bit value reads as before. On a CS4213 device
(vendor widget 0x09) it records no coefficient read or write and leaves the registers as
they are. -/
theorem cs421x_suspend_pdref (k : hda_consts) (codec : hda_codec) :
    (codec.spec.vendor_nid = 0x0B →
      (cs421x_suspend k codec).2.2
        = [hda_event.shutup_pins,
           hda_event.codec_write 0x02 AC_VERB_SET_POWER_STATE k.AC_PWRST_D3,
           hda_event.codec_write 0x03 AC_VERB_SET_POWER_STATE k.AC_PWRST_D3,
           hda_event.codec_write 0x0B AC_VERB_SET_COEF_INDEX 0x01,
           hda_event.codec_read 0x0B AC_VERB_GET_PROC_COEF 0,
           hda_event.codec_write 0x0B AC_VERB_SET_COEF_INDEX 0x01,
           hda_event.codec_write 0x0B AC_VERB_SET_PROC_COEF
             ((codec.proc_coef 0x0B 0x01 &&& U32_MAX) ||| 0x0004)] ∧
      (cs421x_suspend k codec).2.1.proc_coef 0x0B 0x01
        = (codec.proc_coef 0x0B 0x01 &&& U32_MAX) ||| 0x0004 ∧
      ((cs421x_suspend k codec).2.1.proc_coef 0x0B 0x01).testBit 2 = true ∧
      (∀ i, i < 32 → i ≠ 2 →
        ((cs421x_suspend k codec).2.1.proc_coef 0x0B 0x01).testBit i
          = (codec.proc_coef 0x0B 0x01).testBit i) ∧
      (codec.proc_coef 0x0B 0x01 < 2 ^ 32 →
        (cs421x_suspend k codec).2.1.proc_coef 0x0B 0x01
          = codec.proc_coef 0x0B 0x01 ||| 0x0004)) ∧
    (codec.spec.vendor_nid = 0x09 →
      (cs421x_suspend k codec).2.2.filter is_coef_access = [] ∧
      (cs421x_suspend k codec).2.2
        = [hda_event.shutup_pins,
           hda_event.codec_write 0x02 AC_VERB_SET_POWER_STATE k.AC_PWRST_D3,
           hda_event.codec_write 0x03 AC_VERB_SET_POWER_STATE k.AC_PWRST_D3] ∧
      (cs421x_suspend k codec).2.1 = codec) := by
  have h4 : ∀ i, (4 : Nat).testBit i = decide (2 = i) := fun i =>
    Nat.testBit_two_pow (n := 2) (m := i)
  have hm : ∀ i, U32_MAX.testBit i = decide (i < 32) := fun i =>
    Nat.testBit_two_pow_sub_one 32 i
  constructor
  · intro hv
    have h := cs421x_suspend_cs4210 k codec hv
    have hreg : (cs421x_suspend k codec).2.1.proc_coef 0x0B 0x01
        = (codec.proc_coef 0x0B 0x01 &&& U32_MAX) ||| 0x0004 := h.2
    refine ⟨h.1, hreg, ?_, ?_, ?_⟩
    · rw [hreg, Nat.testBit_or, h4]
      simp
    · intro i hi hne
      rw [hreg, Nat.testBit_or, Nat.testBit_and, h4, hm]
      have h2 : decide (2 = i) = false := by
        simp only [decide_eq_false_iff_not]
        exact fun h => hne h.symm
      simp [h2, hi]
    · intro hlt
      rw [hreg]
      have hU : U32_MAX = 2 ^ 32 - 1 := by decide
      rw [hU, Nat.and_pow_two_sub_one_of_lt_two_pow hlt]
  · intro hv
    have hne : codec.spec.vendor_nid ≠ CS4210_VENDOR_NID := by
      rw [hv]
      decide
    have h := cs421x_suspend_other k codec hne
    refine ⟨?_, h.1, h.2⟩
    rw [h.1]
    rfl

/-- Witness of C20: on the CS4210 device whose device-configuration coefficient holds
0x0003 the suspend writes 0x0007, and on the CS4213 device it records no coefficient
access. -/
theorem cs421x_suspend_pdref_witness :
    (cs421x_suspend hda_consts_std codec_cs4210_dev_cfg).2.1.proc_coef 0x0B 0x01 = 0x0007 ∧
    (cs421x_suspend hda_consts_std codec_cs4213).2.2.filter is_coef_access = [] :=
  ⟨((cs421x_suspend_pdref hda_consts_std codec_cs4210_dev_cfg).1 rfl).2.1,
    ((cs421x_suspend_pdref hda_consts_std codec_cs4213).2 rfl).1⟩

/-! ## Speaker boost control -/

/-- Bit `i` of the mask of 32 bits. -/
theorem U32_MAX_testBit (i : Nat) : U32_MAX.testBit i = decide (i < 32) :=
  Nat.testBit_two_pow_sub_one 32 i

/-- Bit `i` of the constant 3. -/
theorem three_testBit (i : Nat) : (3 : Nat).testBit i = decide (i < 2) :=
  Nat.testBit_two_pow_sub_one 2 i

/-- Bits of a 32-bit word whose two low bits are replaced by those of `vol`. -/
theorem boost_merge_testBit (old vol i : Nat) :
    (((old &&& U32_MAX) &&& (U32_MAX ^^^ 0x0003)) ||| (vol &&& 0x0003)).testBit i
      = if i < 2 then vol.testBit i else (old.testBit i && decide (i < 32)) := by
  simp only [Nat.testBit_or, Nat.testBit_and, Nat.testBit_xor, U32_MAX_testBit, three_testBit]
  by_cases h2 : i < 2
  · have h32 : i < 32 := by omega
    simp [h2, h32]
  · by_cases h32 : i < 32
    · simp [h2, h32]
    · simp [h2, h32]

/-- The two low bits of the merged word are those of `vol`. -/
theorem boost_merge_low (old vol : Nat) :
    (((old &&& U32_MAX) &&& (U32_MAX ^^^ 0x0003)) ||| (vol &&& 0x0003)) &&& 0x0003
      = vol &&& 0x0003 := by
  apply Nat.eq_of_testBit_eq
  intro i
  rw [Nat.testBit_and, boost_merge_testBit, Nat.testBit_and, three_testBit]
  by_cases h2 : i < 2
  · simp [h2]
  · simp [h2]

/-- The value `cs421x_boost_vol_get` hands back: the two low bits of the speaker-control
coefficient of the vendor widget. -/
theorem cs421x_boost_vol_get_value (codec : hda_codec) :
    (cs421x_boost_vol_get codec).1 = 0 ∧
    (cs421x_boost_vol_get codec).2.1
      = ((codec.proc_coef codec.spec.vendor_nid CS421X_IDX_SPK_CTL &&& 0x0003 : Nat) : Int) := by
  simp [cs421x_boost_vol_get, cs_vendor_coef_get, snd_hda_codec_write, snd_hda_codec_read]

/-- What `cs421x_boost_vol_put` returns, records and leaves in the speaker-control
coefficient, by the comparison it makes. -/
theorem cs421x_boost_vol_put_spec (codec : hda_codec) (value : Int) :
    (cs421x_boost_vol_put codec value).2.1.spec = codec.spec ∧
    ((codec.proc_coef codec.spec.vendor_nid CS421X_IDX_SPK_CTL &&& U32_MAX
        = ((codec.proc_coef codec.spec.vendor_nid CS421X_IDX_SPK_CTL &&& U32_MAX)
            &&& (U32_MAX ^^^ 0x0003)) ||| ((value % 2 ^ 32).toNat &&& 0x0003)) →
      (cs421x_boost_vol_put codec value).1 = 0 ∧
      (cs421x_boost_vol_put codec value).2.2
        = [hda_event.codec_write codec.spec.vendor_nid AC_VERB_SET_COEF_INDEX CS421X_IDX_SPK_CTL,
           hda_event.codec_read codec.spec.vendor_nid AC_VERB_GET_PROC_COEF 0] ∧
      (cs421x_boost_vol_put codec value).2.1.proc_coef codec.spec.vendor_nid CS421X_IDX_SPK_CTL
        = codec.proc_coef codec.spec.vendor_nid CS421X_IDX_SPK_CTL) ∧
    ((codec.proc_coef codec.spec.vendor_nid CS421X_IDX_SPK_CTL &&& U32_MAX
        ≠ ((codec.proc_coef codec.spec.vendor_nid CS421X_IDX_SPK_CTL &&& U32_MAX)
            &&& (U32_MAX ^^^ 0x0003)) ||| ((value % 2 ^ 32).toNat &&& 0x0003)) →
      (cs421x_boost_vol_put codec value).1 = 1 ∧
      (cs421x_boost_vol_put codec value).2.2
        = [hda_event.codec_write codec.spec.vendor_nid AC_VERB_SET_COEF_INDEX CS421X_IDX_SPK_CTL,
           hda_event.codec_read codec.spec.vendor_nid AC_VERB_GET_PROC_COEF 0,
           hda_event.codec_write codec.spec.vendor_nid AC_VERB_SET_COEF_INDEX CS421X_IDX_SPK_CTL,
           hda_event.codec_write codec.spec.vendor_nid AC_VERB_SET_PROC_COEF
             (((codec.proc_coef codec.spec.vendor_nid CS421X_IDX_SPK_CTL &&& U32_MAX)
                &&& (U32_MAX ^^^ 0x0003)) ||| ((value % 2 ^ 32).toNat &&& 0x0003))] ∧
      (cs421x_boost_vol_put codec value).2.1.proc_coef codec.spec.vendor_nid CS421X_IDX_SPK_CTL
        = ((codec.proc_coef codec.spec.vendor_nid CS421X_IDX_SPK_CTL &&& U32_MAX)
            &&& (U32_MAX ^^^ 0x0003)) ||| ((value % 2 ^ 32).toNat &&& 0x0003)) := by
  refine ⟨?_, ?_, ?_⟩
  · unfold cs421x_boost_vol_put
    simp only []
    split
    · exact (cs_vendor_coef_get_frame _ _).1
    · rw [(cs_vendor_coef_set_frame _ _ _).1, (cs_vendor_coef_get_frame _ _).1]
  · intro h
    have hg : (cs_vendor_coef_get codec CS421X_IDX_SPK_CTL).1
        = codec.proc_coef codec.spec.vendor_nid CS421X_IDX_SPK_CTL := by
      simp [cs_vendor_coef_get, snd_hda_codec_write, snd_hda_codec_read]
    unfold cs421x_boost_vol_put
    simp only []
    generalize (value % 2 ^ 32).toNat = vol at h ⊢
    rw [hg, if_pos h]
    simp [cs_vendor_coef_get, snd_hda_codec_write, snd_hda_codec_read]
  · intro h
    have hg : (cs_vendor_coef_get codec CS421X_IDX_SPK_CTL).1
        = codec.proc_coef codec.spec.vendor_nid CS421X_IDX_SPK_CTL := by
      simp [cs_vendor_coef_get, snd_hda_codec_write, snd_hda_codec_read]
    unfold cs421x_boost_vol_put
    simp only []
    generalize (value % 2 ^ 32).toNat = vol at h ⊢
    rw [hg, if_neg h]
    simp [cs_vendor_coef_get, cs_vendor_coef_set, snd_hda_codec_write, snd_hda_codec_read]

/-- Masking a word to 32 bits keeps its two low bits. -/
theorem and_U32_MAX_low (x : Nat) : (x &&& U32_MAX) &&& 0x0003 = x &&& 0x0003 := by
  apply Nat.eq_of_testBit_eq
  intro i
  simp only [Nat.testBit_and, U32_MAX_testBit, three_testBit]
  by_cases h2 : i < 2
  · have h32 : i < 32 := by omega
    simp [h2, h32]
  · simp [h2]

/-- A word of 32 bits is left as it is by the mask of 32 bits. -/
theorem and_U32_MAX_of_lt (x : Nat) (h : x < 2 ^ 32) : x &&& U32_MAX = x := by
  have hU : U32_MAX = 2 ^ 32 - 1 := by decide
  rw [hU, Nat.and_pow_two_sub_one_of_lt_two_pow h]

/-- C21. Speaker boost round trip: over the register model in which a coefficient read
returns the value last written, for every value `v` in 0..3 and every prior value of the
speaker-control coefficient (index 0x04 of the vendor widget), `cs421x_boost_vol_put`
with `v` followed by `cs421x_boost_vol_get` returns `v`; and the value
`cs421x_boost_vol_get` returns always lies in the range `cs421x_boost_vol_info` reports,
minimum 0 and maximum 3. -/
theorem cs421x_boost_vol_round_trip (codec : hda_codec) :
    (∀ v : Int, 0 ≤ v → v ≤ 3 →
      (cs421x_boost_vol_get (cs421x_boost_vol_put codec v).2.1).1 = 0 ∧
      (cs421x_boost_vol_get (cs421x_boost_vol_put codec v).2.1).2.1 = v) ∧
    cs421x_boost_vol_info.2.min = 0 ∧
    cs421x_boost_vol_info.2.max = 3 ∧
    cs421x_boost_vol_info.2.min ≤ (cs421x_boost_vol_get codec).2.1 ∧
    (cs421x_boost_vol_get codec).2.1 ≤ cs421x_boost_vol_info.2.max := by
  refine ⟨?_, rfl, rfl, ?_, ?_⟩
  · intro v h0 h3
    have hv : (((v % 2 ^ 32).toNat &&& 0x0003 : Nat) : Int) = v := by
      interval_cases v <;> rfl
    have hp := cs421x_boost_vol_put_spec codec v
    have hg := cs421x_boost_vol_get_value (cs421x_boost_vol_put codec v).2.1
    refine ⟨hg.1, ?_⟩
    rw [hg.2, hp.1]
    by_cases h : codec.proc_coef codec.spec.vendor_nid CS421X_IDX_SPK_CTL &&& U32_MAX
        = ((codec.proc_coef codec.spec.vendor_nid CS421X_IDX_SPK_CTL &&& U32_MAX)
            &&& (U32_MAX ^^^ 0x0003)) ||| ((v % 2 ^ 32).toNat &&& 0x0003)
    · rw [(hp.2.1 h).2.2, ← and_U32_MAX_low, h, boost_merge_low]
      exact hv
    · rw [(hp.2.2 h).2.2, boost_merge_low]
      exact hv
  · rw [(cs421x_boost_vol_get_value codec).2]
    exact Int.natCast_nonneg _
  · rw [(cs421x_boost_vol_get_value codec).2]
    have h : codec.proc_coef codec.spec.vendor_nid CS421X_IDX_SPK_CTL &&& 0x0003 < 2 ^ 2 :=
      Nat.and_lt_two_pow _ (by decide)
    have h2 : codec.proc_coef codec.spec.vendor_nid CS421X_IDX_SPK_CTL &&& 0x0003 ≤ 3 := by
      omega
    exact Int.ofNat_le.mpr h2

/-- Witness of C21: on the CS4210 device whose speaker-control coefficient holds 0x00A1,
putting 2 and getting returns 2. -/
theorem cs421x_boost_vol_round_trip_witness :
    (cs421x_boost_vol_get (cs421x_boost_vol_put codec_cs4210_spk_ctl 2).2.1).2.1 = 2 :=
  ((cs421x_boost_vol_round_trip codec_cs4210_spk_ctl).1 2 (by decide) (by decide)).2

/-- C28. Speaker boost write: for every 32-bit prior value `old` of the speaker-control
coefficient (index 0x04 of the vendor widget) and every requested value, also outside
0..3, `cs421x_boost_vol_put` leaves the coefficient equal to `old` with its two low bits
replaced by those of the requested value, all higher bits unchanged; when that value
differs from `old` it returns 1 and records exactly one coefficient write, of that
value; when it equals `old` it returns 0 and records no coefficient write. -/
theorem cs421x_boost_vol_put_write (codec : hda_codec) (value : Int)
    (hold : codec.proc_coef codec.spec.vendor_nid CS421X_IDX_SPK_CTL < 2 ^ 32) :
    (cs421x_boost_vol_put codec value).2.1.proc_coef codec.spec.vendor_nid CS421X_IDX_SPK_CTL
      = (codec.proc_coef codec.spec.vendor_nid CS421X_IDX_SPK_CTL &&& (U32_MAX ^^^ 0x0003))
          ||| ((value % 2 ^ 32).toNat &&& 0x0003) ∧
    (∀ i, 2 ≤ i →
      ((cs421x_boost_vol_put codec value).2.1.proc_coef codec.spec.vendor_nid
          CS421X_IDX_SPK_CTL).testBit i
        = (codec.proc_coef codec.spec.vendor_nid CS421X_IDX_SPK_CTL).testBit i) ∧
    (∀ i, i < 2 →
      ((cs421x_boost_vol_put codec value).2.1.proc_coef codec.spec.vendor_nid
          CS421X_IDX_SPK_CTL).testBit i
        = ((value % 2 ^ 32).toNat).testBit i) ∧
    ((codec.proc_coef codec.spec.vendor_nid CS421X_IDX_SPK_CTL &&& (U32_MAX ^^^ 0x0003))
          ||| ((value % 2 ^ 32).toNat &&& 0x0003)
        ≠ codec.proc_coef codec.spec.vendor_nid CS421X_IDX_SPK_CTL →
      (cs421x_boost_vol_put codec value).1 = 1 ∧
      (cs421x_boost_vol_put codec value).2.2.filter is_coef_write
        = [hda_event.codec_write codec.spec.vendor_nid AC_VERB_SET_PROC_COEF
            ((codec.proc_coef codec.spec.vendor_nid CS421X_IDX_SPK_CTL &&& (U32_MAX ^^^ 0x0003))
              ||| ((value % 2 ^ 32).toNat &&& 0x0003))]) ∧
    ((codec.proc_coef codec.spec.vendor_nid CS421X_IDX_SPK_CTL &&& (U32_MAX ^^^ 0x0003))
          ||| ((value % 2 ^ 32).toNat &&& 0x0003)
        = codec.proc_coef codec.spec.vendor_nid CS421X_IDX_SPK_CTL →
      (cs421x_boost_vol_put codec value).1 = 0 ∧
      (cs421x_boost_vol_put codec value).2.2.filter is_coef_write = []) := by
  have hp := cs421x_boost_vol_put_spec codec value
  rw [and_U32_MAX_of_lt _ hold] at hp
  have hreg : (cs421x_boost_vol_put codec value).2.1.proc_coef codec.spec.vendor_nid
        CS421X_IDX_SPK_CTL
      = (codec.proc_coef codec.spec.vendor_nid CS421X_IDX_SPK_CTL &&& (U32_MAX ^^^ 0x0003))
          ||| ((value % 2 ^ 32).toNat &&& 0x0003) := by
    by_cases h : codec.proc_coef codec.spec.vendor_nid CS421X_IDX_SPK_CTL
        = (codec.proc_coef codec.spec.vendor_nid CS421X_IDX_SPK_CTL &&& (U32_MAX ^^^ 0x0003))
            ||| ((value % 2 ^ 32).toNat &&& 0x0003)
    · rw [(hp.2.1 h).2.2]
      exact h
    · exact (hp.2.2 h).2.2
  have hbit := boost_merge_testBit (codec.proc_coef codec.spec.vendor_nid CS421X_IDX_SPK_CTL)
    (value % 2 ^ 32).toNat
  rw [and_U32_MAX_of_lt _ hold] at hbit
  refine ⟨hreg, ?_, ?_, ?_, ?_⟩
  · intro i hi
    rw [hreg, hbit, if_neg (by omega)]
    by_cases h32 : i < 32
    · simp [h32]
    · have hlt : codec.proc_coef codec.spec.vendor_nid CS421X_IDX_SPK_CTL < 2 ^ i :=
        lt_of_lt_of_le hold (Nat.pow_le_pow_right (by decide) (by omega))
      simp [h32, Nat.testBit_lt_two_pow hlt]
  · intro i hi
    rw [hreg, hbit, if_pos hi]
  · intro h
    have h2 := hp.2.2 (fun e => h e.symm)
    refine ⟨h2.1, ?_⟩
    rw [h2.2.1]
    rfl
  · intro h
    have h2 := hp.2.1 h.symm
    refine ⟨h2.1, ?_⟩
    rw [h2.2.1]
    rfl

/-- Witness of C28: on the CS4210 device whose speaker-control coefficient holds 0x00A1,
putting 6 leaves 0x00A2 and returns 1, and putting 5 returns 0 with no coefficient
write. -/
theorem cs421x_boost_vol_put_write_witness :
    (cs421x_boost_vol_put codec_cs4210_spk_ctl 6).2.1.proc_coef 0x0B 0x04 = 0x00A2 ∧
    (cs421x_boost_vol_put codec_cs4210_spk_ctl 6).1 = 1 ∧
    (cs421x_boost_vol_put codec_cs4210_spk_ctl 5).1 = 0 ∧
    (cs421x_boost_vol_put codec_cs4210_spk_ctl 5).2.2.filter is_coef_write = [] :=
  ⟨(cs421x_boost_vol_put_write codec_cs4210_spk_ctl 6 (by decide)).1,
    ((cs421x_boost_vol_put_write codec_cs4210_spk_ctl 6 (by decide)).2.2.2.1 (by decide)).1,
    ((cs421x_boost_vol_put_write codec_cs4210_spk_ctl 5 (by decide)).2.2.2.2 (by decide)).1,
    ((cs421x_boost_vol_put_write codec_cs4210_spk_ctl 5 (by decide)).2.2.2.2 (by decide)).2⟩

/-! ## Pin-mux programming -/

/-- The device-configuration coefficient `cs4210_pinmux_init` leaves: the 32-bit value
read, with bit 0x0008 set or cleared by `gpio_mask` and bit 0x0010 set or cleared by
`sense_b`. -/
theorem cs4210_pinmux_init_coef (k : hda_consts) (codec : hda_codec) :
    (cs4210_pinmux_init k codec).1.proc_coef codec.spec.vendor_nid CS421X_IDX_DEV_CFG
      = (if codec.spec.sense_b then
          (if codec.spec.gpio_mask ≠ 0 then
              (codec.proc_coef codec.spec.vendor_nid CS421X_IDX_DEV_CFG &&& U32_MAX) ||| 0x0008
            else (codec.proc_coef codec.spec.vendor_nid CS421X_IDX_DEV_CFG &&& U32_MAX)
              &&& (U32_MAX ^^^ 0x0008)) ||| 0x0010
        else
          (if codec.spec.gpio_mask ≠ 0 then
              (codec.proc_coef codec.spec.vendor_nid CS421X_IDX_DEV_CFG &&& U32_MAX) ||| 0x0008
            else (codec.proc_coef codec.spec.vendor_nid CS421X_IDX_DEV_CFG &&& U32_MAX)
              &&& (U32_MAX ^^^ 0x0008)) &&& (U32_MAX ^^^ 0x0010)) := by
  unfold cs4210_pinmux_init
  simp only [apply_ite Prod.fst, apply_ite hda_codec.proc_coef]
  simp [snd_hda_codec_set_pincfg, cs_vendor_coef_get, cs_vendor_coef_set, snd_hda_codec_write,
    snd_hda_codec_read]

/-- The pin configurations `cs4210_pinmux_init` leaves: the DMIC pin is rewritten when
GPIO or SENSE_B is forced and the pin is active, and nothing else changes. -/
theorem cs4210_pinmux_init_pincfg (k : hda_consts) (codec : hda_codec) :
    (cs4210_pinmux_init k codec).1.pincfg
      = if ((codec.spec.gpio_mask ≠ 0 || codec.spec.sense_b) &&
            is_active_pin k codec CS421X_DMIC_PIN_NID) = true then
          (fun n => if n = CS421X_DMIC_PIN_NID then
              (codec.pincfg CS421X_DMIC_PIN_NID &&& (U32_MAX ^^^ k.AC_DEFCFG_PORT_CONN))
                ||| (k.AC_JACK_PORT_NONE <<< k.AC_DEFCFG_PORT_CONN_SHIFT)
            else codec.pincfg n)
        else codec.pincfg := by
  unfold cs4210_pinmux_init
  simp only [apply_ite Prod.fst, apply_ite hda_codec.pincfg]
  rfl

/-- Bits of the port-connectivity mask, bits 31:30. -/
theorem port_conn_testBit (i : Nat) :
    (0xC0000000 : Nat).testBit i = (decide (30 = i) || decide (31 = i)) := by
  have h : (0xC0000000 : Nat) = 2 ^ 30 ||| 2 ^ 31 := by decide
  rw [h, Nat.testBit_or, Nat.testBit_two_pow, Nat.testBit_two_pow]

/-- Bits of a pin configuration whose port-connectivity field is rewritten to 1. -/
theorem port_none_testBit (old i : Nat) :
    ((old &&& (U32_MAX ^^^ 0xC0000000)) ||| (1 <<< 30)).testBit i
      = if i = 30 then true else if i = 31 then false else (old.testBit i && decide (i < 32)) := by
  have h1 : (1 : Nat) <<< 30 = 2 ^ 30 := Nat.one_shiftLeft 30
  rw [h1, Nat.testBit_or, Nat.testBit_and, Nat.testBit_xor, U32_MAX_testBit, port_conn_testBit,
    Nat.testBit_two_pow]
  by_cases h30 : i = 30
  · subst h30
    simp
  · by_cases h31 : i = 31
    · subst h31
      simp
    · have e30 : ¬ 30 = i := fun h => h30 h.symm
      have e31 : ¬ 31 = i := fun h => h31 h.symm
      simp [h30, h31, e30, e31]

/-- The port-connectivity field of a pin configuration rewritten to 'no connection'
reads 1. -/
theorem port_none_connect (old : Nat) :
    (((old &&& (U32_MAX ^^^ 0xC0000000)) ||| (1 <<< 30)) &&& 0xC0000000) >>> 30 = 1 := by
  apply Nat.eq_of_testBit_eq
  intro j
  have h1 : (1 : Nat) = 2 ^ 0 := rfl
  rw [Nat.testBit_shiftRight, Nat.testBit_and, port_none_testBit, port_conn_testBit]
  conv => rhs; rw [h1, Nat.testBit_two_pow]
  rcases j with _ | _ | j
  · simp
  · simp
  · have a : ¬ 30 = 30 + (j + 1 + 1) := by omega
    have b : ¬ 31 = 30 + (j + 1 + 1) := by omega
    have c : ¬ 0 = j + 1 + 1 := by omega
    simp [a, b, c]

/-- C24. DMIC disconnect, with the port-connectivity field at bits 31:30 and 'no
connection' equal to 1: when GPIO or SENSE_B is forced (`gpio_mask` non-zero or `sense_b`
set) and the DMIC pin 0x09 is active, `cs4210_pinmux_init` rewrites the default
configuration of that pin with the port-connectivity field set to 1 and every other bit
unchanged, so that `is_active_pin` is false for the pin afterwards, and no other pin
changes; when neither is forced, or the pin is already inactive, the pin configurations
are left untouched. -/
theorem cs4210_pinmux_init_dmic_disconnect (k : hda_consts) (codec : hda_codec)
    (hc : k.AC_DEFCFG_PORT_CONN = 0xC0000000) (hs : k.AC_DEFCFG_PORT_CONN_SHIFT = 30)
    (hn : k.AC_JACK_PORT_NONE = 1) (h32 : codec.pincfg CS421X_DMIC_PIN_NID < 2 ^ 32) :
    ((codec.spec.gpio_mask ≠ 0 ∨ codec.spec.sense_b = true) →
      is_active_pin k codec CS421X_DMIC_PIN_NID = true →
        get_defcfg_connect k ((cs4210_pinmux_init k codec).1.pincfg CS421X_DMIC_PIN_NID) = 1 ∧
        (∀ i, i ≠ 30 → i ≠ 31 →
          ((cs4210_pinmux_init k codec).1.pincfg CS421X_DMIC_PIN_NID).testBit i
            = (codec.pincfg CS421X_DMIC_PIN_NID).testBit i) ∧
        ((cs4210_pinmux_init k codec).1.pincfg CS421X_DMIC_PIN_NID).testBit 30 = true ∧
        ((cs4210_pinmux_init k codec).1.pincfg CS421X_DMIC_PIN_NID).testBit 31 = false ∧
        is_active_pin k (cs4210_pinmux_init k codec).1 CS421X_DMIC_PIN_NID = false ∧
        (∀ n, n ≠ CS421X_DMIC_PIN_NID →
          (cs4210_pinmux_init k codec).1.pincfg n = codec.pincfg n)) ∧
    ((codec.spec.gpio_mask = 0 ∧ codec.spec.sense_b = false) ∨
        is_active_pin k codec CS421X_DMIC_PIN_NID = false →
      (cs4210_pinmux_init k codec).1.pincfg = codec.pincfg) := by
  have hp := cs4210_pinmux_init_pincfg k codec
  constructor
  · intro hf ha
    have hcond : ((codec.spec.gpio_mask ≠ 0 || codec.spec.sense_b) &&
        is_active_pin k codec CS421X_DMIC_PIN_NID) = true := by
      rw [ha, Bool.and_true]
      rcases hf with h | h
      · simp [h]
      · simp [h]
    rw [if_pos hcond] at hp
    have hnew : (cs4210_pinmux_init k codec).1.pincfg CS421X_DMIC_PIN_NID
        = (codec.pincfg CS421X_DMIC_PIN_NID &&& (U32_MAX ^^^ 0xC0000000)) ||| (1 <<< 30) := by
      rw [hp]
      show (if CS421X_DMIC_PIN_NID = CS421X_DMIC_PIN_NID then _ else _) = _
      rw [if_pos rfl, hc, hn, hs]
    have hconn : get_defcfg_connect k
        ((cs4210_pinmux_init k codec).1.pincfg CS421X_DMIC_PIN_NID) = 1 := by
      rw [hnew]
      unfold get_defcfg_connect
      rw [hc, hs]
      exact port_none_connect _
    refine ⟨hconn, ?_, ?_, ?_, ?_, ?_⟩
    · intro i h30 h31
      rw [hnew, port_none_testBit, if_neg h30, if_neg h31]
      by_cases hi : i < 32
      · simp [hi]
      · have hlt : codec.pincfg CS421X_DMIC_PIN_NID < 2 ^ i :=
          lt_of_lt_of_le h32 (Nat.pow_le_pow_right (by decide) (by omega))
        simp [hi, Nat.testBit_lt_two_pow hlt]
    · rw [hnew, port_none_testBit, if_pos rfl]
    · rw [hnew, port_none_testBit, if_neg (by decide), if_pos rfl]
    · unfold is_active_pin snd_hda_codec_get_pincfg
      simp only []
      rw [hconn, hn]
      rfl
    · intro n hne
      rw [hp]
      show (if n = CS421X_DMIC_PIN_NID then _ else _) = _
      rw [if_neg hne]
  · intro h
    have hcond : ¬ ((codec.spec.gpio_mask ≠ 0 || codec.spec.sense_b) &&
        is_active_pin k codec CS421X_DMIC_PIN_NID) = true := by
      rcases h with ⟨hg, hsb⟩ | ha
      · simp [hg, hsb]
      · simp [ha]
    rw [hp, if_neg hcond]

/-- Witness of C24: on the CS4210 device with SENSE_B forced and the fixed-function
microphone on pin 0x09, the pin is active before `cs4210_pinmux_init` and inactive after
it, with the port-connectivity field at 1. -/
theorem cs4210_pinmux_init_dmic_disconnect_witness :
    is_active_pin hda_consts_std codec_cs4210_dmic CS421X_DMIC_PIN_NID = true ∧
    get_defcfg_connect hda_consts_std
      ((cs4210_pinmux_init hda_consts_std codec_cs4210_dmic).1.pincfg CS421X_DMIC_PIN_NID) = 1 ∧
    is_active_pin hda_consts_std (cs4210_pinmux_init hda_consts_std codec_cs4210_dmic).1
      CS421X_DMIC_PIN_NID = false :=
  ⟨by decide,
    ((cs4210_pinmux_init_dmic_disconnect hda_consts_std codec_cs4210_dmic rfl rfl rfl
      (by decide)).1 (Or.inr rfl) (by decide)).1,
    ((cs4210_pinmux_init_dmic_disconnect hda_consts_std codec_cs4210_dmic rfl rfl rfl
      (by decide)).1 (Or.inr rfl) (by decide)).2.2.2.2.1⟩

/-- Bits of the device-configuration coefficient after the pin-mux programming. -/
theorem pinmux_coef_testBit (o : Nat) (p : Prop) [Decidable p] (b : Bool) (i : Nat) :
    (if b then
        (if p then (o &&& U32_MAX) ||| 0x0008 else (o &&& U32_MAX) &&& (U32_MAX ^^^ 0x0008))
          ||| 0x0010
      else
        (if p then (o &&& U32_MAX) ||| 0x0008 else (o &&& U32_MAX) &&& (U32_MAX ^^^ 0x0008))
          &&& (U32_MAX ^^^ 0x0010)).testBit i
      = if i = 3 then decide p else if i = 4 then b else (o.testBit i && decide (i < 32)) := by
  have h8 : ∀ j, (0x0008 : Nat).testBit j = decide (3 = j) := fun j =>
    Nat.testBit_two_pow (n := 3) (m := j)
  have h16 : ∀ j, (0x0010 : Nat).testBit j = decide (4 = j) := fun j =>
    Nat.testBit_two_pow (n := 4) (m := j)
  by_cases h3 : i = 3
  · subst h3
    cases b <;> by_cases hp : p <;>
      simp [hp, Nat.testBit_or, Nat.testBit_and, Nat.testBit_xor, U32_MAX_testBit, h8, h16]
  · by_cases h4 : i = 4
    · subst h4
      cases b <;> by_cases hp : p <;>
        simp [hp, Nat.testBit_or, Nat.testBit_and, Nat.testBit_xor, U32_MAX_testBit, h8, h16]
    · have e3 : ¬ 3 = i := fun h => h3 h.symm
      have e4 : ¬ 4 = i := fun h => h4 h.symm
      by_cases h32 : i < 32 <;> cases b <;> by_cases hp : p <;>
        simp [hp, h3, h4, e3, e4, h32, Nat.testBit_or, Nat.testBit_and, Nat.testBit_xor,
          U32_MAX_testBit, h8, h16]

/-- `is_active_pin` reads the pin configuration only. -/
theorem is_active_pin_congr (k : hda_consts) (a b : hda_codec) (nid : hda_nid_t)
    (h : a.pincfg nid = b.pincfg nid) : is_active_pin k a nid = is_active_pin k b nid := by
  unfold is_active_pin snd_hda_codec_get_pincfg
  simp only [h]

/-- Rewriting a field of a word twice with the same mask and value is rewriting it
once. -/
theorem and_or_and_or (d m x : Nat) : (((d &&& m) ||| x) &&& m) ||| x = (d &&& m) ||| x := by
  apply Nat.eq_of_testBit_eq
  intro i
  simp only [Nat.testBit_or, Nat.testBit_and]
  cases d.testBit i <;> cases m.testBit i <;> cases x.testBit i <;> rfl

/-- A second run of the pin-mux programming leaves the pin configurations of the
first. -/
theorem cs4210_pinmux_init_twice_pincfg (k : hda_consts) (codec : hda_codec) :
    (cs4210_pinmux_init k (cs4210_pinmux_init k codec).1).1.pincfg
      = (cs4210_pinmux_init k codec).1.pincfg := by
  have h1 := cs4210_pinmux_init_pincfg k codec
  have h2 := cs4210_pinmux_init_pincfg k (cs4210_pinmux_init k codec).1
  rw [cs4210_pinmux_init_spec] at h2
  by_cases hc2 : ((codec.spec.gpio_mask ≠ 0 || codec.spec.sense_b) &&
      is_active_pin k (cs4210_pinmux_init k codec).1 CS421X_DMIC_PIN_NID) = true
  · rw [if_pos hc2] at h2
    by_cases hc1 : ((codec.spec.gpio_mask ≠ 0 || codec.spec.sense_b) &&
        is_active_pin k codec CS421X_DMIC_PIN_NID) = true
    · rw [if_pos hc1] at h1
      rw [h2]
      funext n
      by_cases hn : n = CS421X_DMIC_PIN_NID
      · rw [if_pos hn, h1]
        show _ = (if n = CS421X_DMIC_PIN_NID then _ else _)
        rw [if_pos hn]
        show (((if CS421X_DMIC_PIN_NID = CS421X_DMIC_PIN_NID then _ else _)
          &&& _) ||| _) = _
        rw [if_pos rfl]
        exact and_or_and_or _ _ _
      · rw [if_neg hn]
    · rw [if_neg hc1] at h1
      exfalso
      apply hc1
      rw [← hc2, is_active_pin_congr k (cs4210_pinmux_init k codec).1 codec _ (by rw [h1])]
  · rw [if_neg hc2] at h2
    exact h2

/-- A second run of the pin-mux programming leaves the device-configuration coefficient
of the first. -/
theorem cs4210_pinmux_init_twice_coef (k : hda_consts) (codec : hda_codec) :
    (cs4210_pinmux_init k (cs4210_pinmux_init k codec).1).1.proc_coef
        codec.spec.vendor_nid CS421X_IDX_DEV_CFG
      = (cs4210_pinmux_init k codec).1.proc_coef codec.spec.vendor_nid CS421X_IDX_DEV_CFG := by
  have h2 := cs4210_pinmux_init_coef k (cs4210_pinmux_init k codec).1
  rw [cs4210_pinmux_init_spec] at h2
  rw [h2]
  generalize hx : (cs4210_pinmux_init k codec).1.proc_coef codec.spec.vendor_nid
    CS421X_IDX_DEV_CFG = x
  have h1 := cs4210_pinmux_init_coef k codec
  rw [hx] at h1
  apply Nat.eq_of_testBit_eq
  intro i
  rw [pinmux_coef_testBit]
  conv => rhs; rw [h1, pinmux_coef_testBit]
  rw [h1, pinmux_coef_testBit]
  by_cases h3 : i = 3
  · simp [h3]
  · by_cases h4 : i = 4
    · simp [h4]
    · simp [h3, h4]

/-- C29. Pin-mux programming is idempotent: over the register model in which a
coefficient read returns the last value written, `cs4210_pinmux_init` leaves in the
device-configuration coefficient (index 0x01 of the vendor widget) the 32-bit prior value
with bit 0x0008 set if and only if `gpio_mask` is non-zero, bit 0x0010 set if and only if
`sense_b` is set, and every other bit unchanged; run twice in succession it leaves the
coefficient and the pin configurations, the one of the DMIC pin included, equal to what
a single run leaves. -/
theorem cs4210_pinmux_init_idempotent (k : hda_consts) (codec : hda_codec) :
    (codec.proc_coef codec.spec.vendor_nid CS421X_IDX_DEV_CFG < 2 ^ 32 →
      (((cs4210_pinmux_init k codec).1.proc_coef codec.spec.vendor_nid
          CS421X_IDX_DEV_CFG).testBit 3 = true ↔ codec.spec.gpio_mask ≠ 0) ∧
      (((cs4210_pinmux_init k codec).1.proc_coef codec.spec.vendor_nid
          CS421X_IDX_DEV_CFG).testBit 4 = true ↔ codec.spec.sense_b = true) ∧
      (∀ i, i ≠ 3 → i ≠ 4 →
        ((cs4210_pinmux_init k codec).1.proc_coef codec.spec.vendor_nid
            CS421X_IDX_DEV_CFG).testBit i
          = (codec.proc_coef codec.spec.vendor_nid CS421X_IDX_DEV_CFG).testBit i)) ∧
    (cs4210_pinmux_init k (cs4210_pinmux_init k codec).1).1.proc_coef
        codec.spec.vendor_nid CS421X_IDX_DEV_CFG
      = (cs4210_pinmux_init k codec).1.proc_coef codec.spec.vendor_nid CS421X_IDX_DEV_CFG ∧
    (cs4210_pinmux_init k (cs4210_pinmux_init k codec).1).1.pincfg CS421X_DMIC_PIN_NID
      = (cs4210_pinmux_init k codec).1.pincfg CS421X_DMIC_PIN_NID ∧
    (cs4210_pinmux_init k (cs4210_pinmux_init k codec).1).1.pincfg
      = (cs4210_pinmux_init k codec).1.pincfg ∧
    (cs4210_pinmux_init k (cs4210_pinmux_init k codec).1).1.spec
      = (cs4210_pinmux_init k codec).1.spec := by
  refine ⟨?_, cs4210_pinmux_init_twice_coef k codec, ?_, cs4210_pinmux_init_twice_pincfg k codec,
    cs4210_pinmux_init_spec k _⟩
  · intro hold
    have h1 := cs4210_pinmux_init_coef k codec
    refine ⟨?_, ?_, ?_⟩
    · rw [h1, pinmux_coef_testBit, if_pos rfl]
      simp
    · rw [h1, pinmux_coef_testBit, if_neg (by decide), if_pos rfl]
    · intro i h3 h4
      rw [h1, pinmux_coef_testBit, if_neg h3, if_neg h4]
      by_cases hi : i < 32
      · simp [hi]
      · have hlt : codec.proc_coef codec.spec.vendor_nid CS421X_IDX_DEV_CFG < 2 ^ i :=
          lt_of_lt_of_le hold (Nat.pow_le_pow_right (by decide) (by omega))
        simp [hi, Nat.testBit_lt_two_pow hlt]
  · rw [cs4210_pinmux_init_twice_pincfg]

/-- Witness of C29: on the CS4210 device with SENSE_B forced and 0x0003 in the
device-configuration coefficient, one run leaves 0x0013 and a second run leaves 0x0013
again. -/
theorem cs4210_pinmux_init_idempotent_witness :
    (cs4210_pinmux_init hda_consts_std codec_cs4210_dmic).1.proc_coef 0x0B 0x01 = 0x0013 ∧
    (cs4210_pinmux_init hda_consts_std
        (cs4210_pinmux_init hda_consts_std codec_cs4210_dmic).1).1.proc_coef 0x0B 0x01
      = 0x0013 ∧
    (((cs4210_pinmux_init hda_consts_std codec_cs4210_dmic).1.proc_coef 0x0B 0x01).testBit 4
        = true ↔ codec_cs4210_dmic.spec.sense_b = true) := by
  have h := cs4210_pinmux_init_idempotent hda_consts_std codec_cs4210_dmic
  have h1 : (cs4210_pinmux_init hda_consts_std codec_cs4210_dmic).1.proc_coef 0x0B 0x01
      = 0x0013 := by decide
  exact ⟨h1, h.2.1.trans h1, (h.1 (by decide)).2.1⟩

/-! ## Volume capabilities -/

/-- Bits of the capability word `fix_volume_caps` computes, with the number-of-steps
field at bits 14..8 and the offset field at bits 6..0. -/
theorem volume_caps_testBit (c i : Nat) :
    ((c &&& (U32_MAX ^^^ ((0x7f <<< 8) &&& U32_MAX)))
      ||| (((((c &&& (U32_MAX ^^^ ((0x7f <<< 8) &&& U32_MAX))) >>> 0) &&& 0x7f) <<< 8)
            &&& U32_MAX)).testBit i
      = if 8 ≤ i ∧ i ≤ 14 then c.testBit (i - 8) else (c.testBit i && decide (i < 32)) := by
  have h7f : ∀ j, (0x7f : Nat).testBit j = decide (j < 7) := fun j =>
    Nat.testBit_two_pow_sub_one 7 j
  simp only [Nat.testBit_or, Nat.testBit_and, Nat.testBit_xor, Nat.testBit_shiftLeft,
    Nat.testBit_shiftRight, U32_MAX_testBit, h7f, Nat.zero_add]
  by_cases h8 : 8 ≤ i
  · by_cases h14 : i ≤ 14
    · have a : i - 8 < 7 := by omega
      have b : i < 32 := by omega
      have c8 : i - 8 < 32 := by omega
      have d : ¬ (8 ≤ i - 8) := by omega
      simp [h8, h14, a, b, c8, d]
    · have a : ¬ (i - 8 < 7) := by omega
      simp [h8, h14, a]
  · have a : ¬ (8 ≤ i ∧ i ≤ 14) := fun h => h8 h.1
    simp [h8, a]

/-- The capability word `fix_volume_caps` stores for the output amplifier of `dac`. -/
theorem fix_volume_caps_word (k : hda_consts) (codec : hda_codec) (dac : hda_nid_t)
    (hn : k.AC_AMPCAP_NUM_STEPS_SHIFT = 8) (ho : k.AC_AMPCAP_OFFSET_SHIFT = 0) :
    query_amp_caps (fix_volume_caps k codec dac) dac true
      = (query_amp_caps codec dac true &&& (U32_MAX ^^^ ((0x7f <<< 8) &&& U32_MAX)))
        ||| (((((query_amp_caps codec dac true &&& (U32_MAX ^^^ ((0x7f <<< 8) &&& U32_MAX)))
                >>> 0) &&& 0x7f) <<< 8) &&& U32_MAX) := by
  unfold fix_volume_caps snd_hda_override_amp_caps query_amp_caps
  simp only [hn, ho, and_self, if_true]

/-- C25. Volume cap at 0dB, with the number-of-steps field at bits 14..8 and the offset
field at bits 6..0: for every 32-bit capability word `c` read for the output amplifier of
the DAC, `fix_volume_caps` overrides the capabilities with a word whose number-of-steps
field equals the offset field of `c` and whose every other bit equals the corresponding
bit of `c`; no other amplifier changes, and `fix_volume_caps` applied to its own result
yields the same word and the same device state. -/
theorem fix_volume_caps_zero_db (k : hda_consts) (codec : hda_codec) (dac : hda_nid_t)
    (hn : k.AC_AMPCAP_NUM_STEPS_SHIFT = 8) (ho : k.AC_AMPCAP_OFFSET_SHIFT = 0)
    (h32 : query_amp_caps codec dac true < 2 ^ 32) :
    (query_amp_caps (fix_volume_caps k codec dac) dac true >>> 8) &&& 0x7f
      = query_amp_caps codec dac true &&& 0x7f ∧
    (∀ j, j < 7 →
      (query_amp_caps (fix_volume_caps k codec dac) dac true).testBit (8 + j)
        = (query_amp_caps codec dac true).testBit j) ∧
    (∀ i, i < 8 ∨ 14 < i →
      (query_amp_caps (fix_volume_caps k codec dac) dac true).testBit i
        = (query_amp_caps codec dac true).testBit i) ∧
    (∀ n d, ¬ (n = dac ∧ d = true) →
      query_amp_caps (fix_volume_caps k codec dac) n d = query_amp_caps codec n d) ∧
    query_amp_caps (fix_volume_caps k (fix_volume_caps k codec dac) dac) dac true
      = query_amp_caps (fix_volume_caps k codec dac) dac true ∧
    fix_volume_caps k (fix_volume_caps k codec dac) dac = fix_volume_caps k codec dac := by
  have hw := fix_volume_caps_word k codec dac hn ho
  have hw2 := fix_volume_caps_word k (fix_volume_caps k codec dac) dac hn ho
  have htwice : query_amp_caps (fix_volume_caps k (fix_volume_caps k codec dac) dac) dac true
      = query_amp_caps (fix_volume_caps k codec dac) dac true := by
    apply Nat.eq_of_testBit_eq
    intro i
    rw [hw2, volume_caps_testBit, hw]
    by_cases h : 8 ≤ i ∧ i ≤ 14
    · have a : ¬ (8 ≤ i - 8 ∧ i - 8 ≤ 14) := by omega
      have b : i - 8 < 32 := by omega
      rw [if_pos h, volume_caps_testBit, volume_caps_testBit, if_neg a, if_pos h]
      simp [b]
    · rw [if_neg h, volume_caps_testBit, if_neg h]
      simp
  have h7f : ∀ j, (0x7f : Nat).testBit j = decide (j < 7) := fun j =>
    Nat.testBit_two_pow_sub_one 7 j
  have hfield : ∀ j, j < 7 →
      (query_amp_caps (fix_volume_caps k codec dac) dac true).testBit (8 + j)
        = (query_amp_caps codec dac true).testBit j := by
    intro j hj
    rw [hw, volume_caps_testBit, if_pos (by omega)]
    congr 1
    omega
  refine ⟨?_, hfield, ?_, ?_, htwice, ?_⟩
  · apply Nat.eq_of_testBit_eq
    intro j
    rw [Nat.testBit_and, Nat.testBit_shiftRight, Nat.testBit_and, h7f]
    by_cases hj : j < 7
    · rw [hfield j hj]
    · simp [hj]
  · intro i hi
    rw [hw, volume_caps_testBit, if_neg (by omega)]
    by_cases h : i < 32
    · simp [h]
    · have hlt : query_amp_caps codec dac true < 2 ^ i :=
        lt_of_lt_of_le h32 (Nat.pow_le_pow_right (by decide) (by omega))
      simp [h, Nat.testBit_lt_two_pow hlt]
  · intro n d hnd
    unfold fix_volume_caps snd_hda_override_amp_caps query_amp_caps
    simp only [if_neg hnd]
  · have e : ∀ c : hda_codec, fix_volume_caps k c dac
        = { c with
            amp_caps := fun n d =>
              if n = dac ∧ d = true then query_amp_caps (fix_volume_caps k c dac) dac true
              else c.amp_caps n d } := by
      intro c
      unfold fix_volume_caps snd_hda_override_amp_caps query_amp_caps
      simp only [and_self, if_true]
    rw [e (fix_volume_caps k codec dac), htwice]
    conv => rhs; rw [e codec]
    rw [e codec]
    congr 1
    funext n d
    by_cases hnd : n = dac ∧ d = true
    · simp only [if_pos hnd]
    · simp only [if_neg hnd]

/-- Witness of C25: on the CS4210 device whose DAC 0x02 reports 0x80037f42,
`fix_volume_caps` stores 0x80034242, and stores it again when applied to its result. -/
theorem fix_volume_caps_zero_db_witness :
    query_amp_caps (fix_volume_caps hda_consts_std codec_cs4210_caps CS4210_DAC_NID)
      CS4210_DAC_NID true = 0x80034242 ∧
    query_amp_caps
      (fix_volume_caps hda_consts_std
        (fix_volume_caps hda_consts_std codec_cs4210_caps CS4210_DAC_NID) CS4210_DAC_NID)
      CS4210_DAC_NID true = 0x80034242 := by
  have h := fix_volume_caps_zero_db hda_consts_std codec_cs4210_caps CS4210_DAC_NID rfl rfl
    (by decide)
  have h1 : query_amp_caps (fix_volume_caps hda_consts_std codec_cs4210_caps CS4210_DAC_NID)
      CS4210_DAC_NID true = 0x80034242 := by decide
  exact ⟨h1, h.2.2.2.2.1.trans h1⟩

/-! ## GPIO policy invariant -/

/-- C26 (counterexample). From the all-zero device, `cs420x_fixup_gpio_13` at PRE_PROBE,
then `cs_automute`, then `cs4208_fixup_gpio0` at PRE_PROBE leave `gpio_data` at 0x0A
under the mask 0x01: bits 1 and 3 of `gpio_data` lie outside `gpio_mask`. -/
theorem gpio_policy_invariant_counterexample :
    gpio_fresh hda_codec_zero.spec ∧
    (apply_gpio_steps hda_codec_zero
      [gpio_step.fixup_gpio_13 HDA_FIXUP_ACT_PRE_PROBE, gpio_step.automute,
       gpio_step.fixup_gpio0 HDA_FIXUP_ACT_PRE_PROBE]).spec.gpio_data = 0x0A ∧
    (apply_gpio_steps hda_codec_zero
      [gpio_step.fixup_gpio_13 HDA_FIXUP_ACT_PRE_PROBE, gpio_step.automute,
       gpio_step.fixup_gpio0 HDA_FIXUP_ACT_PRE_PROBE]).spec.gpio_mask = 0x01 ∧
    ¬ gpio_data_in_mask (apply_gpio_steps hda_codec_zero
      [gpio_step.fixup_gpio_13 HDA_FIXUP_ACT_PRE_PROBE, gpio_step.automute,
       gpio_step.fixup_gpio0 HDA_FIXUP_ACT_PRE_PROBE]).spec := by
  refine ⟨⟨rfl, rfl, rfl, rfl, rfl⟩, by decide, by decide, ?_⟩
  unfold gpio_data_in_mask
  decide

/-- A word and-ed with a word that holds all its bits is itself. -/
theorem and_of_subset (x m : Nat) (h : ∀ i, x.testBit i = true → m.testBit i = true) :
    x &&& m = x := by
  apply Nat.eq_of_testBit_eq
  intro i
  rw [Nat.testBit_and]
  cases hx : x.testBit i
  · rfl
  · rw [h i hx]
    rfl

/-- The three GPIO fixup callbacks change nothing at a lifecycle point other than
PRE_PROBE. -/
theorem gpio_fixups_only_pre_probe (codec : hda_codec) (action : hda_fixup_action)
    (h : action ≠ HDA_FIXUP_ACT_PRE_PROBE) :
    cs420x_fixup_gpio_13 codec action = codec ∧
    cs420x_fixup_gpio_23 codec action = codec ∧
    cs4208_fixup_gpio0 codec action = codec := by
  unfold cs420x_fixup_gpio_13 cs420x_fixup_gpio_23 cs4208_fixup_gpio0
  simp only [if_neg h, and_self]

/-- Every step keeps the invariant of the GPIO fields. -/
theorem apply_gpio_step_invariant (codec : hda_codec) (s : gpio_step)
    (h : gpio_invariant codec.spec) : gpio_invariant (apply_gpio_step codec s).spec := by
  cases s with
  | fixup_gpio_13 action =>
    by_cases ha : action = HDA_FIXUP_ACT_PRE_PROBE
    · subst ha
      refine ⟨⟨rfl, rfl⟩, ?_⟩
      intro hz
      exact absurd (show (2 : Nat) = 0 from hz.1) (by decide)
    · show gpio_invariant (cs420x_fixup_gpio_13 codec action).spec
      rw [(gpio_fixups_only_pre_probe codec action ha).1]
      exact h
  | fixup_gpio_23 action =>
    by_cases ha : action = HDA_FIXUP_ACT_PRE_PROBE
    · subst ha
      refine ⟨⟨rfl, rfl⟩, ?_⟩
      intro hz
      exact absurd (show (4 : Nat) = 0 from hz.1) (by decide)
    · show gpio_invariant (cs420x_fixup_gpio_23 codec action).spec
      rw [(gpio_fixups_only_pre_probe codec action ha).2.1]
      exact h
  | fixup_gpio0 action =>
    by_cases ha : action = HDA_FIXUP_ACT_PRE_PROBE
    · subst ha
      refine ⟨⟨rfl, rfl⟩, ?_⟩
      intro hz
      exact absurd (show (1 : Nat) = 0 from hz.2) (by decide)
    · show gpio_invariant (cs4208_fixup_gpio0 codec action).spec
      rw [(gpio_fixups_only_pre_probe codec action ha).2.2]
      exact h
  | automute =>
    show gpio_invariant (cs_automute codec).1.spec
    rw [cs_automute_codec]
    refine ⟨h.1, ?_⟩
    intro hz
    have hz1 : codec.spec.gpio_eapd_hp = 0 := hz.1
    have hz2 : codec.spec.gpio_eapd_speaker = 0 := hz.2
    have hc : ¬ (codec.spec.gpio_eapd_hp ≠ 0 ∨ codec.spec.gpio_eapd_speaker ≠ 0) := by
      simp [hz1, hz2]
    show (if codec.spec.gpio_eapd_hp ≠ 0 ∨ codec.spec.gpio_eapd_speaker ≠ 0 then _ else _) = 0
    rw [if_neg hc]
    exact h.2 ⟨hz1, hz2⟩

/-- Every run keeps the invariant of the GPIO fields. -/
theorem apply_gpio_steps_invariant (steps : List gpio_step) :
    ∀ codec : hda_codec, gpio_invariant codec.spec →
      gpio_invariant (apply_gpio_steps codec steps).spec := by
  induction steps with
  | nil => intro codec h; exact h
  | cons s rest ih =>
    intro codec h
    exact ih (apply_gpio_step codec s) (apply_gpio_step_invariant codec s h)

/-- Right after `cs_automute`, `gpio_data` has no bit outside `gpio_mask`. -/
theorem cs_automute_data_in_mask (codec : hda_codec) (h : gpio_invariant codec.spec) :
    gpio_data_in_mask (cs_automute codec).1.spec := by
  unfold gpio_data_in_mask
  rw [cs_automute_codec]
  show (if codec.spec.gpio_eapd_hp ≠ 0 ∨ codec.spec.gpio_eapd_speaker ≠ 0 then _ else _)
      &&& codec.spec.gpio_mask
    = (if codec.spec.gpio_eapd_hp ≠ 0 ∨ codec.spec.gpio_eapd_speaker ≠ 0 then _ else _)
  have hm : codec.spec.gpio_mask = codec.spec.gpio_eapd_hp ||| codec.spec.gpio_eapd_speaker :=
    h.1.1.trans h.1.2
  rw [hm]
  by_cases hc : codec.spec.gpio_eapd_hp ≠ 0 ∨ codec.spec.gpio_eapd_speaker ≠ 0
  · rw [if_pos hc]
    apply and_of_subset
    intro i hi
    rw [Nat.testBit_or]
    cases ha : codec.spec.gen.automute_speaker
    · rw [ha] at hi
      simpa [Nat.testBit_or] using hi
    · rw [ha] at hi
      cases hj : codec.spec.gen.hp_jack_present
      · rw [hj] at hi
        simp only [if_true] at hi
        simp at hi
        simp [hi]
      · rw [hj] at hi
        simp at hi
        simp [hi]
  · rw [if_neg hc]
    have hz : codec.spec.gpio_eapd_hp = 0 ∧ codec.spec.gpio_eapd_speaker = 0 := by
      constructor
      · by_contra h1
        exact hc (Or.inl h1)
      · by_contra h1
        exact hc (Or.inr h1)
    rw [h.2 hz]
    exact Nat.zero_and _

/-- A step that is not a fixup at PRE_PROBE keeps `gpio_data` inside `gpio_mask`. -/
theorem apply_gpio_step_in_mask (codec : hda_codec) (s : gpio_step)
    (hs : is_pre_probe_fixup s = false) (h : gpio_invariant codec.spec)
    (hd : gpio_data_in_mask codec.spec) :
    gpio_data_in_mask (apply_gpio_step codec s).spec := by
  cases s with
  | fixup_gpio_13 action =>
    have ha : action ≠ HDA_FIXUP_ACT_PRE_PROBE := by
      intro e
      subst e
      exact absurd hs (by decide)
    show gpio_data_in_mask (cs420x_fixup_gpio_13 codec action).spec
    rw [(gpio_fixups_only_pre_probe codec action ha).1]
    exact hd
  | fixup_gpio_23 action =>
    have ha : action ≠ HDA_FIXUP_ACT_PRE_PROBE := by
      intro e
      subst e
      exact absurd hs (by decide)
    show gpio_data_in_mask (cs420x_fixup_gpio_23 codec action).spec
    rw [(gpio_fixups_only_pre_probe codec action ha).2.1]
    exact hd
  | fixup_gpio0 action =>
    have ha : action ≠ HDA_FIXUP_ACT_PRE_PROBE := by
      intro e
      subst e
      exact absurd hs (by decide)
    show gpio_data_in_mask (cs4208_fixup_gpio0 codec action).spec
    rw [(gpio_fixups_only_pre_probe codec action ha).2.2]
    exact hd
  | automute => exact cs_automute_data_in_mask codec h

/-- A run without a fixup at PRE_PROBE keeps `gpio_data` inside `gpio_mask`. -/
theorem apply_gpio_steps_in_mask (steps : List gpio_step) :
    ∀ codec : hda_codec, (∀ s ∈ steps, is_pre_probe_fixup s = false) →
      gpio_invariant codec.spec → gpio_data_in_mask codec.spec →
      gpio_data_in_mask (apply_gpio_steps codec steps).spec := by
  induction steps with
  | nil => intro codec _ _ hd; exact hd
  | cons s rest ih =>
    intro codec hs h hd
    exact ih (apply_gpio_step codec s)
      (fun t ht => hs t (List.mem_cons_of_mem s ht))
      (apply_gpio_step_invariant codec s h)
      (apply_gpio_step_in_mask codec s (hs s (List.mem_cons_self s rest)) h hd)

/-- A run without a call of `cs_automute` leaves `gpio_data` as it is. -/
theorem apply_gpio_steps_data (steps : List gpio_step) :
    ∀ codec : hda_codec, (∀ s ∈ steps, s ≠ gpio_step.automute) →
      (apply_gpio_steps codec steps).spec.gpio_data = codec.spec.gpio_data := by
  induction steps with
  | nil => intro codec _; rfl
  | cons s rest ih =>
    intro codec hs
    have h1 := ih (apply_gpio_step codec s) (fun t ht => hs t (List.mem_cons_of_mem s ht))
    have h2 : (apply_gpio_step codec s).spec.gpio_data = codec.spec.gpio_data := by
      cases s with
      | fixup_gpio_13 action => cases action <;> rfl
      | fixup_gpio_23 action => cases action <;> rfl
      | fixup_gpio0 action => cases action <;> rfl
      | automute => exact absurd rfl (hs gpio_step.automute (List.mem_cons_self _ rest))
    exact h1.trans h2

/-- The run of two lists of steps in a row. -/
theorem apply_gpio_steps_append (codec : hda_codec) (a b : List gpio_step) :
    apply_gpio_steps codec (a ++ b) = apply_gpio_steps (apply_gpio_steps codec a) b := by
  unfold apply_gpio_steps
  exact List.foldl_append _ _ _ _

/-- C26 (amended). In every state reachable from a freshly allocated device, with all
GPIO fields zero, by applying any of `cs420x_fixup_gpio_13`, `cs420x_fixup_gpio_23` and
`cs4208_fixup_gpio0` at any lifecycle point, in any order, interleaved with any number of
`cs_automute` calls, `gpio_mask` equals `gpio_dir` equals `gpio_eapd_hp | gpio_eapd_speaker`.
`gpio_data` has no bit set outside `gpio_mask` right after every `cs_automute` call and
as long as no fixup is applied at PRE_PROBE after it, and in every state reached with no
`cs_automute` call at all. Applied at a lifecycle point other than PRE_PROBE the three
callbacks change no field. -/
theorem gpio_policy_invariant (codec : hda_codec) (h0 : gpio_fresh codec.spec)
    (steps : List gpio_step) :
    gpio_policy (apply_gpio_steps codec steps).spec ∧
    (∀ tail : List gpio_step, (∀ s ∈ tail, is_pre_probe_fixup s = false) →
      gpio_data_in_mask
        (apply_gpio_steps codec (steps ++ gpio_step.automute :: tail)).spec) ∧
    ((∀ s ∈ steps, s ≠ gpio_step.automute) →
      gpio_data_in_mask (apply_gpio_steps codec steps).spec) ∧
    (∀ (c : hda_codec) (action : hda_fixup_action), action ≠ HDA_FIXUP_ACT_PRE_PROBE →
      cs420x_fixup_gpio_13 c action = c ∧ cs420x_fixup_gpio_23 c action = c ∧
      cs4208_fixup_gpio0 c action = c) := by
  obtain ⟨hm, hdir, hdata, hhp, hspk⟩ := h0
  have hinv0 : gpio_invariant codec.spec := by
    refine ⟨⟨hm.trans hdir.symm, ?_⟩, fun _ => hdata⟩
    rw [hdir, hhp, hspk]
    rfl
  have hinv := apply_gpio_steps_invariant steps codec hinv0
  refine ⟨hinv.1, ?_, ?_, fun c action h => gpio_fixups_only_pre_probe c action h⟩
  · intro tail ht
    rw [apply_gpio_steps_append]
    show gpio_data_in_mask
      (apply_gpio_steps (apply_gpio_step (apply_gpio_steps codec steps) gpio_step.automute)
        tail).spec
    exact apply_gpio_steps_in_mask tail _ ht
      (apply_gpio_step_invariant _ gpio_step.automute hinv)
      (cs_automute_data_in_mask _ hinv)
  · intro hs
    unfold gpio_data_in_mask
    rw [apply_gpio_steps_data steps codec hs, hdata]
    exact Nat.zero_and _

/-- Witness of C26 (amended): from the all-zero device, after `cs420x_fixup_gpio_13` at
PRE_PROBE, `cs_automute`, `cs420x_fixup_gpio_23` at PRE_PROBE, a further `cs_automute`
and a fixup at INIT, the mask is 0x0C and `gpio_data` lies inside it. -/
theorem gpio_policy_invariant_witness :
    gpio_fresh hda_codec_zero.spec ∧
    gpio_policy (apply_gpio_steps hda_codec_zero
      [gpio_step.fixup_gpio_13 HDA_FIXUP_ACT_PRE_PROBE, gpio_step.automute,
       gpio_step.fixup_gpio_23 HDA_FIXUP_ACT_PRE_PROBE]).spec ∧
    gpio_data_in_mask (apply_gpio_steps hda_codec_zero
      ([gpio_step.fixup_gpio_13 HDA_FIXUP_ACT_PRE_PROBE, gpio_step.automute,
        gpio_step.fixup_gpio_23 HDA_FIXUP_ACT_PRE_PROBE]
        ++ gpio_step.automute :: [gpio_step.fixup_gpio0 HDA_FIXUP_ACT_INIT])).spec :=
  ⟨⟨rfl, rfl, rfl, rfl, rfl⟩,
    (gpio_policy_invariant hda_codec_zero ⟨rfl, rfl, rfl, rfl, rfl⟩
      [gpio_step.fixup_gpio_13 HDA_FIXUP_ACT_PRE_PROBE, gpio_step.automute,
       gpio_step.fixup_gpio_23 HDA_FIXUP_ACT_PRE_PROBE]).1,
    (gpio_policy_invariant hda_codec_zero ⟨rfl, rfl, rfl, rfl, rfl⟩
      [gpio_step.fixup_gpio_13 HDA_FIXUP_ACT_PRE_PROBE, gpio_step.automute,
       gpio_step.fixup_gpio_23 HDA_FIXUP_ACT_PRE_PROBE]).2.1
      [gpio_step.fixup_gpio0 HDA_FIXUP_ACT_INIT] (by decide)⟩

/-! ## Remap recursion -/

/-- At PRE_PROBE `cs4208_fixup_mac` is the applier run on the remapped codec. -/
theorem cs4208_fixup_mac_eq_remap (apply : hda_codec → hda_fixup_action → fixup_result)
    (codec : hda_codec) :
    cs4208_fixup_mac apply codec HDA_FIXUP_ACT_PRE_PROBE
      = match apply (cs4208_fixup_mac_remap codec) HDA_FIXUP_ACT_PRE_PROBE with
        | none => none
        | some r =>
          some (r.1, [hda_event.pick_fixup fixup_family.cs4208_mac,
            hda_event.apply_fixup HDA_FIXUP_ACT_PRE_PROBE] ++ r.2) := by
  unfold cs4208_fixup_mac cs4208_fixup_mac_remap
  simp only [ne_eq, not_true_eq_false, if_false]

/-- The remap selects one of the four entries `CS4208_MBP11`, `CS4208_MACMINI`,
`CS4208_MBA6` and `CS4208_GPIO0`, and leaves the CS4208 table in place. -/
theorem cs4208_fixup_mac_remap_id (codec : hda_codec)
    (hl : codec.fixup_list = cs4208_fixups) :
    (cs4208_fixup_mac_remap codec).fixup_list = cs4208_fixups ∧
    ((cs4208_fixup_mac_remap codec).fixup_id = (CS4208_MBP11 : Int) ∨
      (cs4208_fixup_mac_remap codec).fixup_id = (CS4208_MACMINI : Int) ∨
      (cs4208_fixup_mac_remap codec).fixup_id = (CS4208_MBA6 : Int) ∨
      (cs4208_fixup_mac_remap codec).fixup_id = (CS4208_GPIO0 : Int)) := by
  unfold cs4208_fixup_mac_remap
  simp only []
  rw [snd_hda_pick_fixup_no_models]
  cases hq : quirk_lookup cs4208_mac_fixup_tbl
      ({ codec with fixup_id := HDA_FIXUP_ID_NOT_SET } : hda_codec).subsystem_vendor
      ({ codec with fixup_id := HDA_FIXUP_ID_NOT_SET } : hda_codec).subsystem_device with
  | none =>
    simp only [if_true]
    exact ⟨hl, Or.inr (Or.inr (Or.inr trivial))⟩
  | some q =>
    have hm := quirk_lookup_mem _ _ _ _ hq
    have hall : ∀ x ∈ quirk_entries cs4208_mac_fixup_tbl,
        x.value = CS4208_MBP11 ∨ x.value = CS4208_MACMINI ∨ x.value = CS4208_MBA6 := by
      decide
    have hv := hall q hm
    have hns : ¬ ((q.value : Int) = HDA_FIXUP_ID_NOT_SET) := by
      simp only [HDA_FIXUP_ID_NOT_SET]
      omega
    simp only [if_neg hns]
    refine ⟨trivial, ?_⟩
    rcases hv with h | h | h
    · exact Or.inl (by rw [h])
    · exact Or.inr (Or.inl (by rw [h]))
    · exact Or.inr (Or.inr (Or.inl (by rw [h])))

/-- C27. Bounded remap recursion: for every codec subsystem ID, the fixup id selected by
`cs4208_fixup_mac` at PRE_PROBE on the CS4208 table is one of `CS4208_MBP11`,
`CS4208_MACMINI`, `CS4208_MBA6` and `CS4208_GPIO0` and never `CS4208_MAC_AUTO`; the chain
from each of those ids resolves without reaching `CS4208_MAC_AUTO` and holds no entry
that calls `cs4208_fixup_mac`. Hence the nested application comes to an end with the
nesting bound 1, under which any further nested application would fail, whatever larger
bound is given the result is the same, and the application that starts at
`CS4208_MAC_AUTO` comes to an end with the bound 2. For every action other than PRE_PROBE
`cs4208_fixup_mac` changes nothing and calls nothing. -/
theorem cs4208_fixup_mac_bounded (depth : Nat) (codec : hda_codec)
    (hl : codec.fixup_list = cs4208_fixups) :
    ((cs4208_fixup_mac_remap codec).fixup_id = (CS4208_MBP11 : Int) ∨
      (cs4208_fixup_mac_remap codec).fixup_id = (CS4208_MACMINI : Int) ∨
      (cs4208_fixup_mac_remap codec).fixup_id = (CS4208_MBA6 : Int) ∨
      (cs4208_fixup_mac_remap codec).fixup_id = (CS4208_GPIO0 : Int)) ∧
    (cs4208_fixup_mac_remap codec).fixup_id ≠ (CS4208_MAC_AUTO : Int) ∧
    (∀ id ∈ [CS4208_MBP11, CS4208_MACMINI, CS4208_MBA6, CS4208_GPIO0],
      ∃ chain, resolve cs4208_fixups id = Except.ok chain ∧ CS4208_MAC_AUTO ∉ chain ∧
        ∀ j ∈ chain, ∃ fix, cs4208_fixups[j]? = some fix ∧ is_fixup_mac_entry fix = false) ∧
    (∃ r, snd_hda_apply_fixup 1 (cs4208_fixup_mac_remap codec) HDA_FIXUP_ACT_PRE_PROBE = some r ∧
      snd_hda_apply_fixup (depth + 1) (cs4208_fixup_mac_remap codec) HDA_FIXUP_ACT_PRE_PROBE
        = some r ∧
      cs4208_fixup_mac (snd_hda_apply_fixup (depth + 1)) codec HDA_FIXUP_ACT_PRE_PROBE
        = some (r.1, [hda_event.pick_fixup fixup_family.cs4208_mac,
            hda_event.apply_fixup HDA_FIXUP_ACT_PRE_PROBE] ++ r.2) ∧
      snd_hda_apply_fixup (depth + 2) { codec with fixup_id := (CS4208_MAC_AUTO : Int) }
          HDA_FIXUP_ACT_PRE_PROBE
        = snd_hda_apply_fixup 2 { codec with fixup_id := (CS4208_MAC_AUTO : Int) }
          HDA_FIXUP_ACT_PRE_PROBE ∧
      snd_hda_apply_fixup 2 { codec with fixup_id := (CS4208_MAC_AUTO : Int) }
          HDA_FIXUP_ACT_PRE_PROBE ≠ none) ∧
    (∀ (apply : hda_codec → hda_fixup_action → fixup_result) (action : hda_fixup_action),
      action ≠ HDA_FIXUP_ACT_PRE_PROBE →
        cs4208_fixup_mac apply codec action = some (codec, [])) := by
  have hid := cs4208_fixup_mac_remap_id codec hl
  have hne : (cs4208_fixup_mac_remap codec).fixup_id ≠ (CS4208_MAC_AUTO : Int) := by
    rcases hid.2 with h | h | h | h <;> rw [h] <;> decide
  have hchains : ∀ id ∈ [CS4208_MBP11, CS4208_MACMINI, CS4208_MBA6, CS4208_GPIO0],
      ∃ chain, resolve cs4208_fixups id = Except.ok chain ∧ CS4208_MAC_AUTO ∉ chain ∧
        ∀ j ∈ chain, ∃ fix, cs4208_fixups[j]? = some fix ∧ is_fixup_mac_entry fix = false := by
    intro id hmem
    simp only [List.mem_cons, List.mem_singleton, List.not_mem_nil, or_false] at hmem
    rcases hmem with h | h | h | h
    · subst h
      exact ⟨[2, 4], rfl, by decide, by decide⟩
    · subst h
      exact ⟨[3, 4], rfl, by decide, by decide⟩
    · subst h
      exact ⟨[1, 4], rfl, by decide, by decide⟩
    · subst h
      exact ⟨[4], rfl, by decide, by decide⟩
  have hnest : ∀ d, ∃ r,
      snd_hda_apply_fixup 1 (cs4208_fixup_mac_remap codec) HDA_FIXUP_ACT_PRE_PROBE = some r ∧
      snd_hda_apply_fixup (d + 1) (cs4208_fixup_mac_remap codec) HDA_FIXUP_ACT_PRE_PROBE
        = some r := by
    intro d
    have h0 := snd_hda_apply_fixup_cs4208_pre_probe 0 (cs4208_fixup_mac_remap codec) hid.1
    have hd := snd_hda_apply_fixup_cs4208_pre_probe d (cs4208_fixup_mac_remap codec) hid.1
    rcases hid.2 with h | h | h | h
    · exact ⟨_, h0.2.2.1 h, hd.2.2.1 h⟩
    · exact ⟨_, h0.2.2.2 h, hd.2.2.2 h⟩
    · exact ⟨_, h0.2.1 h, hd.2.1 h⟩
    · exact ⟨_, h0.1 h, hd.1 h⟩
  have htop : ∀ d, snd_hda_apply_fixup (d + 2) { codec with fixup_id := (CS4208_MAC_AUTO : Int) }
        HDA_FIXUP_ACT_PRE_PROBE
      = match cs4208_fixup_mac (snd_hda_apply_fixup (d + 1))
          { codec with fixup_id := (CS4208_MAC_AUTO : Int) } HDA_FIXUP_ACT_PRE_PROBE with
        | none => none
        | some r => some (r.1, r.2 ++ []) := by
    intro d
    have hne0 : ¬ (cs4208_fixups = []) := by decide
    have r0 : resolve cs4208_fixups 0 = Except.ok [0] := rfl
    have e0 : cs4208_fixups[0]? = some
        { v := .HDA_FIXUP_FUNC .cs4208_fixup_mac, chained := false, chain_id := 0 } := rfl
    show snd_hda_apply_fixup ((d + 1) + 1) _ _ = _
    generalize d + 1 = n
    simp [snd_hda_apply_fixup, hl, hne0, CS4208_MAC_AUTO, r0, apply_fixup_chain, e0,
      apply_fixup_entry, call_fixup_func]
  have hremap : cs4208_fixup_mac_remap { codec with fixup_id := (CS4208_MAC_AUTO : Int) }
      = cs4208_fixup_mac_remap codec := rfl
  obtain ⟨r, h1, hd⟩ := hnest depth
  obtain ⟨r0, h10, hd0⟩ := hnest 0
  have er : r0 = r := Option.some.inj (h10.symm.trans h1)
  have hmac : ∀ d (c : hda_codec), cs4208_fixup_mac_remap c = cs4208_fixup_mac_remap codec →
      snd_hda_apply_fixup (d + 1) (cs4208_fixup_mac_remap codec) HDA_FIXUP_ACT_PRE_PROBE
        = some r →
      cs4208_fixup_mac (snd_hda_apply_fixup (d + 1)) c HDA_FIXUP_ACT_PRE_PROBE
        = some (r.1, [hda_event.pick_fixup fixup_family.cs4208_mac,
            hda_event.apply_fixup HDA_FIXUP_ACT_PRE_PROBE] ++ r.2) := by
    intro d c hc hr
    rw [cs4208_fixup_mac_eq_remap, hc, hr]
  refine ⟨hid.2, hne, hchains, ⟨r, h1, hd, hmac depth codec rfl hd, ?_, ?_⟩, ?_⟩
  · rw [htop depth, htop 0, hmac depth _ hremap hd, hmac 0 _ hremap (er ▸ hd0)]
  · rw [htop 0, hmac 0 _ hremap (er ▸ hd0)]
    simp
  · intro apply action ha
    unfold cs4208_fixup_mac
    simp only [ne_eq, ha, not_false_eq_true, if_true]

/-- Witness of C27: for the MacMini 7,1 (0x6c00) on the CS4208 table the remap does not
select `CS4208_MAC_AUTO`, and the application that starts at `CS4208_MAC_AUTO` comes to
an end with the nesting bound 2. -/
theorem cs4208_fixup_mac_bounded_witness :
    (codec_cs4208_mac 0x6c00).fixup_list = cs4208_fixups ∧
    (cs4208_fixup_mac_remap (codec_cs4208_mac 0x6c00)).fixup_id ≠ (CS4208_MAC_AUTO : Int) ∧
    snd_hda_apply_fixup 2
        { codec_cs4208_mac 0x6c00 with fixup_id := (CS4208_MAC_AUTO : Int) }
        HDA_FIXUP_ACT_PRE_PROBE ≠ none := by
  have h := cs4208_fixup_mac_bounded 0 (codec_cs4208_mac 0x6c00) rfl
  obtain ⟨_, _, _, _, _, h2⟩ := h.2.2.2.1
  exact ⟨rfl, h.2.1, h2⟩

/-! ## ADC power fix-up -/

/-- The bit test of the loop, for an index below 32: is the bit of the index set in
`done`. -/
theorem done_bit_test (done idx : Nat) (h : idx < 32) :
    (done &&& ((1 <<< idx) &&& U32_MAX) ≠ 0) ↔ done.testBit idx = true := by
  have hp : (1 <<< idx) &&& U32_MAX = 2 ^ idx := by
    rw [Nat.one_shiftLeft]
    exact and_U32_MAX_of_lt _ (Nat.pow_lt_pow_right (by decide) h)
  rw [hp, Nat.and_two_pow]
  cases hb : done.testBit idx
  · simp
  · simp [Nat.pos_pow_of_pos]

/-- Bits of `done` after the bit of an index below 32 is set. -/
theorem done_bit_set (done idx j : Nat) (h : idx < 32) :
    (done ||| ((1 <<< idx) &&& U32_MAX)).testBit j = (done.testBit j || decide (idx = j)) := by
  have hp : (1 <<< idx) &&& U32_MAX = 2 ^ idx := by
    rw [Nat.one_shiftLeft]
    exact and_U32_MAX_of_lt _ (Nat.pow_lt_pow_right (by decide) h)
  rw [hp, Nat.testBit_or, Nat.testBit_two_pow]

/-- The loop that keeps the ADCs powered up calls `snd_hda_gen_fix_pin_power` once for
each distinct index of its input that is not marked in `done`, in order of first
occurrence. -/
theorem fix_adc_pin_power_distinct (gen : hda_gen_spec) (l : List Nat) :
    ∀ (done : Nat) (seen : List Nat),
      (∀ i ∈ l, array_get gen.dyn_adc_idx i < 32) →
      (∀ j, done.testBit j = decide (j ∈ seen)) →
      fix_adc_pin_power gen l done
        = ((distinct_in_order (l.map (fun i => array_get gen.dyn_adc_idx i))).filter
            (fun y => !decide (y ∈ seen))).map
            (fun idx => hda_event.gen_fix_pin_power (array_get gen.adc_nids idx)) := by
  induction l with
  | nil => intro done seen _ _; rfl
  | cons i rest ih =>
    intro done seen hl hd
    have hlt : array_get gen.dyn_adc_idx i < 32 := hl i (List.mem_cons_self i rest)
    have hrest : ∀ x ∈ rest, array_get gen.dyn_adc_idx x < 32 :=
      fun x hx => hl x (List.mem_cons_of_mem i hx)
    simp only [fix_adc_pin_power, List.map_cons, distinct_in_order]
    by_cases hs : array_get gen.dyn_adc_idx i ∈ seen
    · have hc : done &&& ((1 <<< array_get gen.dyn_adc_idx i) &&& U32_MAX) ≠ 0 := by
        rw [done_bit_test _ _ hlt, hd]
        exact decide_eq_true hs
      rw [if_pos hc, ih done seen hrest hd]
      rw [List.filter_cons_of_neg (by simp [hs]), List.filter_filter]
      congr 1
      apply List.filter_congr
      intro y _
      by_cases hy : y ∈ seen
      · simp [hy]
      · have hne : y ≠ array_get gen.dyn_adc_idx i := fun e => hy (e ▸ hs)
        simp [hy, hne]
    · have hc : ¬ (done &&& ((1 <<< array_get gen.dyn_adc_idx i) &&& U32_MAX) ≠ 0) := by
        rw [done_bit_test _ _ hlt, hd]
        simp [hs]
      have hd2 : ∀ j, (done ||| ((1 <<< array_get gen.dyn_adc_idx i) &&& U32_MAX)).testBit j
          = decide (j ∈ array_get gen.dyn_adc_idx i :: seen) := by
        intro j
        rw [done_bit_set _ _ _ hlt, hd]
        by_cases hj : j ∈ seen
        · simp [hj]
        · by_cases he : array_get gen.dyn_adc_idx i = j
          · simp [he]
          · have he2 : ¬ j = array_get gen.dyn_adc_idx i := fun e => he e.symm
            simp [hj, he, he2]
      rw [if_neg hc, ih _ (array_get gen.dyn_adc_idx i :: seen) hrest hd2]
      rw [List.filter_cons_of_pos (by simp [hs]), List.map_cons, List.filter_filter]
      congr 2
      apply List.filter_congr
      intro y _
      by_cases hy : y ∈ seen
      · simp [hy]
      · by_cases he : y = array_get gen.dyn_adc_idx i
        · simp [he]
        · simp [hy, he]

/-- The distinct values in order of first occurrence hold no value twice and hold the
values of the list. -/
theorem distinct_in_order_spec (l : List Nat) :
    (distinct_in_order l).Nodup ∧ ∀ x, x ∈ distinct_in_order l ↔ x ∈ l := by
  induction l with
  | nil => exact ⟨List.nodup_nil, fun x => Iff.rfl⟩
  | cons a rest ih =>
    have hmem : ∀ x, x ∈ (distinct_in_order rest).filter (fun y => y != a)
        ↔ x ∈ rest ∧ x ≠ a := by
      intro x
      rw [List.mem_filter, ih.2 x]
      simp
    constructor
    · simp only [distinct_in_order]
      refine List.nodup_cons.mpr ⟨?_, ih.1.filter _⟩
      intro h
      exact ((hmem a).mp h).2 rfl
    · intro x
      simp only [distinct_in_order, List.mem_cons, hmem]
      constructor
      · rintro (h | h)
        · exact Or.inl h
        · exact Or.inr h.1
      · rintro (h | h)
        · exact Or.inl h
        · by_cases hx : x = a
          · exact Or.inl hx
          · exact Or.inr ⟨h, hx⟩

/-- C30. ADC power fix-up is deduplicated: when both parser calls succeed and the
`dyn_adc_idx` entries of the first `num_items` inputs lie in 0..31,
`cs_parse_auto_config` with `dyn_adc_switch` set calls `snd_hda_gen_fix_pin_power` once
for each distinct index occurring in those entries, in order of first occurrence and with
the node `adc_nids[idx]`; with `dyn_adc_switch` clear it makes no such call; and
`cs_8409_parse_auto_config` returns the same value, codec and calls for the same
input. -/
theorem cs_parse_auto_config_adc_power (core : hda_core) (codec : hda_codec)
    (h1 : ¬ (core.snd_hda_parse_pin_defcfg codec).1 < 0)
    (h2 : ¬ (core.snd_hda_gen_parse_auto_config (core.snd_hda_parse_pin_defcfg codec).2).1 < 0)
    (hidx : ∀ i, i < (cs_parse_auto_config core codec).2.1.spec.gen.num_items →
      array_get (cs_parse_auto_config core codec).2.1.spec.gen.dyn_adc_idx i < 32) :
    ((cs_parse_auto_config core codec).2.1.spec.gen.dyn_adc_switch = true →
      (cs_parse_auto_config core codec).2.2.filter is_fix_pin_power
        = (distinct_in_order
            ((List.range (cs_parse_auto_config core codec).2.1.spec.gen.num_items).map
              (fun i => array_get (cs_parse_auto_config core codec).2.1.spec.gen.dyn_adc_idx i))).map
            (fun idx => hda_event.gen_fix_pin_power
              (array_get (cs_parse_auto_config core codec).2.1.spec.gen.adc_nids idx))) ∧
    ((cs_parse_auto_config core codec).2.1.spec.gen.dyn_adc_switch = false →
      (cs_parse_auto_config core codec).2.2.filter is_fix_pin_power = []) ∧
    (distinct_in_order
        ((List.range (cs_parse_auto_config core codec).2.1.spec.gen.num_items).map
          (fun i => array_get (cs_parse_auto_config core codec).2.1.spec.gen.dyn_adc_idx i))).Nodup ∧
    (∀ x, x ∈ distinct_in_order
        ((List.range (cs_parse_auto_config core codec).2.1.spec.gen.num_items).map
          (fun i => array_get (cs_parse_auto_config core codec).2.1.spec.gen.dyn_adc_idx i))
      ↔ ∃ i, i < (cs_parse_auto_config core codec).2.1.spec.gen.num_items ∧
          array_get (cs_parse_auto_config core codec).2.1.spec.gen.dyn_adc_idx i = x) ∧
    cs_8409_parse_auto_config core codec = cs_parse_auto_config core codec := by
  have hc : (cs_parse_auto_config core codec).2.1
      = (core.snd_hda_gen_parse_auto_config (core.snd_hda_parse_pin_defcfg codec).2).2 := by
    unfold cs_parse_auto_config
    simp only [if_neg h1, if_neg h2]
    split <;> rfl
  rw [hc] at hidx ⊢
  generalize hc2 : (core.snd_hda_gen_parse_auto_config
    (core.snd_hda_parse_pin_defcfg codec).2).2 = c2 at hidx ⊢
  have hev : (cs_parse_auto_config core codec).2.2
      = [hda_event.parse_pin_defcfg, hda_event.gen_parse_auto_config]
        ++ (if c2.spec.gen.dyn_adc_switch = true then
              fix_adc_pin_power c2.spec.gen (List.range c2.spec.gen.num_items) 0
            else []) := by
    unfold cs_parse_auto_config
    simp only [if_neg h1, if_neg h2, hc2]
    split <;> simp
  have hloop := fix_adc_pin_power_distinct c2.spec.gen (List.range c2.spec.gen.num_items) 0 []
    (fun i hi => hidx i (List.mem_range.mp hi)) (fun j => by simp)
  have hspec := distinct_in_order_spec
    ((List.range c2.spec.gen.num_items).map (fun i => array_get c2.spec.gen.dyn_adc_idx i))
  refine ⟨?_, ?_, hspec.1, ?_, rfl⟩
  · intro hsw
    rw [hev, if_pos hsw, hloop]
    simp [List.filter_map, is_fix_pin_power, Function.comp_def]
  · intro hsw
    rw [hev, if_neg (by simp [hsw])]
    rfl
  · intro x
    rw [hspec.2 x, List.mem_map]
    constructor
    · rintro ⟨i, hi, e⟩
      exact ⟨i, List.mem_range.mp hi, e⟩
    · rintro ⟨i, hi, e⟩
      exact ⟨i, List.mem_range.mpr hi, e⟩

/-- Witness of C30: with the input list 1, 0, 1, 2, 0 over the ADCs 0x05, 0x06, 0x07 the
calls are for 0x06, 0x05 and 0x07, once each. -/
theorem cs_parse_auto_config_adc_power_witness :
    (cs_parse_auto_config hda_core_dyn_adc hda_codec_zero).2.2.filter is_fix_pin_power
      = [hda_event.gen_fix_pin_power 0x06, hda_event.gen_fix_pin_power 0x05,
         hda_event.gen_fix_pin_power 0x07] :=
  ((cs_parse_auto_config_adc_power hda_core_dyn_adc hda_codec_zero (by decide) (by decide)
    (by
      intro i hi
      have h5 : i < 5 := hi
      interval_cases i <;> decide)).1 rfl).trans (by decide)

/-! ## Allocation failure -/

/-- C22. Allocation failure: when `cs_alloc_spec` fails to allocate the per-device state,
each of `patch_cs420x`, `patch_cs4208`, `patch_cs4210`, `patch_cs4213` and `patch_cs8409`
returns `-ENOMEM`, leaves the codec as it is, `patch_ops` included, and records no call:
no fixup is picked or applied, the configuration is not parsed and no bus access is
issued. -/
theorem patch_alloc_failure (k : hda_consts) (core : hda_core)
    (boot_setup : hda_codec → Int × hda_codec × List hda_event) (codec : hda_codec)
    (h : core.kzalloc_ok = false) :
    (∀ vendor_nid, cs_alloc_spec core codec vendor_nid = none) ∧
    patch_cs420x k core codec = (-k.ENOMEM, codec, []) ∧
    patch_cs4208 k core codec = (-k.ENOMEM, codec, []) ∧
    patch_cs4210 k core codec = (-k.ENOMEM, codec, []) ∧
    patch_cs4213 k core codec = (-k.ENOMEM, codec, []) ∧
    patch_cs8409 k core boot_setup codec = (-k.ENOMEM, codec, []) ∧
    (patch_cs420x k core codec).2.1.patch_ops = codec.patch_ops ∧
    (patch_cs4208 k core codec).2.1.patch_ops = codec.patch_ops ∧
    (patch_cs4210 k core codec).2.1.patch_ops = codec.patch_ops ∧
    (patch_cs4213 k core codec).2.1.patch_ops = codec.patch_ops ∧
    (patch_cs8409 k core boot_setup codec).2.1.patch_ops = codec.patch_ops := by
  have ha : ∀ vendor_nid, cs_alloc_spec core codec vendor_nid = none := by
    intro vendor_nid
    unfold cs_alloc_spec
    simp [h]
  have h1 : patch_cs420x k core codec = (-k.ENOMEM, codec, []) := by
    unfold patch_cs420x
    rw [ha]
  have h2 : patch_cs4208 k core codec = (-k.ENOMEM, codec, []) := by
    unfold patch_cs4208
    rw [ha]
  have h3 : patch_cs4210 k core codec = (-k.ENOMEM, codec, []) := by
    unfold patch_cs4210
    rw [ha]
  have h4 : patch_cs4213 k core codec = (-k.ENOMEM, codec, []) := by
    unfold patch_cs4213
    rw [ha]
  have h5 : patch_cs8409 k core boot_setup codec = (-k.ENOMEM, codec, []) := by
    unfold patch_cs8409
    rw [ha]
  refine ⟨ha, h1, h2, h3, h4, h5, ?_, ?_, ?_, ?_, ?_⟩
  · rw [h1]
  · rw [h2]
  · rw [h3]
  · rw [h4]
  · rw [h5]

/-- Witness of C22: with a core in which `kzalloc` returns NULL, `patch_cs8409` on the
all-zero codec returns -12 and records nothing, and `patch_cs4213` installs no
`patch_ops`. -/
theorem patch_alloc_failure_witness :
    hda_core_no_memory.kzalloc_ok = false ∧
    (patch_cs8409 hda_consts_std hda_core_no_memory (fun c => (0, c, [])) hda_codec_zero).1
      = -12 ∧
    (patch_cs8409 hda_consts_std hda_core_no_memory (fun c => (0, c, [])) hda_codec_zero).2.2
      = [] ∧
    (patch_cs4213 hda_consts_std hda_core_no_memory hda_codec_zero).2.1.patch_ops = none := by
  have h := patch_alloc_failure hda_consts_std hda_core_no_memory (fun c => (0, c, []))
    hda_codec_zero rfl
  refine ⟨rfl, ?_, ?_, h.2.2.2.2.2.2.2.2.2.1⟩
  · rw [h.2.2.2.2.2.1]
    rfl
  · rw [h.2.2.2.2.2.1]

/-! ## Bus failures -/

/-- A write on the faulty bus is recorded whatever its outcome and leaves the driver
state and the pin configurations as they are. -/
theorem faulty_write_frame (s : faulty_bus) (nid : hda_nid_t) (verb : hda_verb_id)
    (param : Nat) :
    (Faulty.snd_hda_codec_write s nid verb param).2.1.codec.spec = s.codec.spec ∧
    (Faulty.snd_hda_codec_write s nid verb param).2.1.codec.pincfg = s.codec.pincfg ∧
    (Faulty.snd_hda_codec_write s nid verb param).2.2
      = [hda_event.codec_write nid verb param] := by
  have hw := snd_hda_codec_write_frame s.codec nid verb param
  unfold Faulty.snd_hda_codec_write
  rcases h : s.outcomes with _ | ⟨b, rest⟩
  · exact hw
  · cases b
    · exact ⟨rfl, rfl, rfl⟩
    · exact hw

/-- A verb table run on the faulty bus records every write it stands for, whatever the
outcomes. -/
theorem faulty_sequence_write_frame (seq : List hda_verb) :
    ∀ s : faulty_bus,
      (Faulty.snd_hda_sequence_write s seq).1.codec.spec = s.codec.spec ∧
      (Faulty.snd_hda_sequence_write s seq).1.codec.pincfg = s.codec.pincfg ∧
      (Faulty.snd_hda_sequence_write s seq).2 = verb_events seq := by
  induction seq with
  | nil => intro s; exact ⟨rfl, rfl, rfl⟩
  | cons v rest ih =>
    intro s
    by_cases hv : v.nid = 0
    · simp [Faulty.snd_hda_sequence_write, verb_events, verb_entries, hv]
    · have h := ih (Faulty.snd_hda_codec_write s v.nid v.verb v.param).2.1
      have hw := faulty_write_frame s v.nid v.verb v.param
      simp only [Faulty.snd_hda_sequence_write, if_neg hv]
      refine ⟨h.1.trans hw.1, h.2.1.trans hw.2.1, ?_⟩
      rw [h.2.2, hw.2.2]
      simp [verb_events, verb_entries, List.takeWhile_cons, hv]

/-- A coefficient read on the faulty bus records the index write and the read. -/
theorem faulty_coef_get_frame (s : faulty_bus) (idx : Nat) :
    (Faulty.cs_vendor_coef_get s idx).2.1.codec.spec = s.codec.spec ∧
    (Faulty.cs_vendor_coef_get s idx).2.1.codec.pincfg = s.codec.pincfg ∧
    (Faulty.cs_vendor_coef_get s idx).2.2
      = [hda_event.codec_write s.codec.spec.vendor_nid AC_VERB_SET_COEF_INDEX idx,
         hda_event.codec_read s.codec.spec.vendor_nid AC_VERB_GET_PROC_COEF 0] := by
  have hw := faulty_write_frame s s.codec.spec.vendor_nid AC_VERB_SET_COEF_INDEX idx
  unfold Faulty.cs_vendor_coef_get
  refine ⟨hw.1, hw.2.1, ?_⟩
  show (Faulty.snd_hda_codec_write s s.codec.spec.vendor_nid AC_VERB_SET_COEF_INDEX idx).2.2
    ++ _ = _
  rw [hw.2.2]
  rfl

/-- A coefficient write on the faulty bus records the index write and the coefficient
write, also when the index write failed. -/
theorem faulty_coef_set_frame (s : faulty_bus) (idx coef : Nat) :
    (Faulty.cs_vendor_coef_set s idx coef).1.codec.spec = s.codec.spec ∧
    (Faulty.cs_vendor_coef_set s idx coef).1.codec.pincfg = s.codec.pincfg ∧
    (Faulty.cs_vendor_coef_set s idx coef).2
      = [hda_event.codec_write s.codec.spec.vendor_nid AC_VERB_SET_COEF_INDEX idx,
         hda_event.codec_write s.codec.spec.vendor_nid AC_VERB_SET_PROC_COEF coef] := by
  have h1 := faulty_write_frame s s.codec.spec.vendor_nid AC_VERB_SET_COEF_INDEX idx
  have h2 := faulty_write_frame
    (Faulty.snd_hda_codec_write s s.codec.spec.vendor_nid AC_VERB_SET_COEF_INDEX idx).2.1
    s.codec.spec.vendor_nid AC_VERB_SET_PROC_COEF coef
  unfold Faulty.cs_vendor_coef_set
  refine ⟨h2.1.trans h1.1, h2.2.1.trans h1.2.1, ?_⟩
  show (Faulty.snd_hda_codec_write s s.codec.spec.vendor_nid AC_VERB_SET_COEF_INDEX idx).2.2
    ++ (Faulty.snd_hda_codec_write _ s.codec.spec.vendor_nid AC_VERB_SET_PROC_COEF coef).2.2 = _
  rw [h1.2.2, h2.2.2]
  rfl

/-- The GPIO block on the faulty bus records its three writes whatever the outcomes. -/
theorem faulty_init_gpio_frame (s : faulty_bus) :
    (Faulty.init_gpio s).1.codec.spec = s.codec.spec ∧
    (Faulty.init_gpio s).1.codec.pincfg = s.codec.pincfg ∧
    (Faulty.init_gpio s).2
      = if s.codec.spec.gpio_mask ≠ 0 then
          [hda_event.codec_write 0x01 AC_VERB_SET_GPIO_MASK s.codec.spec.gpio_mask,
           hda_event.codec_write 0x01 AC_VERB_SET_GPIO_DIRECTION s.codec.spec.gpio_dir,
           hda_event.codec_write 0x01 AC_VERB_SET_GPIO_DATA s.codec.spec.gpio_data]
        else [] := by
  unfold Faulty.init_gpio
  by_cases h : s.codec.spec.gpio_mask ≠ 0
  · simp only [if_pos h]
    have h1 := faulty_write_frame s 0x01 AC_VERB_SET_GPIO_MASK s.codec.spec.gpio_mask
    have h2 := faulty_write_frame
      (Faulty.snd_hda_codec_write s 0x01 AC_VERB_SET_GPIO_MASK s.codec.spec.gpio_mask).2.1
      0x01 AC_VERB_SET_GPIO_DIRECTION
      (Faulty.snd_hda_codec_write s 0x01 AC_VERB_SET_GPIO_MASK
        s.codec.spec.gpio_mask).2.1.codec.spec.gpio_dir
    have h3 := faulty_write_frame
      (Faulty.snd_hda_codec_write
        (Faulty.snd_hda_codec_write s 0x01 AC_VERB_SET_GPIO_MASK s.codec.spec.gpio_mask).2.1
        0x01 AC_VERB_SET_GPIO_DIRECTION
        (Faulty.snd_hda_codec_write s 0x01 AC_VERB_SET_GPIO_MASK
          s.codec.spec.gpio_mask).2.1.codec.spec.gpio_dir).2.1
      0x01 AC_VERB_SET_GPIO_DATA
      (Faulty.snd_hda_codec_write
        (Faulty.snd_hda_codec_write s 0x01 AC_VERB_SET_GPIO_MASK s.codec.spec.gpio_mask).2.1
        0x01 AC_VERB_SET_GPIO_DIRECTION
        (Faulty.snd_hda_codec_write s 0x01 AC_VERB_SET_GPIO_MASK
          s.codec.spec.gpio_mask).2.1.codec.spec.gpio_dir).2.1.codec.spec.gpio_data
    refine ⟨h3.1.trans (h2.1.trans h1.1), h3.2.1.trans (h2.2.1.trans h1.2.1), ?_⟩
    rw [h1.2.2, h2.2.2, h3.2.2, h2.1, h1.1]
    rfl
  · simp only [if_neg h]
    exact ⟨trivial, trivial, trivial⟩

/-- The input-coefficient setup on the faulty bus records its read and its write whatever
the outcomes; only the value written depends on them. -/
theorem faulty_init_input_coef_frame (k : hda_consts) (s : faulty_bus) :
    (Faulty.init_input_coef k s).1.codec.spec = s.codec.spec ∧
    (Faulty.init_input_coef k s).1.codec.pincfg = s.codec.pincfg ∧
    ∃ coef, (Faulty.init_input_coef k s).2
      = if s.codec.spec.vendor_nid = CS420X_VENDOR_NID then
          [hda_event.codec_write CS420X_VENDOR_NID AC_VERB_SET_COEF_INDEX IDX_BEEP_CFG,
           hda_event.codec_read CS420X_VENDOR_NID AC_VERB_GET_PROC_COEF 0,
           hda_event.codec_write CS420X_VENDOR_NID AC_VERB_SET_COEF_INDEX IDX_BEEP_CFG,
           hda_event.codec_write CS420X_VENDOR_NID AC_VERB_SET_PROC_COEF coef]
        else [] := by
  unfold Faulty.init_input_coef
  by_cases h : s.codec.spec.vendor_nid = CS420X_VENDOR_NID
  · simp only [if_pos h]
    have hg := faulty_coef_get_frame s IDX_BEEP_CFG
    generalize hc : (if is_active_pin k (Faulty.cs_vendor_coef_get s IDX_BEEP_CFG).2.1.codec
        CS_DMIC1_PIN_NID = true then
        (if is_active_pin k (Faulty.cs_vendor_coef_get s IDX_BEEP_CFG).2.1.codec
            CS_DMIC2_PIN_NID = true then
          (Faulty.cs_vendor_coef_get s IDX_BEEP_CFG).1 &&& U32_MAX ||| 1 <<< 4
         else (Faulty.cs_vendor_coef_get s IDX_BEEP_CFG).1 &&& U32_MAX) ||| 1 <<< 3
      else
        (if is_active_pin k (Faulty.cs_vendor_coef_get s IDX_BEEP_CFG).2.1.codec
            CS_DMIC2_PIN_NID = true then
          (Faulty.cs_vendor_coef_get s IDX_BEEP_CFG).1 &&& U32_MAX ||| 1 <<< 4
         else (Faulty.cs_vendor_coef_get s IDX_BEEP_CFG).1 &&& U32_MAX)) = coef
    have hs := faulty_coef_set_frame (Faulty.cs_vendor_coef_get s IDX_BEEP_CFG).2.1
      IDX_BEEP_CFG coef
    refine ⟨hs.1.trans hg.1, hs.2.1.trans hg.2.1, coef, ?_⟩
    rw [hg.2.2, hs.2.2, hg.1, h]
    rfl
  · simp only [if_neg h]
    exact ⟨trivial, trivial, 0, trivial⟩

/-- The S/PDIF coefficient setup on the faulty bus records its write whatever the
outcomes. -/
theorem faulty_init_digital_coef_frame (k : hda_consts) (s : faulty_bus) :
    (Faulty.init_digital_coef k s).1.codec.spec = s.codec.spec ∧
    ∃ coef,
      (Faulty.init_digital_coef k s).2
        = [hda_event.codec_write s.codec.spec.vendor_nid AC_VERB_SET_COEF_INDEX IDX_SPDIF_CTL,
           hda_event.codec_write s.codec.spec.vendor_nid AC_VERB_SET_PROC_COEF coef] := by
  unfold Faulty.init_digital_coef
  exact ⟨(faulty_coef_set_frame s IDX_SPDIF_CTL _).1, _, (faulty_coef_set_frame s _ _).2.2⟩

/-- The verb block of `cs_init` on the faulty bus records the tables of the original,
whatever the outcomes. -/
theorem faulty_cs_init_verbs_frame (s : faulty_bus) :
    (Faulty.cs_init_verbs s).1.codec.spec = s.codec.spec ∧
    (Faulty.cs_init_verbs s).2 = (cs_init_verbs s.codec).2 := by
  rw [(cs_init_verbs_frame s.codec).2]
  unfold Faulty.cs_init_verbs
  split
  · have a := faulty_sequence_write_frame cs_errata_init_verbs s
    have b := faulty_sequence_write_frame cs_coef_init_verbs
      (Faulty.snd_hda_sequence_write s cs_errata_init_verbs).1
    refine ⟨b.1.trans a.1, ?_⟩
    show (Faulty.snd_hda_sequence_write s cs_errata_init_verbs).2
      ++ (Faulty.snd_hda_sequence_write (Faulty.snd_hda_sequence_write s
        cs_errata_init_verbs).1 cs_coef_init_verbs).2 = _
    rw [a.2.2, b.2.2]
  · split
    · have a := faulty_sequence_write_frame cs4208_coef_init_verbs s
      exact ⟨a.1, a.2.2⟩
    · exact ⟨rfl, rfl⟩

/-- On the faulty bus `cs_automute` computes the driver state of the original and records
the calls of the original, whatever the outcome of its write. -/
theorem faulty_cs_automute_frame (s : faulty_bus) :
    (Faulty.cs_automute s).1.codec.spec = (cs_automute s.codec).1.spec ∧
    (Faulty.cs_automute s).2 = (cs_automute s.codec).2 := by
  by_cases h : s.codec.spec.gpio_eapd_hp ≠ 0 ∨ s.codec.spec.gpio_eapd_speaker ≠ 0
  · simp only [Faulty.cs_automute, cs_automute, if_pos h]
    refine ⟨?_, ?_⟩
    · rw [(faulty_write_frame _ _ _ _).1, (snd_hda_codec_write_frame _ _ _ _).1]
    · rw [(faulty_write_frame _ _ _ _).2.2, (snd_hda_codec_write_frame _ _ _ _).2.2]
  · simp only [Faulty.cs_automute, cs_automute, if_neg h]
    exact ⟨trivial, trivial⟩

/-- The calls of `cs_automute` on two driver states with the same EAPD bits are the same
up to the value written. -/
theorem cs_automute_shape (a b : hda_codec)
    (h1 : a.spec.gpio_eapd_hp = b.spec.gpio_eapd_hp)
    (h2 : a.spec.gpio_eapd_speaker = b.spec.gpio_eapd_speaker) :
    (cs_automute a).2.map event_address = (cs_automute b).2.map event_address := by
  rw [cs_automute_events a, cs_automute_events b, h1, h2]
  by_cases h : b.spec.gpio_eapd_hp ≠ 0 ∨ b.spec.gpio_eapd_speaker ≠ 0
  · simp only [if_pos h]
    rfl
  · simp only [if_neg h]

/-- The calls of the S/PDIF evaluation on the faulty bus and on the original, from driver
states with the same policy, are the same up to the value written. -/
theorem faulty_spdif_automute_shape (k : hda_consts) (jack_sense : hda_nid_t → Bool)
    (s : faulty_bus) (c : hda_codec) (h : same_policy s.codec.spec c.spec) :
    (Faulty.cs4210_spdif_automute k jack_sense s).2.map event_address
      = (cs4210_spdif_automute k jack_sense c).2.map event_address := by
  obtain ⟨hv, _, hhp, hspk, hd, hp, hpins⟩ := h
  unfold Faulty.cs4210_spdif_automute cs4210_spdif_automute
  simp only [hv, hd, hp, hpins]
  split
  · rfl
  · split
    · rfl
    · rw [(faulty_cs_automute_frame _).2]
      simp only [List.map_append]
      congr 1
      exact cs_automute_shape _ _ hhp hspk

/-- The calls of the GPIO block on the faulty bus and on the original, from driver states
with the same GPIO mask, are the same up to the values written. -/
theorem faulty_init_gpio_shape (s : faulty_bus) (c : hda_codec)
    (h : s.codec.spec.gpio_mask = c.spec.gpio_mask) :
    (Faulty.init_gpio s).2.map event_address = (init_gpio c).2.map event_address := by
  rw [(faulty_init_gpio_frame s).2.2, (init_gpio_frame c).2.2, h]
  by_cases hm : c.spec.gpio_mask ≠ 0
  · simp only [if_pos hm]
    rfl
  · simp only [if_neg hm]

/-- The calls of the input-coefficient setup on the faulty bus and on the original, from
driver states with the same chip identity, are the same up to the value written. -/
theorem faulty_init_input_coef_shape (k : hda_consts) (s : faulty_bus) (c : hda_codec)
    (h : s.codec.spec.vendor_nid = c.spec.vendor_nid) :
    (Faulty.init_input_coef k s).2.map event_address
      = (init_input_coef k c).2.map event_address := by
  obtain ⟨a, ha⟩ := (faulty_init_input_coef_frame k s).2.2
  obtain ⟨b, hb⟩ := (init_input_coef_frame k c).2.2
  rw [ha, hb, h]
  by_cases hv : c.spec.vendor_nid = CS420X_VENDOR_NID
  · simp only [if_pos hv]
    rfl
  · simp only [if_neg hv]

/-- The calls of the S/PDIF coefficient setup on the faulty bus and on the original, from
driver states with the same chip identity, are the same up to the value written. -/
theorem faulty_init_digital_coef_shape (k : hda_consts) (s : faulty_bus) (c : hda_codec)
    (h : s.codec.spec.vendor_nid = c.spec.vendor_nid) :
    (Faulty.init_digital_coef k s).2.map event_address
      = (init_digital_coef k c).2.map event_address := by
  obtain ⟨a, ha⟩ := (faulty_init_digital_coef_frame k s).2
  obtain ⟨b, _, hb⟩ := (init_digital_coef_frame k c).2
  rw [ha, hb, h]
  rfl

/-- The pin-mux programming on the faulty bus leaves the driver state as it is and records
its read and its write whatever the outcomes. -/
theorem faulty_pinmux_init_frame (k : hda_consts) (s : faulty_bus) :
    (Faulty.cs4210_pinmux_init k s).1.codec.spec = s.codec.spec ∧
    ∃ coef, (Faulty.cs4210_pinmux_init k s).2
      = [hda_event.codec_write s.codec.spec.vendor_nid AC_VERB_SET_COEF_INDEX CS421X_IDX_DEV_CFG,
         hda_event.codec_read s.codec.spec.vendor_nid AC_VERB_GET_PROC_COEF 0,
         hda_event.codec_write s.codec.spec.vendor_nid AC_VERB_SET_COEF_INDEX CS421X_IDX_DEV_CFG,
         hda_event.codec_write s.codec.spec.vendor_nid AC_VERB_SET_PROC_COEF coef] := by
  have hg := faulty_coef_get_frame s CS421X_IDX_DEV_CFG
  unfold Faulty.cs4210_pinmux_init
  simp only [apply_ite Prod.fst, apply_ite Prod.snd, apply_ite faulty_bus.codec,
    apply_ite hda_codec.spec, ite_self]
  generalize (if s.codec.spec.sense_b = true then
      (if s.codec.spec.gpio_mask ≠ 0 then
          (Faulty.cs_vendor_coef_get s CS421X_IDX_DEV_CFG).1 &&& U32_MAX ||| 8
        else (Faulty.cs_vendor_coef_get s CS421X_IDX_DEV_CFG).1 &&& U32_MAX &&& (U32_MAX ^^^ 8))
        ||| 16
    else
      (if s.codec.spec.gpio_mask ≠ 0 then
          (Faulty.cs_vendor_coef_get s CS421X_IDX_DEV_CFG).1 &&& U32_MAX ||| 8
        else (Faulty.cs_vendor_coef_get s CS421X_IDX_DEV_CFG).1 &&& U32_MAX &&& (U32_MAX ^^^ 8))
        &&& (U32_MAX ^^^ 16)) = coef
  have hs := faulty_coef_set_frame (Faulty.cs_vendor_coef_get s CS421X_IDX_DEV_CFG).2.1
    CS421X_IDX_DEV_CFG coef
  refine ⟨?_, coef, ?_⟩
  · exact (ite_self _).trans (hs.1.trans hg.1)
  · rw [hg.2.2, hs.2.2, hg.1]
    rfl

/-- The block that opens `cs421x_init` on the faulty bus leaves the driver state as it is
and makes the calls of the original up to the value of the pin-mux coefficient. -/
theorem faulty_cs421x_init_verbs_shape (k : hda_consts) (s : faulty_bus) :
    (Faulty.cs421x_init_verbs k s).1.codec.spec = s.codec.spec ∧
    (Faulty.cs421x_init_verbs k s).2.map event_address
      = (cs421x_init_verbs k s.codec).2.map event_address := by
  unfold Faulty.cs421x_init_verbs cs421x_init_verbs
  by_cases h : s.codec.spec.vendor_nid = CS4210_VENDOR_NID
  · simp only [if_pos h]
    have a := faulty_sequence_write_frame cs421x_coef_init_verbs s
    have b := faulty_sequence_write_frame cs421x_coef_init_verbs_A1_silicon_fixes
      (Faulty.snd_hda_sequence_write s cs421x_coef_init_verbs).1
    have m := faulty_pinmux_init_frame k
      (Faulty.snd_hda_sequence_write (Faulty.snd_hda_sequence_write s
        cs421x_coef_init_verbs).1 cs421x_coef_init_verbs_A1_silicon_fixes).1
    have a2 := snd_hda_sequence_write_frame cs421x_coef_init_verbs s.codec
    have b2 := snd_hda_sequence_write_frame cs421x_coef_init_verbs_A1_silicon_fixes
      (snd_hda_sequence_write s.codec cs421x_coef_init_verbs).1
    obtain ⟨c1, hc1⟩ := m.2
    obtain ⟨c2, hc2⟩ := cs4210_pinmux_init_recording k
      (snd_hda_sequence_write (snd_hda_sequence_write s.codec
        cs421x_coef_init_verbs).1 cs421x_coef_init_verbs_A1_silicon_fixes).1
    refine ⟨m.1.trans (b.1.trans a.1), ?_⟩
    rw [a.2.2, b.2.2, hc1, a2.2.2, b2.2.2, hc2, b.1, a.1, b2.1, a2.1]
    simp only [List.map_append]
    rfl
  · simp only [if_neg h]
    exact ⟨trivial, trivial⟩

/-- The recording of `cs_init` on the faulty bus, block by block. -/
theorem faulty_cs_init_recording (k : hda_consts) (core : hda_core) (s : faulty_bus) :
    (Faulty.cs_init k core s).1 = 0 ∧
    (Faulty.cs_init k core s).2.2
      = (Faulty.cs_init_verbs s).2 ++ [hda_event.gen_init]
        ++ (Faulty.init_gpio
            { (Faulty.cs_init_verbs s).1 with
              codec := core.snd_hda_gen_init (Faulty.cs_init_verbs s).1.codec }).2
        ++ (if (Faulty.init_gpio
                { (Faulty.cs_init_verbs s).1 with
                  codec := core.snd_hda_gen_init (Faulty.cs_init_verbs s).1.codec }).1.codec.spec.vendor_nid
              = CS420X_VENDOR_NID then
            (Faulty.init_input_coef k (Faulty.init_gpio
                { (Faulty.cs_init_verbs s).1 with
                  codec := core.snd_hda_gen_init (Faulty.cs_init_verbs s).1.codec }).1).2
            ++ (Faulty.init_digital_coef k
                (Faulty.init_input_coef k (Faulty.init_gpio
                  { (Faulty.cs_init_verbs s).1 with
                    codec := core.snd_hda_gen_init (Faulty.cs_init_verbs s).1.codec }).1).1).2
          else []) := by
  unfold Faulty.cs_init
  simp only []
  split
  · exact ⟨rfl, by simp only [List.append_assoc]⟩
  · exact ⟨rfl, by simp only [List.append_nil]⟩

/-- Under the frame condition the generic initialization keeps the policy. -/
theorem gen_init_same_policy (core : hda_core) (hf : gen_init_keeps_policy core)
    (x : hda_codec) : same_policy (core.snd_hda_gen_init x).spec x.spec := by
  obtain ⟨h1, h2, _, h4, h5, h6, h7, h8⟩ := hf x
  exact ⟨h1, h2, h4, h5, h6, h7, h8⟩

/-- On the faulty bus `cs_init` returns 0 and makes the calls of the original, in the same
order, up to the values written, whatever the outcome of each write. -/
theorem faulty_cs_init_shape (k : hda_consts) (core : hda_core) (s : faulty_bus)
    (hf : gen_init_keeps_policy core) :
    (Faulty.cs_init k core s).1 = 0 ∧
    (Faulty.cs_init k core s).2.2.map event_address
      = (cs_init k core s.codec).2.2.map event_address := by
  have hF := faulty_cs_init_recording k core s
  have hO := cs_init_recording k core s.codec
  refine ⟨hF.1, ?_⟩
  rw [hF.2, hO.2]
  have hv := faulty_cs_init_verbs_frame s
  have hvO := cs_init_verbs_frame s.codec
  have p2 := gen_init_same_policy core hf (Faulty.cs_init_verbs s).1.codec
  have p2O := gen_init_same_policy core hf (cs_init_verbs s.codec).1
  have g := faulty_init_gpio_frame
    { (Faulty.cs_init_verbs s).1 with
      codec := core.snd_hda_gen_init (Faulty.cs_init_verbs s).1.codec }
  have gO := init_gpio_frame (core.snd_hda_gen_init (cs_init_verbs s.codec).1)
  have i := faulty_init_input_coef_frame k (Faulty.init_gpio
    { (Faulty.cs_init_verbs s).1 with
      codec := core.snd_hda_gen_init (Faulty.cs_init_verbs s).1.codec }).1
  have iO := init_input_coef_frame k (init_gpio (core.snd_hda_gen_init
    (cs_init_verbs s.codec).1)).1
  have e2 : (core.snd_hda_gen_init (Faulty.cs_init_verbs s).1.codec).spec.vendor_nid
      = s.codec.spec.vendor_nid := by rw [p2.1, hv.1]
  have e2O : (core.snd_hda_gen_init (cs_init_verbs s.codec).1).spec.vendor_nid
      = s.codec.spec.vendor_nid := by rw [p2O.1, hvO.1]
  have m2 : (core.snd_hda_gen_init (Faulty.cs_init_verbs s).1.codec).spec.gpio_mask
      = (core.snd_hda_gen_init (cs_init_verbs s.codec).1).spec.gpio_mask := by
    rw [p2.2.1, hv.1, p2O.2.1, hvO.1]
  have e3 : (Faulty.init_gpio
      { (Faulty.cs_init_verbs s).1 with
        codec := core.snd_hda_gen_init (Faulty.cs_init_verbs s).1.codec }).1.codec.spec.vendor_nid
      = s.codec.spec.vendor_nid := by rw [g.1]; exact e2
  have e3O : (init_gpio (core.snd_hda_gen_init (cs_init_verbs s.codec).1)).1.spec.vendor_nid
      = s.codec.spec.vendor_nid := by rw [gO.1]; exact e2O
  have sg := faulty_init_gpio_shape
    { (Faulty.cs_init_verbs s).1 with
      codec := core.snd_hda_gen_init (Faulty.cs_init_verbs s).1.codec }
    (core.snd_hda_gen_init (cs_init_verbs s.codec).1) m2
  have si := faulty_init_input_coef_shape k (Faulty.init_gpio
    { (Faulty.cs_init_verbs s).1 with
      codec := core.snd_hda_gen_init (Faulty.cs_init_verbs s).1.codec }).1
    (init_gpio (core.snd_hda_gen_init (cs_init_verbs s.codec).1)).1 (e3.trans e3O.symm)
  have sd := faulty_init_digital_coef_shape k
    (Faulty.init_input_coef k (Faulty.init_gpio
      { (Faulty.cs_init_verbs s).1 with
        codec := core.snd_hda_gen_init (Faulty.cs_init_verbs s).1.codec }).1).1
    (init_input_coef k (init_gpio (core.snd_hda_gen_init (cs_init_verbs s.codec).1)).1).1
    (by rw [i.1, iO.1]; exact e3.trans e3O.symm)
  rw [e2O, e3]
  simp only [List.map_append, hv.2, sg]
  congr 1
  by_cases hc : s.codec.spec.vendor_nid = CS420X_VENDOR_NID
  · simp only [if_pos hc, List.map_append, si, sd]
  · simp only [if_neg hc]

/-- Two driver states with the policy of a third have the same policy. -/
theorem same_policy_of_common (a b x : cs_spec) (h1 : same_policy a x)
    (h2 : same_policy b x) : same_policy a b := by
  obtain ⟨a1, a2, a3, a4, a5, a6, a7⟩ := h1
  obtain ⟨b1, b2, b3, b4, b5, b6, b7⟩ := h2
  exact ⟨a1.trans b1.symm, a2.trans b2.symm, a3.trans b3.symm, a4.trans b4.symm,
    a5.trans b5.symm, a6.trans b6.symm, a7.trans b7.symm⟩

/-- On the faulty bus `cs421x_init` returns 0 and makes the calls of the original, in the
same order, up to the values written, whatever the outcome of each write. -/
theorem faulty_cs421x_init_shape (k : hda_consts) (core : hda_core)
    (jack_sense : hda_nid_t → Bool) (s : faulty_bus) (hf : gen_init_keeps_policy core) :
    (Faulty.cs421x_init k core jack_sense s).1 = 0 ∧
    (Faulty.cs421x_init k core jack_sense s).2.2.map event_address
      = (cs421x_init k core jack_sense s.codec).2.2.map event_address := by
  refine ⟨rfl, ?_⟩
  have hO := (cs421x_init_recording k core jack_sense s.codec).2.2
  have hF : (Faulty.cs421x_init k core jack_sense s).2.2
      = (Faulty.cs421x_init_verbs k s).2 ++ [hda_event.gen_init]
        ++ (Faulty.init_gpio
            { (Faulty.cs421x_init_verbs k s).1 with
              codec := core.snd_hda_gen_init (Faulty.cs421x_init_verbs k s).1.codec }).2
        ++ (Faulty.init_input_coef k (Faulty.init_gpio
            { (Faulty.cs421x_init_verbs k s).1 with
              codec := core.snd_hda_gen_init (Faulty.cs421x_init_verbs k s).1.codec }).1).2
        ++ (Faulty.cs4210_spdif_automute k jack_sense
            (Faulty.init_input_coef k (Faulty.init_gpio
              { (Faulty.cs421x_init_verbs k s).1 with
                codec := core.snd_hda_gen_init
                  (Faulty.cs421x_init_verbs k s).1.codec }).1).1).2 := rfl
  rw [hF, hO]
  have hv := faulty_cs421x_init_verbs_shape k s
  have hvO := (cs421x_init_verbs_frame k s.codec).1
  have p2 := gen_init_same_policy core hf (Faulty.cs421x_init_verbs k s).1.codec
  have p2O := gen_init_same_policy core hf (cs421x_init_verbs k s.codec).1
  rw [hv.1] at p2
  rw [hvO] at p2O
  have pp := same_policy_of_common _ _ _ p2 p2O
  have g := faulty_init_gpio_frame
    { (Faulty.cs421x_init_verbs k s).1 with
      codec := core.snd_hda_gen_init (Faulty.cs421x_init_verbs k s).1.codec }
  have gO := init_gpio_frame (core.snd_hda_gen_init (cs421x_init_verbs k s.codec).1)
  have i := faulty_init_input_coef_frame k (Faulty.init_gpio
    { (Faulty.cs421x_init_verbs k s).1 with
      codec := core.snd_hda_gen_init (Faulty.cs421x_init_verbs k s).1.codec }).1
  have iO := init_input_coef_frame k (init_gpio (core.snd_hda_gen_init
    (cs421x_init_verbs k s.codec).1)).1
  have sg := faulty_init_gpio_shape
    { (Faulty.cs421x_init_verbs k s).1 with
      codec := core.snd_hda_gen_init (Faulty.cs421x_init_verbs k s).1.codec }
    (core.snd_hda_gen_init (cs421x_init_verbs k s.codec).1) pp.2.1
  have si := faulty_init_input_coef_shape k (Faulty.init_gpio
    { (Faulty.cs421x_init_verbs k s).1 with
      codec := core.snd_hda_gen_init (Faulty.cs421x_init_verbs k s).1.codec }).1
    (init_gpio (core.snd_hda_gen_init (cs421x_init_verbs k s.codec).1)).1
    (by rw [g.1, gO.1]; exact pp.1)
  have sa := faulty_spdif_automute_shape k jack_sense
    (Faulty.init_input_coef k (Faulty.init_gpio
      { (Faulty.cs421x_init_verbs k s).1 with
        codec := core.snd_hda_gen_init (Faulty.cs421x_init_verbs k s).1.codec }).1).1
    (init_input_coef k (init_gpio (core.snd_hda_gen_init
      (cs421x_init_verbs k s.codec).1)).1).1
    (by rw [i.1, g.1, iO.1, gO.1]; exact pp)
  simp only [List.map_append, hv.2, sg, si, sa]

/-- With no failing write the write on the faulty bus is the write of the original. -/
theorem faulty_write_ok (c : hda_codec) (nid : hda_nid_t) (verb : hda_verb_id) (param : Nat) :
    Faulty.snd_hda_codec_write { codec := c, outcomes := [] } nid verb param
      = (0, { codec := (snd_hda_codec_write c nid verb param).1, outcomes := [] },
          (snd_hda_codec_write c nid verb param).2) := rfl

/-- With no failing write the sequence executor on the faulty bus is the one of the
original. -/
theorem faulty_sequence_write_ok (seq : List hda_verb) :
    ∀ c : hda_codec,
      Faulty.snd_hda_sequence_write { codec := c, outcomes := [] } seq
        = ({ codec := (snd_hda_sequence_write c seq).1, outcomes := [] },
            (snd_hda_sequence_write c seq).2) := by
  induction seq with
  | nil => intro c; rfl
  | cons v rest ih =>
    intro c
    by_cases hv : v.nid = 0
    · simp only [Faulty.snd_hda_sequence_write, snd_hda_sequence_write, if_pos hv]
    · simp only [Faulty.snd_hda_sequence_write, snd_hda_sequence_write, if_neg hv,
        faulty_write_ok, ih]

/-- With no failing write the coefficient read on the faulty bus is the one of the
original. -/
theorem faulty_coef_get_ok (c : hda_codec) (idx : Nat) :
    Faulty.cs_vendor_coef_get { codec := c, outcomes := [] } idx
      = ((cs_vendor_coef_get c idx).1,
          { codec := (cs_vendor_coef_get c idx).2.1, outcomes := [] },
          (cs_vendor_coef_get c idx).2.2) := rfl

/-- With no failing write the coefficient write on the faulty bus is the one of the
original. -/
theorem faulty_coef_set_ok (c : hda_codec) (idx coef : Nat) :
    Faulty.cs_vendor_coef_set { codec := c, outcomes := [] } idx coef
      = ({ codec := (cs_vendor_coef_set c idx coef).1, outcomes := [] },
          (cs_vendor_coef_set c idx coef).2) := rfl

/-- With no failing write `cs_automute` on the faulty bus is the original. -/
theorem faulty_cs_automute_ok (c : hda_codec) :
    Faulty.cs_automute { codec := c, outcomes := [] }
      = ({ codec := (cs_automute c).1, outcomes := [] }, (cs_automute c).2) := by
  by_cases h : c.spec.gpio_eapd_hp ≠ 0 ∨ c.spec.gpio_eapd_speaker ≠ 0
  · simp only [Faulty.cs_automute, cs_automute, if_pos h, faulty_write_ok]
  · simp only [Faulty.cs_automute, cs_automute, if_neg h]

/-- With no failing write the S/PDIF evaluation on the faulty bus is the original. -/
theorem faulty_spdif_automute_ok (k : hda_consts) (jack_sense : hda_nid_t → Bool)
    (c : hda_codec) :
    Faulty.cs4210_spdif_automute k jack_sense { codec := c, outcomes := [] }
      = ({ codec := (cs4210_spdif_automute k jack_sense c).1, outcomes := [] },
          (cs4210_spdif_automute k jack_sense c).2) := by
  unfold Faulty.cs4210_spdif_automute cs4210_spdif_automute
  simp only [faulty_cs_automute_ok]
  split
  · rfl
  · split <;> rfl

/-- With no failing write the GPIO block on the faulty bus is the original. -/
theorem faulty_init_gpio_ok (c : hda_codec) :
    Faulty.init_gpio { codec := c, outcomes := [] }
      = ({ codec := (init_gpio c).1, outcomes := [] }, (init_gpio c).2) := by
  by_cases h : c.spec.gpio_mask ≠ 0
  · simp only [Faulty.init_gpio, init_gpio, if_pos h, faulty_write_ok]
  · simp only [Faulty.init_gpio, init_gpio, if_neg h]

/-- With no failing write the input-coefficient setup on the faulty bus is the
original. -/
theorem faulty_init_input_coef_ok (k : hda_consts) (c : hda_codec) :
    Faulty.init_input_coef k { codec := c, outcomes := [] }
      = ({ codec := (init_input_coef k c).1, outcomes := [] }, (init_input_coef k c).2) := by
  by_cases h : c.spec.vendor_nid = CS420X_VENDOR_NID
  · simp only [Faulty.init_input_coef, init_input_coef, if_pos h, faulty_coef_get_ok,
      faulty_coef_set_ok]
  · simp only [Faulty.init_input_coef, init_input_coef, if_neg h]

/-- With no failing write the S/PDIF coefficient setup on the faulty bus is the
original. -/
theorem faulty_init_digital_coef_ok (k : hda_consts) (c : hda_codec) :
    Faulty.init_digital_coef k { codec := c, outcomes := [] }
      = ({ codec := (init_digital_coef k c).1, outcomes := [] },
          (init_digital_coef k c).2) := by
  simp only [Faulty.init_digital_coef, init_digital_coef, faulty_coef_set_ok]

/-- With no failing write the verb block of `cs_init` on the faulty bus is the
original. -/
theorem faulty_cs_init_verbs_ok (c : hda_codec) :
    Faulty.cs_init_verbs { codec := c, outcomes := [] }
      = ({ codec := (cs_init_verbs c).1, outcomes := [] }, (cs_init_verbs c).2) := by
  unfold Faulty.cs_init_verbs cs_init_verbs
  simp only [faulty_sequence_write_ok]
  split
  · rfl
  · split <;> rfl

/-- With no failing write `cs_init` on the faulty bus is the original. -/
theorem faulty_cs_init_ok (k : hda_consts) (core : hda_core) (c : hda_codec) :
    Faulty.cs_init k core { codec := c, outcomes := [] }
      = ((cs_init k core c).1, { codec := (cs_init k core c).2.1, outcomes := [] },
          (cs_init k core c).2.2) := by
  unfold Faulty.cs_init cs_init
  simp only [faulty_cs_init_verbs_ok, faulty_init_gpio_ok, faulty_init_input_coef_ok,
    faulty_init_digital_coef_ok]
  split <;> rfl

/-- With no failing write the pin-mux programming on the faulty bus is the original. -/
theorem faulty_pinmux_init_ok (k : hda_consts) (c : hda_codec) :
    Faulty.cs4210_pinmux_init k { codec := c, outcomes := [] }
      = ({ codec := (cs4210_pinmux_init k c).1, outcomes := [] },
          (cs4210_pinmux_init k c).2) := by
  unfold Faulty.cs4210_pinmux_init cs4210_pinmux_init
  simp only [faulty_coef_get_ok, faulty_coef_set_ok]
  generalize ((c.spec.gpio_mask ≠ 0 || c.spec.sense_b) && is_active_pin k _ _) = b
  cases b <;> rfl

/-- With no failing write the block that opens `cs421x_init` on the faulty bus is the
original. -/
theorem faulty_cs421x_init_verbs_ok (k : hda_consts) (c : hda_codec) :
    Faulty.cs421x_init_verbs k { codec := c, outcomes := [] }
      = ({ codec := (cs421x_init_verbs k c).1, outcomes := [] },
          (cs421x_init_verbs k c).2) := by
  unfold Faulty.cs421x_init_verbs cs421x_init_verbs
  simp only [faulty_sequence_write_ok, faulty_pinmux_init_ok]
  split <;> rfl

/-- With no failing write `cs421x_init` on the faulty bus is the original. -/
theorem faulty_cs421x_init_ok (k : hda_consts) (core : hda_core)
    (jack_sense : hda_nid_t → Bool) (c : hda_codec) :
    Faulty.cs421x_init k core jack_sense { codec := c, outcomes := [] }
      = ((cs421x_init k core jack_sense c).1,
          { codec := (cs421x_init k core jack_sense c).2.1, outcomes := [] },
          (cs421x_init k core jack_sense c).2.2) := by
  unfold Faulty.cs421x_init cs421x_init
  simp only [faulty_cs421x_init_verbs_ok, faulty_init_gpio_ok, faulty_init_input_coef_ok,
    faulty_spdif_automute_ok]

/-- C23. Bus failures do not abort bring-up: whatever the outcome, success or failure, of
each individual register write, and provided the generic initialization leaves the policy
as it is, `cs_init` and `cs421x_init` return 0 and make the calls of a run without
failure, on the same registers and in the same order (only the values written after a
coefficient read can differ), so every later write of the sequence is still attempted;
and `cs_automute` stores the `gpio_data` and the `master_mute` it computed in the device
state, and records its write, whether or not the write succeeds. With no failing write
the three functions on the faulty bus are the functions of the original bus. -/
theorem init_survives_bus_failures (k : hda_consts) (core : hda_core)
    (jack_sense : hda_nid_t → Bool) (codec : hda_codec) (outcomes : List Bool)
    (hf : gen_init_keeps_policy core) :
    (Faulty.cs_init k core { codec := codec, outcomes := outcomes }).1 = 0 ∧
    (Faulty.cs_init k core { codec := codec, outcomes := outcomes }).2.2.map event_address
      = (cs_init k core codec).2.2.map event_address ∧
    (Faulty.cs421x_init k core jack_sense { codec := codec, outcomes := outcomes }).1 = 0 ∧
    (Faulty.cs421x_init k core jack_sense
        { codec := codec, outcomes := outcomes }).2.2.map event_address
      = (cs421x_init k core jack_sense codec).2.2.map event_address ∧
    (Faulty.cs_automute { codec := codec, outcomes := outcomes }).1.codec.spec
      = (cs_automute codec).1.spec ∧
    (Faulty.cs_automute { codec := codec, outcomes := outcomes }).1.codec.spec.gpio_data
      = (cs_automute codec).1.spec.gpio_data ∧
    (Faulty.cs_automute { codec := codec, outcomes := outcomes }).2 = (cs_automute codec).2 ∧
    Faulty.cs_init k core { codec := codec, outcomes := [] }
      = ((cs_init k core codec).1, { codec := (cs_init k core codec).2.1, outcomes := [] },
          (cs_init k core codec).2.2) ∧
    Faulty.cs421x_init k core jack_sense { codec := codec, outcomes := [] }
      = ((cs421x_init k core jack_sense codec).1,
          { codec := (cs421x_init k core jack_sense codec).2.1, outcomes := [] },
          (cs421x_init k core jack_sense codec).2.2) ∧
    Faulty.cs_automute { codec := codec, outcomes := [] }
      = ({ codec := (cs_automute codec).1, outcomes := [] }, (cs_automute codec).2) := by
  have h1 := faulty_cs_init_shape k core { codec := codec, outcomes := outcomes } hf
  have h2 := faulty_cs421x_init_shape k core jack_sense
    { codec := codec, outcomes := outcomes } hf
  have h3 := faulty_cs_automute_frame { codec := codec, outcomes := outcomes }
  exact ⟨h1.1, h1.2, h2.1, h2.2, h3.1, by rw [h3.1], h3.2, faulty_cs_init_ok k core codec,
    faulty_cs421x_init_ok k core jack_sense codec, faulty_cs_automute_ok codec⟩

/-- Witness of C23: on the CS420x board with the GPIO bits 0x02 and 0x08, with the first
three writes failing, `cs_init` returns 0 and attempts as many accesses as without
failure; with its write failing, `cs_automute` still stores 0x0A in `gpio_data`. -/
theorem init_survives_bus_failures_witness :
    (Faulty.cs_init hda_consts_std hda_core_ok
        { codec := codec_gpio_13, outcomes := [false, false, false] }).1 = 0 ∧
    (Faulty.cs_init hda_consts_std hda_core_ok
        { codec := codec_gpio_13, outcomes := [false, false, false] }).2.2.length
      = (cs_init hda_consts_std hda_core_ok codec_gpio_13).2.2.length ∧
    (Faulty.cs_automute { codec := codec_gpio_13, outcomes := [false] }).1.codec.spec.gpio_data
      = 0x0A := by
  have h := init_survives_bus_failures hda_consts_std hda_core_ok (fun _ => true)
    codec_gpio_13 [false, false, false] hda_core_ok_keeps_policy
  have h2 := init_survives_bus_failures hda_consts_std hda_core_ok (fun _ => true)
    codec_gpio_13 [false] hda_core_ok_keeps_policy
  refine ⟨h.1, ?_, ?_⟩
  · have e := congrArg List.length h.2.1
    simpa only [List.length_map] using e
  · rw [h2.2.2.2.2.2.1]
    decide

end PatchCirrus
